import Mathlib

/-!
# mpv DRM atomic mode-setting helpers (`video/out/drm_atomic.c`)

A shallow embedding of the property store (`drm_object_*`) and of the plane
discovery performed by `drm_atomic_create_context`, followed by theorems about
them.

Conventions of the embedding:

* The kernel/libdrm side of the file descriptor is an explicit, deterministic
  value of type `drm_device`: each libdrm query used by the source is one field.
* A C function that may dereference a NULL pointer or otherwise leave defined
  behaviour returns `Except Fault _`; `.error f` is the fault, `.ok r` is a
  normal return of `r`.
* A pointer that may be NULL is an `Option`.
* `uint32_t` / `uint64_t` values are natural numbers; `int` selectors are
  integers.  The source stores plane ids in `int` locals and passes them back
  as `uint32_t`; that round trip preserves the value and the test against
  zero, so the locals are natural numbers here.
-/

namespace DrmAtomic

/-! ## Constants -/

/-- Value of `EINVAL` in `errno.h`. -/
def EINVAL : Int := 22

/-- Selector `DRM_OPTS_PRIMARY_PLANE` of `drm_atomic.h`. -/
def DRM_OPTS_PRIMARY_PLANE : Int := -1

/-- Selector `DRM_OPTS_OVERLAY_PLANE` of `drm_atomic.h`. -/
def DRM_OPTS_OVERLAY_PLANE : Int := -2

/-- Plane type value `DRM_PLANE_TYPE_OVERLAY` of the libdrm headers. -/
def DRM_PLANE_TYPE_OVERLAY : Nat := 0

/-- Plane type value `DRM_PLANE_TYPE_PRIMARY` of the libdrm headers. -/
def DRM_PLANE_TYPE_PRIMARY : Nat := 1

/-- Plane type value `DRM_PLANE_TYPE_CURSOR` of the libdrm headers. -/
def DRM_PLANE_TYPE_CURSOR : Nat := 2

/-- Object type tag `DRM_MODE_OBJECT_CRTC` of the libdrm headers. -/
def DRM_MODE_OBJECT_CRTC : Nat := 0xcccccccc

/-- Object type tag `DRM_MODE_OBJECT_CONNECTOR` of the libdrm headers. -/
def DRM_MODE_OBJECT_CONNECTOR : Nat := 0xc0c0c0c0

/-- Object type tag `DRM_MODE_OBJECT_PLANE` of the libdrm headers. -/
def DRM_MODE_OBJECT_PLANE : Nat := 0xeeeeeeee

/-! ## Data model -/

/-- Ways in which the C code can leave defined behaviour. -/
inductive Fault where
  | null_deref
  | out_of_bounds
  | bad_shift
deriving DecidableEq, Repr

/-- The fields of libdrm's `drmModePropertyRes` that the source reads. -/
structure drmModePropertyRes where
  prop_id : Nat
  name : String
deriving DecidableEq, Repr

/-- The libdrm record `drmModeObjectProperties`: `slots[i]` is the pair
`(props[i], prop_values[i])` and `count_props` is the number of slots. -/
structure drmModeObjectProperties where
  slots : List (Nat × Nat)
deriving DecidableEq, Repr

/-- Field `count_props` of `drmModeObjectProperties`. -/
def drmModeObjectProperties.count_props (p : drmModeObjectProperties) : Nat :=
  p.slots.length

/-- The record `struct drm_object` of `drm_atomic.h`.  `props_info`, when
non-NULL, is the array of (possibly NULL) property descriptors. -/
structure drm_object where
  fd : Int
  id : Nat
  type : Nat
  props : Option drmModeObjectProperties
  props_info : Option (List (Option drmModePropertyRes))
deriving DecidableEq, Repr

/-- The fields of libdrm's `drmModePlane` that the source reads. -/
structure drmModePlane where
  plane_id : Nat
  possible_crtcs : Nat
deriving DecidableEq, Repr

/-- The fields of libdrm's `drmModeRes` that the source reads. -/
structure drmModeRes where
  crtcs : List Nat
  connectors : List Nat
deriving DecidableEq, Repr

/-- One staged item of an atomic request: object id, property id, value. -/
structure drmModeAtomicReqItem where
  object_id : Nat
  property_id : Nat
  value : Nat
deriving DecidableEq, Repr

/-- A libdrm atomic request `drmModeAtomicReq`: the staged items in order. -/
abbrev drmModeAtomicReq := List drmModeAtomicReqItem

/-- The display device behind the file descriptor, as seen through the libdrm
queries the source makes.  `talloc_props_info id` tells whether the
`talloc_zero_size` of `props_info` for object `id` returns memory. -/
structure drm_device where
  drmModeGetResources : Option drmModeRes
  drmModeGetPlaneResources : Option (List Nat)
  drmModeGetConnector : Nat → Option Nat
  drmModeGetPlane : Nat → Option drmModePlane
  drmModeObjectGetProperties : Nat → Nat → Option drmModeObjectProperties
  drmModeGetProperty : Nat → Option drmModePropertyRes
  talloc_props_info : Nat → Bool

/-! ## libc / libdrm primitives -/

/-- The libc function `strcasecmp` on the characters of two C strings: the
sign of the first difference after folding ASCII upper case to lower case. -/
def strcasecmp : List Char → List Char → Int
  | [], [] => 0
  | [], _ :: _ => -1
  | _ :: _, [] => 1
  | a :: as, b :: bs =>
    if a.toLower = b.toLower then strcasecmp as bs
    else if a.toLower < b.toLower then -1 else 1

/-- The libdrm call `drmModeAtomicAddProperty` on a valid request: append the
item and return the new cursor. -/
def drmModeAtomicAddProperty (request : drmModeAtomicReq) (object_id property_id value : Nat) :
    Int × drmModeAtomicReq :=
  (Int.ofNat (request.length + 1),
    request ++ [{ object_id := object_id, property_id := property_id, value := value }])

/-! ## Property store -/

/-- Loop of `drm_object_free_properties`: visits `i, i+1, ...` for `n` more
rounds, clearing every non-NULL descriptor. -/
def free_properties_loop : Option (List (Option drmModePropertyRes)) → Nat → Nat →
    Except Fault (Option (List (Option drmModePropertyRes)))
  | info, 0, _ => .ok info
  | none, _ + 1, _ => .error .null_deref
  | some info, n + 1, i =>
    match info[i]? with
    | none => .error .out_of_bounds
    | some none => free_properties_loop (some info) n (i + 1)
    | some (some _) => free_properties_loop (some (info.set i none)) n (i + 1)

/-- The function `drm_object_free_properties`. -/
def drm_object_free_properties (object : drm_object) : Except Fault drm_object :=
  match object.props with
  | none => .ok object
  | some props =>
    match free_properties_loop object.props_info props.count_props 0 with
    | .error e => .error e
    | .ok _ => .ok { object with props_info := none, props := none }

/-- The function `drm_object_create_properties`; the result pairs the return
code with the object as the call leaves it. -/
def drm_object_create_properties (dev : drm_device) (object : drm_object) :
    Except Fault (Int × drm_object) :=
  let object := { object with props := dev.drmModeObjectGetProperties object.id object.type }
  match object.props with
  | some props =>
    let object := { object with
      props_info :=
        if dev.talloc_props_info object.id then
          some (List.replicate props.count_props none)
        else none }
    match object.props_info with
    | some _ =>
      .ok (0, { object with
        props_info := some (props.slots.map fun s => dev.drmModeGetProperty s.1) })
    | none =>
      match drm_object_free_properties object with
      | .error e => .error e
      | .ok o => .ok (-1, o)
  | none =>
    match drm_object_free_properties object with
    | .error e => .error e
    | .ok o => .ok (-1, o)

/-- Loop of `drm_object_get_property`: `n` rounds remain, `i` is the index. -/
def get_property_loop (props : drmModeObjectProperties)
    (props_info : Option (List (Option drmModePropertyRes))) (name : String) (value : Nat) :
    Nat → Nat → Except Fault (Int × Nat)
  | 0, _ => .ok (-EINVAL, value)
  | n + 1, i =>
    match props_info with
    | none => .error .null_deref
    | some info =>
      match info[i]? with
      | none => .error .out_of_bounds
      | some none => .error .null_deref
      | some (some p) =>
        if strcasecmp name.data p.name.data = 0 then
          match props.slots[i]? with
          | none => .error .out_of_bounds
          | some s => .ok (0, s.2)
        else get_property_loop props props_info name value n (i + 1)

/-- The function `drm_object_get_property`.  The argument `value` is the
content of `*value` before the call; the result pairs the return code with the
content of `*value` after it. -/
def drm_object_get_property (object : drm_object) (name : String) (value : Nat) :
    Except Fault (Int × Nat) :=
  match object.props with
  | none => .error .null_deref
  | some props => get_property_loop props object.props_info name value props.count_props 0

/-- Loop of `drm_object_set_property`: `n` rounds remain, `i` is the index. -/
def set_property_loop (request : drmModeAtomicReq) (object : drm_object)
    (props_info : Option (List (Option drmModePropertyRes))) (name : String) (value : Nat) :
    Nat → Nat → Except Fault (Int × drmModeAtomicReq)
  | 0, _ => .ok (-EINVAL, request)
  | n + 1, i =>
    match props_info with
    | none => .error .null_deref
    | some info =>
      match info[i]? with
      | none => .error .out_of_bounds
      | some none => .error .null_deref
      | some (some p) =>
        if strcasecmp name.data p.name.data = 0 then
          .ok (drmModeAtomicAddProperty request object.id p.prop_id value)
        else set_property_loop request object props_info name value n (i + 1)

/-- The function `drm_object_set_property`; the result pairs the return code
with the request after the call.  The object is only read. -/
def drm_object_set_property (request : drmModeAtomicReq) (object : drm_object)
    (name : String) (value : Nat) : Except Fault (Int × drmModeAtomicReq) :=
  match object.props with
  | none => .error .null_deref
  | some props => set_property_loop request object object.props_info name value props.count_props 0

/-- The function `drm_object_create` (the `talloc_zero` record starts with
NULL `props` and `props_info`).  `none` is the NULL return. -/
def drm_object_create (dev : drm_device) (fd : Int) (object_id type : Nat) :
    Except Fault (Option drm_object) :=
  let obj : drm_object :=
    { fd := fd, id := object_id, type := type, props := none, props_info := none }
  match drm_object_create_properties dev obj with
  | .error e => .error e
  | .ok (ret, obj) => if ret ≠ 0 then .ok none else .ok (some obj)

/-! ## Atomic context discovery -/

/-- The member `old` of `struct drm_atomic_context`: the saved property values. -/
structure drm_old_state where
  connector_crtc_id : Nat
  crtc_mode_id : Nat
  crtc_active : Nat
  osd_plane_fb_id : Nat
  osd_plane_crtc_id : Nat
  osd_plane_src_x : Nat
  osd_plane_src_y : Nat
  osd_plane_src_w : Nat
  osd_plane_src_h : Nat
  osd_plane_crtc_x : Nat
  osd_plane_crtc_y : Nat
  osd_plane_crtc_w : Nat
  osd_plane_crtc_h : Nat
deriving DecidableEq, Repr

/-- The all-zero `old` member that `talloc_zero` produces. -/
def drm_old_state.zero : drm_old_state :=
  { connector_crtc_id := 0, crtc_mode_id := 0, crtc_active := 0, osd_plane_fb_id := 0,
    osd_plane_crtc_id := 0, osd_plane_src_x := 0, osd_plane_src_y := 0, osd_plane_src_w := 0,
    osd_plane_src_h := 0, osd_plane_crtc_x := 0, osd_plane_crtc_y := 0, osd_plane_crtc_w := 0,
    osd_plane_crtc_h := 0 }

/-- The record `struct drm_atomic_context` of `drm_atomic.h`. -/
structure drm_atomic_context where
  fd : Int
  crtc : Option drm_object
  connector : Option drm_object
  osd_plane : Option drm_object
  video_plane : Option drm_object
  request : Option drmModeAtomicReq
  old : drm_old_state
deriving DecidableEq, Repr

/-- The first loop of `drm_atomic_create_context`: the index of the first entry
of `res->crtcs` equal to `crtc_id`, counting from `i`, or `-1`. -/
def find_crtc_index (crtc_id : Nat) : List Nat → Nat → Int
  | [], _ => -1
  | c :: rest, i => if c = crtc_id then Int.ofNat i else find_crtc_index crtc_id rest (i + 1)

/-- The connector loop of `drm_atomic_create_context`: the value of
`ctx->connector` when the loop ends. -/
def find_connector (dev : drm_device) (fd : Int) (connector_id : Nat) :
    List Nat → Except Fault (Option drm_object)
  | [] => .ok none
  | c :: rest =>
    match dev.drmModeGetConnector c with
    | none => find_connector dev fd connector_id rest
    | some id =>
      if id = connector_id then
        match drm_object_create dev fd id DRM_MODE_OBJECT_CONNECTOR with
        | .error e => .error e
        | .ok (some o) => .ok (some o)
        | .ok none => find_connector dev fd connector_id rest
      else find_connector dev fd connector_id rest

/-- The test `possible_crtcs & (1 << crtc_index)` of the plane loop.  Shifting
the `int` constant `1` by a negative count or by the width of `int` or more is
undefined. -/
def crtc_bit_test (possible_crtcs : Nat) (crtc_index : Int) : Except Fault Bool :=
  if crtc_index < 0 ∨ 32 ≤ crtc_index then .error .bad_shift
  else .ok (possible_crtcs &&& (1 <<< crtc_index.toNat) != 0)

/-- The locals and context slots that the plane loop of
`drm_atomic_create_context` updates. -/
structure scan_state where
  layercount : Int
  primary_id : Nat
  overlay_id : Nat
  osd_plane : Option drm_object
  video_plane : Option drm_object
deriving DecidableEq, Repr

/-- The state on entry to the plane loop. -/
def scan_state.init : scan_state :=
  { layercount := -1, primary_id := 0, overlay_id := 0, osd_plane := none, video_plane := none }

/-- One round of the plane loop of `drm_atomic_create_context` for the entry
`j` of `plane_res->planes`.  `.ok none` is the jump to `fail`. -/
def scan_plane (dev : drm_device) (fd : Int) (crtc_index : Int)
    (osd_plane_idx video_plane_idx : Int) (s : scan_state) (j : Nat) :
    Except Fault (Option scan_state) :=
  match dev.drmModeGetPlane j with
  | none => .error .null_deref
  | some drmplane =>
    let possible_crtcs := drmplane.possible_crtcs
    let plane_id := drmplane.plane_id
    match crtc_bit_test possible_crtcs crtc_index with
    | .error e => .error e
    | .ok false => .ok (some s)
    | .ok true =>
      match drm_object_create dev fd plane_id DRM_MODE_OBJECT_PLANE with
      | .error e => .error e
      | .ok none => .ok none
      | .ok (some plane) =>
        match drm_object_get_property plane "TYPE" 0 with
        | .error e => .error e
        | .ok (ret, value) =>
          if ret = -EINVAL then .ok none
          else if value ≠ DRM_PLANE_TYPE_CURSOR then
            let layercount := s.layercount + 1
            let primary_id :=
              if s.primary_id = 0 ∧ value = DRM_PLANE_TYPE_PRIMARY then plane_id
              else s.primary_id
            let overlay_id :=
              if s.overlay_id = 0 ∧ value = DRM_PLANE_TYPE_OVERLAY then plane_id
              else s.overlay_id
            if layercount = osd_plane_idx then
              .ok (some { s with layercount := layercount, primary_id := primary_id,
                                 overlay_id := overlay_id, osd_plane := some plane })
            else if layercount = video_plane_idx then
              .ok (some { s with layercount := layercount, primary_id := primary_id,
                                 overlay_id := overlay_id, video_plane := some plane })
            else
              .ok (some { s with layercount := layercount, primary_id := primary_id,
                                 overlay_id := overlay_id })
          else .ok (some s)

/-- The plane loop of `drm_atomic_create_context` over `plane_res->planes`. -/
def scan_planes (dev : drm_device) (fd : Int) (crtc_index : Int)
    (osd_plane_idx video_plane_idx : Int) : List Nat → scan_state →
    Except Fault (Option scan_state)
  | [], s => .ok (some s)
  | j :: rest, s =>
    match scan_plane dev fd crtc_index osd_plane_idx video_plane_idx s j with
    | .error e => .error e
    | .ok none => .ok none
    | .ok (some s1) => scan_planes dev fd crtc_index osd_plane_idx video_plane_idx rest s1

/-- The block of `drm_atomic_create_context` that fills `ctx->osd_plane` after
the plane loop.  `.ok none` is the jump to `fail`; `.ok (some p)` is the value
of `ctx->osd_plane` afterwards. -/
def resolve_osd_plane (dev : drm_device) (fd : Int) (osd_plane_idx : Int) (s : scan_state) :
    Except Fault (Option (Option drm_object)) :=
  match s.osd_plane with
  | none =>
    let osd_plane_id :=
      if osd_plane_idx = DRM_OPTS_OVERLAY_PLANE then s.overlay_id else s.primary_id
    if osd_plane_id ≠ 0 then
      match drm_object_create dev fd osd_plane_id DRM_MODE_OBJECT_PLANE with
      | .error e => .error e
      | .ok p => .ok (some p)
    else .ok none
  | some p => .ok (some (some p))

/-- The block of `drm_atomic_create_context` that fills `ctx->video_plane`
after the plane loop, with the same result convention as `resolve_osd_plane`. -/
def resolve_video_plane (dev : drm_device) (fd : Int) (video_plane_idx : Int) (s : scan_state) :
    Except Fault (Option (Option drm_object)) :=
  match s.video_plane with
  | none =>
    let video_plane_id :=
      if video_plane_idx = DRM_OPTS_PRIMARY_PLANE then s.primary_id else s.overlay_id
    if video_plane_id ≠ 0 then
      match drm_object_create dev fd video_plane_id DRM_MODE_OBJECT_PLANE with
      | .error e => .error e
      | .ok p => .ok (some p)
    else .ok none
  | some p => .ok (some (some p))

/-- The function `drm_atomic_create_context`.  `.ok none` is the NULL return,
`.ok (some ctx)` the returned context.  The final log line reads
`ctx->video_plane->id` and `ctx->osd_plane->id`. -/
def drm_atomic_create_context (dev : drm_device) (fd : Int) (crtc_id connector_id : Nat)
    (osd_plane_idx video_plane_idx : Int) : Except Fault (Option drm_atomic_context) :=
  match dev.drmModeGetResources with
  | none => .ok none
  | some res =>
    match dev.drmModeGetPlaneResources with
    | none => .ok none
    | some plane_res =>
      match drm_object_create dev fd crtc_id DRM_MODE_OBJECT_CRTC with
      | .error e => .error e
      | .ok none => .ok none
      | .ok (some crtc) =>
        let crtc_index := find_crtc_index crtc_id res.crtcs 0
        match find_connector dev fd connector_id res.connectors with
        | .error e => .error e
        | .ok connector =>
          match scan_planes dev fd crtc_index osd_plane_idx video_plane_idx plane_res
              scan_state.init with
          | .error e => .error e
          | .ok none => .ok none
          | .ok (some s) =>
            match resolve_osd_plane dev fd osd_plane_idx s with
            | .error e => .error e
            | .ok none => .ok none
            | .ok (some osd_plane) =>
              match resolve_video_plane dev fd video_plane_idx s with
              | .error e => .error e
              | .ok none => .ok none
              | .ok (some video_plane) =>
                match video_plane, osd_plane with
                | some _, some _ =>
                  .ok (some { fd := fd, crtc := some crtc, connector := connector,
                              osd_plane := osd_plane, video_plane := video_plane,
                              request := none, old := drm_old_state.zero })
                | _, _ => .error .null_deref

/-! ## Vocabulary of the statements -/

/-- Two names are equal ignoring ASCII case. -/
def eq_ignore_case (a b : String) : Prop :=
  a.data.map Char.toLower = b.data.map Char.toLower

instance (a b : String) : Decidable (eq_ignore_case a b) := by
  unfold eq_ignore_case
  infer_instance

/-- The planes that the plane loop fetches, in scan order. -/
def scanned_planes (dev : drm_device) (plane_res : List Nat) : List drmModePlane :=
  plane_res.filterMap dev.drmModeGetPlane

/-- The plane's possible-CRTCs bitmask has the bit at `crtc_index` set. -/
def has_crtc_bit (crtc_index : Int) (p : drmModePlane) : Bool :=
  decide (0 ≤ crtc_index) && p.possible_crtcs.testBit crtc_index.toNat

/-- The value of the TYPE property of the plane with the given id, when the
plane's property table loads and has that property. -/
def plane_TYPE (dev : drm_device) (fd : Int) (plane_id : Nat) : Option Nat :=
  match drm_object_create dev fd plane_id DRM_MODE_OBJECT_PLANE with
  | .ok (some plane) =>
    match drm_object_get_property plane "TYPE" 0 with
    | .ok (ret, value) => if ret = 0 then some value else none
    | .error _ => none
  | _ => none

/-- The eligible planes: the scanned planes that the target CRTC can drive. -/
def eligible_planes (dev : drm_device) (crtc_index : Int) (plane_res : List Nat) :
    List drmModePlane :=
  (scanned_planes dev plane_res).filter (has_crtc_bit crtc_index)

/-- The eligible planes that are not cursor-type, in scan order. -/
def layer_planes (dev : drm_device) (fd : Int) (crtc_index : Int) (plane_res : List Nat) :
    List drmModePlane :=
  (eligible_planes dev crtc_index plane_res).filter
    fun p => plane_TYPE dev fd p.plane_id != some DRM_PLANE_TYPE_CURSOR

/-- The first eligible plane of the given type, in scan order. -/
def first_of_type (dev : drm_device) (fd : Int) (crtc_index : Int) (plane_res : List Nat)
    (type : Nat) : Option drmModePlane :=
  (eligible_planes dev crtc_index plane_res).find?
    fun p => plane_TYPE dev fd p.plane_id == some type

/-- Object ids handed out by the kernel are never zero; the source relies on
this when it uses `0` for "no plane seen yet". -/
def plane_ids_nonzero (dev : drm_device) (plane_res : List Nat) : Prop :=
  ∀ p ∈ scanned_planes dev plane_res, p.plane_id ≠ 0

/-! ## Decomposition of the plane loop used by the proofs -/

/-- The part of one round of the plane loop that does not read the loop state:
`.ok none` is the jump to `fail`, `.ok (some none)` a plane that is passed over,
`.ok (some (some (plane, value)))` a non-cursor plane with its TYPE value. -/
def probe_plane (dev : drm_device) (fd : Int) (crtc_index : Int) (j : Nat) :
    Except Fault (Option (Option (drm_object × Nat))) :=
  match dev.drmModeGetPlane j with
  | none => .error .null_deref
  | some drmplane =>
    match crtc_bit_test drmplane.possible_crtcs crtc_index with
    | .error e => .error e
    | .ok false => .ok (some none)
    | .ok true =>
      match drm_object_create dev fd drmplane.plane_id DRM_MODE_OBJECT_PLANE with
      | .error e => .error e
      | .ok none => .ok none
      | .ok (some plane) =>
        match drm_object_get_property plane "TYPE" 0 with
        | .error e => .error e
        | .ok (ret, value) =>
          if ret = -EINVAL then .ok none
          else if value ≠ DRM_PLANE_TYPE_CURSOR then .ok (some (some (plane, value)))
          else .ok (some none)

/-- The update of the loop state for one non-cursor plane. -/
def claim_plane (osd_plane_idx video_plane_idx : Int) (s : scan_state) (c : drm_object × Nat) :
    scan_state :=
  let layercount := s.layercount + 1
  let primary_id :=
    if s.primary_id = 0 ∧ c.2 = DRM_PLANE_TYPE_PRIMARY then c.1.id else s.primary_id
  let overlay_id :=
    if s.overlay_id = 0 ∧ c.2 = DRM_PLANE_TYPE_OVERLAY then c.1.id else s.overlay_id
  if layercount = osd_plane_idx then
    { s with layercount := layercount, primary_id := primary_id,
             overlay_id := overlay_id, osd_plane := some c.1 }
  else if layercount = video_plane_idx then
    { s with layercount := layercount, primary_id := primary_id,
             overlay_id := overlay_id, video_plane := some c.1 }
  else
    { s with layercount := layercount, primary_id := primary_id, overlay_id := overlay_id }

/-- The non-cursor planes met by the plane loop, with their objects and TYPE
values, when every round gets past its checks. -/
def probe_planes (dev : drm_device) (fd : Int) (crtc_index : Int) :
    List Nat → Option (List (drm_object × Nat))
  | [] => some []
  | j :: rest =>
    match probe_plane dev fd crtc_index j with
    | .ok (some none) => probe_planes dev fd crtc_index rest
    | .ok (some (some c)) => (probe_planes dev fd crtc_index rest).map (c :: ·)
    | _ => none

/-! ## Devices used as concrete inputs -/

/-- The descriptor of the TYPE property on the example devices. -/
def type_property : drmModePropertyRes := { prop_id := 7, name := "type" }

/-- The resources of the example device: CRTC id 10 is at index 2. -/
def scenario_res : drmModeRes := { crtcs := [8, 9, 10], connectors := [20] }

/-- The plane ids of the example device, in plane-resource order. -/
def scenario_planes : List Nat := [31, 32, 33]

/-- A device with CRTC id 10 at resource index 2, connector 20, and planes
31 (PRIMARY), 32 (OVERLAY), 33 (CURSOR), each with possible-CRTCs `0b0100`. -/
def scenario_device : drm_device :=
  { drmModeGetResources := some scenario_res
    drmModeGetPlaneResources := some scenario_planes
    drmModeGetConnector := fun c => some c
    drmModeGetPlane := fun j => some { plane_id := j, possible_crtcs := 4 }
    drmModeObjectGetProperties := fun id _ =>
      if id = 31 then some { slots := [(7, DRM_PLANE_TYPE_PRIMARY)] }
      else if id = 32 then some { slots := [(7, DRM_PLANE_TYPE_OVERLAY)] }
      else if id = 33 then some { slots := [(7, DRM_PLANE_TYPE_CURSOR)] }
      else some { slots := [] }
    drmModeGetProperty := fun p => if p = 7 then some type_property else none
    talloc_props_info := fun _ => true }

/-- The example device without its overlay plane: planes 31 (PRIMARY) and
33 (CURSOR) only. -/
def no_overlay_device : drm_device :=
  { scenario_device with drmModeGetPlaneResources := some [31, 33] }

/-- The context inside a discovery result (an empty context when there is
none). -/
def the_context (r : Except Fault (Option drm_atomic_context)) : drm_atomic_context :=
  match r with
  | .ok (some ctx) => ctx
  | _ => { fd := 0, crtc := none, connector := none, osd_plane := none, video_plane := none,
           request := none, old := drm_old_state.zero }

/-- The ids of the OSD and video plane objects of a discovery result. -/
def plane_ids (r : Except Fault (Option drm_atomic_context)) :
    Option (Option (Option Nat × Option Nat)) :=
  match r with
  | .error _ => none
  | .ok none => some none
  | .ok (some ctx) => some (some (ctx.osd_plane.map (·.id), ctx.video_plane.map (·.id)))

/-- A loaded property table with three slots, all present. -/
def sample_object : drm_object :=
  { fd := 3, id := 40, type := DRM_MODE_OBJECT_PLANE,
    props := some { slots := [(1, 10), (2, 20), (3, 30)] },
    props_info := some [some { prop_id := 1, name := "FB_ID" },
                        some { prop_id := 2, name := "type" },
                        some { prop_id := 3, name := "TYPE" }] }

/-- A device on which the descriptor of property 1 cannot be fetched. -/
def absent_slot_device : drm_device :=
  { drmModeGetResources := none
    drmModeGetPlaneResources := none
    drmModeGetConnector := fun _ => none
    drmModeGetPlane := fun _ => none
    drmModeObjectGetProperties := fun _ _ => some { slots := [(1, 0), (2, 5)] }
    drmModeGetProperty := fun p => if p = 2 then some { prop_id := 2, name := "FB_ID" } else none
    talloc_props_info := fun _ => true }

/-- The object that `drm_object_create` builds for plane 40 of
`absent_slot_device`: slot 0 is recorded as absent. -/
def absent_slot_object : drm_object :=
  { fd := 3, id := 40, type := DRM_MODE_OBJECT_PLANE,
    props := some { slots := [(1, 0), (2, 5)] },
    props_info := some [none, some { prop_id := 2, name := "FB_ID" }] }

/-- A device whose objects have no retrievable properties. -/
def no_properties_device : drm_device :=
  { drmModeGetResources := some { crtcs := [10], connectors := [] }
    drmModeGetPlaneResources := some [31]
    drmModeGetConnector := fun _ => none
    drmModeGetPlane := fun j => some { plane_id := j, possible_crtcs := 1 }
    drmModeObjectGetProperties := fun _ _ => none
    drmModeGetProperty := fun _ => none
    talloc_props_info := fun _ => true }

/-- An object record whose property table is not loaded. -/
def unloaded_object : drm_object :=
  { fd := 3, id := 31, type := DRM_MODE_OBJECT_PLANE, props := none, props_info := none }

/-- A device on which the `talloc_zero_size` of `props_info` returns NULL. -/
def oom_device : drm_device :=
  { absent_slot_device with talloc_props_info := fun _ => false }

/-- The object as `drm_object_create_properties` holds it on `oom_device` when
it jumps to `fail`: `props` is set and `props_info` is NULL. -/
def half_built_object : drm_object :=
  { fd := 3, id := 40, type := DRM_MODE_OBJECT_PLANE,
    props := some { slots := [(1, 0), (2, 5)] }, props_info := none }

/-- The loop state inside a result of the plane loop (the initial state when
there is none). -/
def the_state (r : Except Fault (Option scan_state)) : scan_state :=
  match r with
  | .ok (some s) => s
  | _ => scan_state.init

/-- The example device with one more plane, 50, whose possible-CRTCs mask
`0b0011` lacks the bit of CRTC 10. -/
def mixed_device : drm_device :=
  { scenario_device with
    drmModeGetPlane := fun j =>
      if j = 50 then some { plane_id := 50, possible_crtcs := 3 }
      else some { plane_id := j, possible_crtcs := 4 } }

/-- The device `dev` with the plane-resource list replaced by `plane_res`. -/
def with_plane_res (dev : drm_device) (plane_res : List Nat) : drm_device :=
  { dev with drmModeGetPlaneResources := some plane_res }

/-! ## The plane loop over fetched planes -/

/-- The part of `probe_plane` that follows the fetch of the plane record. -/
def probe_fetched_plane (dev : drm_device) (fd : Int) (crtc_index : Int)
    (drmplane : drmModePlane) : Except Fault (Option (Option (drm_object × Nat))) :=
  match crtc_bit_test drmplane.possible_crtcs crtc_index with
  | .error e => .error e
  | .ok false => .ok (some none)
  | .ok true =>
    match drm_object_create dev fd drmplane.plane_id DRM_MODE_OBJECT_PLANE with
    | .error e => .error e
    | .ok none => .ok none
    | .ok (some plane) =>
      match drm_object_get_property plane "TYPE" 0 with
      | .error e => .error e
      | .ok (ret, value) =>
        if ret = -EINVAL then .ok none
        else if value ≠ DRM_PLANE_TYPE_CURSOR then .ok (some (some (plane, value)))
        else .ok (some none)

/-- The plane loop run over plane records that are already fetched. -/
def scan_fetched_planes (dev : drm_device) (fd : Int) (crtc_index : Int)
    (osd_plane_idx video_plane_idx : Int) : List drmModePlane → scan_state →
    Except Fault (Option scan_state)
  | [], s => .ok (some s)
  | p :: rest, s =>
    match probe_fetched_plane dev fd crtc_index p with
    | .error e => .error e
    | .ok none => .ok none
    | .ok (some none) =>
      scan_fetched_planes dev fd crtc_index osd_plane_idx video_plane_idx rest s
    | .ok (some (some c)) =>
      scan_fetched_planes dev fd crtc_index osd_plane_idx video_plane_idx rest
        (claim_plane osd_plane_idx video_plane_idx s c)

/-! ## State snapshot -/

/-- Modelled from the spec: one read of `drm_atomic_save_old_state`, which is
declared in `drm_atomic.h` but whose body is not among the sources.  The spec
says each tracked value is read via the property store's `get`; a failed
lookup makes the result an error and leaves the stored value as it was. -/
def save_old_property (object : Option drm_object) (name : String) (value : Nat) (ret : Int) :
    Except Fault (Int × Nat) :=
  match object with
  | none => .error .null_deref
  | some o =>
    match drm_object_get_property o name value with
    | .error e => .error e
    | .ok r => .ok (if r.1 < 0 then -1 else ret, r.2)

/-- Modelled from the spec: one step of `drm_atomic_restore_old_state`, which
is declared in `drm_atomic.h` but whose body is not among the sources.  The
spec says each captured value is re-staged via the property store's `set`; a
failed lookup makes the result an error and stages nothing. -/
def restore_old_property (request : drmModeAtomicReq) (object : Option drm_object)
    (name : String) (value : Nat) (ret : Int) : Except Fault (Int × drmModeAtomicReq) :=
  match object with
  | none => .error .null_deref
  | some o =>
    match drm_object_set_property request o name value with
    | .error e => .error e
    | .ok r => .ok (if r.1 < 0 then -1 else ret, r.2)

/-- Modelled from the spec: `drm_atomic_save_old_state`, declared in
`drm_atomic.h` but not defined among the sources.  It captures, in this fixed
order, the connector's CRTC_ID, the CRTC's MODE_ID and ACTIVE, and the OSD
plane's FB_ID, CRTC_ID, SRC_X, SRC_Y, SRC_W, SRC_H, CRTC_X, CRTC_Y, CRTC_W and
CRTC_H into the `old` member, reading each via `drm_object_get_property`.  The
result pairs the return code (0, or -1 when some lookup failed) with the
context after the call. -/
def drm_atomic_save_old_state (ctx : drm_atomic_context) :
    Except Fault (Int × drm_atomic_context) :=
  (save_old_property ctx.connector "CRTC_ID" ctx.old.connector_crtc_id 0).bind fun r1 =>
  (save_old_property ctx.crtc "MODE_ID" ctx.old.crtc_mode_id r1.1).bind fun r2 =>
  (save_old_property ctx.crtc "ACTIVE" ctx.old.crtc_active r2.1).bind fun r3 =>
  (save_old_property ctx.osd_plane "FB_ID" ctx.old.osd_plane_fb_id r3.1).bind fun r4 =>
  (save_old_property ctx.osd_plane "CRTC_ID" ctx.old.osd_plane_crtc_id r4.1).bind fun r5 =>
  (save_old_property ctx.osd_plane "SRC_X" ctx.old.osd_plane_src_x r5.1).bind fun r6 =>
  (save_old_property ctx.osd_plane "SRC_Y" ctx.old.osd_plane_src_y r6.1).bind fun r7 =>
  (save_old_property ctx.osd_plane "SRC_W" ctx.old.osd_plane_src_w r7.1).bind fun r8 =>
  (save_old_property ctx.osd_plane "SRC_H" ctx.old.osd_plane_src_h r8.1).bind fun r9 =>
  (save_old_property ctx.osd_plane "CRTC_X" ctx.old.osd_plane_crtc_x r9.1).bind fun r10 =>
  (save_old_property ctx.osd_plane "CRTC_Y" ctx.old.osd_plane_crtc_y r10.1).bind fun r11 =>
  (save_old_property ctx.osd_plane "CRTC_W" ctx.old.osd_plane_crtc_w r11.1).bind fun r12 =>
  (save_old_property ctx.osd_plane "CRTC_H" ctx.old.osd_plane_crtc_h r12.1).bind fun r13 =>
  .ok (r13.1, { ctx with old :=
    { connector_crtc_id := r1.2, crtc_mode_id := r2.2, crtc_active := r3.2,
      osd_plane_fb_id := r4.2, osd_plane_crtc_id := r5.2, osd_plane_src_x := r6.2,
      osd_plane_src_y := r7.2, osd_plane_src_w := r8.2, osd_plane_src_h := r9.2,
      osd_plane_crtc_x := r10.2, osd_plane_crtc_y := r11.2, osd_plane_crtc_w := r12.2,
      osd_plane_crtc_h := r13.2 } })

/-- Modelled from the spec: `drm_atomic_restore_old_state`, declared in
`drm_atomic.h` but not defined among the sources.  It re-stages every captured
value into the request, in the same fixed property order as the snapshot, via
`drm_object_set_property`.  The result pairs the return code (0, or -1 when
some lookup failed) with the request after the call. -/
def drm_atomic_restore_old_state (request : drmModeAtomicReq) (ctx : drm_atomic_context) :
    Except Fault (Int × drmModeAtomicReq) :=
  (restore_old_property request ctx.connector "CRTC_ID" ctx.old.connector_crtc_id 0).bind
    fun r1 =>
  (restore_old_property r1.2 ctx.crtc "MODE_ID" ctx.old.crtc_mode_id r1.1).bind fun r2 =>
  (restore_old_property r2.2 ctx.crtc "ACTIVE" ctx.old.crtc_active r2.1).bind fun r3 =>
  (restore_old_property r3.2 ctx.osd_plane "FB_ID" ctx.old.osd_plane_fb_id r3.1).bind fun r4 =>
  (restore_old_property r4.2 ctx.osd_plane "CRTC_ID" ctx.old.osd_plane_crtc_id r4.1).bind
    fun r5 =>
  (restore_old_property r5.2 ctx.osd_plane "SRC_X" ctx.old.osd_plane_src_x r5.1).bind fun r6 =>
  (restore_old_property r6.2 ctx.osd_plane "SRC_Y" ctx.old.osd_plane_src_y r6.1).bind fun r7 =>
  (restore_old_property r7.2 ctx.osd_plane "SRC_W" ctx.old.osd_plane_src_w r7.1).bind fun r8 =>
  (restore_old_property r8.2 ctx.osd_plane "SRC_H" ctx.old.osd_plane_src_h r8.1).bind fun r9 =>
  (restore_old_property r9.2 ctx.osd_plane "CRTC_X" ctx.old.osd_plane_crtc_x r9.1).bind
    fun r10 =>
  (restore_old_property r10.2 ctx.osd_plane "CRTC_Y" ctx.old.osd_plane_crtc_y r10.1).bind
    fun r11 =>
  (restore_old_property r11.2 ctx.osd_plane "CRTC_W" ctx.old.osd_plane_crtc_w r11.1).bind
    fun r12 =>
  (restore_old_property r12.2 ctx.osd_plane "CRTC_H" ctx.old.osd_plane_crtc_h r12.1).bind
    fun r13 =>
  .ok r13

/-- The tracked properties in the fixed order of the snapshot, each with the
object it is read from. -/
def tracked_properties (connector crtc osd_plane : drm_object) : List (drm_object × String) :=
  [(connector, "CRTC_ID"), (crtc, "MODE_ID"), (crtc, "ACTIVE"), (osd_plane, "FB_ID"),
    (osd_plane, "CRTC_ID"), (osd_plane, "SRC_X"), (osd_plane, "SRC_Y"), (osd_plane, "SRC_W"),
    (osd_plane, "SRC_H"), (osd_plane, "CRTC_X"), (osd_plane, "CRTC_Y"), (osd_plane, "CRTC_W"),
    (osd_plane, "CRTC_H")]

/-! ## Further vocabulary -/

/-- The property table is loaded with every slot present: `props` and
`props_info` are non-NULL, have the same number of entries, and no descriptor
is NULL. -/
def drm_object.all_slots_present (object : drm_object) : Prop :=
  ∃ (props : drmModeObjectProperties) (info : List drmModePropertyRes),
    object.props = some props ∧ object.props_info = some (info.map some) ∧
    info.length = props.count_props

/-- The test of the lookup on one slot: the descriptor is present and its name
equals `name` ignoring ASCII case. -/
def slot_matches (name : String) (e : Option drmModePropertyRes × (Nat × Nat)) : Bool :=
  match e.1 with
  | some p => decide (eq_ignore_case name p.name)
  | none => false

/-- The kernel property id and cached value of the first present slot whose
name equals `name` ignoring ASCII case. -/
def drm_object.first_match (object : drm_object) (name : String) : Option (Nat × Nat) :=
  match object.props, object.props_info with
  | some props, some info =>
    match (info.zip props.slots).find? (slot_matches name) with
    | some (some p, s) => some (p.prop_id, s.2)
    | _ => none
  | _, _ => none

/-- The request item for a property of an object with the value the object
caches for it, when the object has the property (no item otherwise). -/
def snapshot_item (e : drm_object × String) : List drmModeAtomicReqItem :=
  match e.1.first_match e.2 with
  | some (prop_id, value) => [{ object_id := e.1.id, property_id := prop_id, value := value }]
  | none => []

/-- The request items for a list of properties, in order. -/
def snapshot_items : List (drm_object × String) → List drmModeAtomicReqItem
  | [] => []
  | e :: rest => snapshot_item e ++ snapshot_items rest

/-- A connector object with a CRTC_ID property. -/
def sample_connector : drm_object :=
  { fd := 3, id := 20, type := DRM_MODE_OBJECT_CONNECTOR,
    props := some { slots := [(1, 10)] },
    props_info := some [some { prop_id := 1, name := "CRTC_ID" }] }

/-- A CRTC object with MODE_ID and ACTIVE properties. -/
def sample_crtc : drm_object :=
  { fd := 3, id := 10, type := DRM_MODE_OBJECT_CRTC,
    props := some { slots := [(2, 77), (3, 1)] },
    props_info := some [some { prop_id := 2, name := "MODE_ID" },
                        some { prop_id := 3, name := "ACTIVE" }] }

/-- A plane object with framebuffer and geometry properties (no SRC_H). -/
def sample_plane : drm_object :=
  { fd := 3, id := 32, type := DRM_MODE_OBJECT_PLANE,
    props := some { slots := [(4, 0), (5, 99), (6, 10), (7, 1), (8, 2), (9, 640),
                              (10, 3), (11, 4), (12, 800), (13, 600)] },
    props_info := some [some { prop_id := 4, name := "type" },
                        some { prop_id := 5, name := "FB_ID" },
                        some { prop_id := 6, name := "CRTC_ID" },
                        some { prop_id := 7, name := "SRC_X" },
                        some { prop_id := 8, name := "SRC_Y" },
                        some { prop_id := 9, name := "SRC_W" },
                        some { prop_id := 10, name := "CRTC_X" },
                        some { prop_id := 11, name := "CRTC_Y" },
                        some { prop_id := 12, name := "CRTC_W" },
                        some { prop_id := 13, name := "CRTC_H" }] }

/-- A context over the three sample objects. -/
def sample_context : drm_atomic_context :=
  { fd := 3, crtc := some sample_crtc, connector := some sample_connector,
    osd_plane := some sample_plane, video_plane := some sample_plane,
    request := none, old := drm_old_state.zero }

/-- The plane the selectors determine for the OSD role: the eligible
non-cursor plane at position `osd_plane_idx` when that is a position of the
list, otherwise the first eligible plane of the policy's type (overlay for
`DRM_OPTS_OVERLAY_PLANE`, primary for any other value). -/
def osd_choice (dev : drm_device) (fd : Int) (crtc_index : Int) (plane_res : List Nat)
    (osd_plane_idx : Int) : Option drmModePlane :=
  if 0 ≤ osd_plane_idx ∧
      osd_plane_idx < ((layer_planes dev fd crtc_index plane_res).length : Int) then
    (layer_planes dev fd crtc_index plane_res)[osd_plane_idx.toNat]?
  else
    first_of_type dev fd crtc_index plane_res
      (if osd_plane_idx = DRM_OPTS_OVERLAY_PLANE then DRM_PLANE_TYPE_OVERLAY
        else DRM_PLANE_TYPE_PRIMARY)

/-- The plane the selectors determine for the video role: the eligible
non-cursor plane at position `video_plane_idx` when that is a position of the
list other than `osd_plane_idx`, otherwise the first eligible plane of the
policy's type (primary for `DRM_OPTS_PRIMARY_PLANE`, overlay for any other
value). -/
def video_choice (dev : drm_device) (fd : Int) (crtc_index : Int) (plane_res : List Nat)
    (osd_plane_idx video_plane_idx : Int) : Option drmModePlane :=
  if 0 ≤ video_plane_idx ∧
      video_plane_idx < ((layer_planes dev fd crtc_index plane_res).length : Int) ∧
      video_plane_idx ≠ osd_plane_idx then
    (layer_planes dev fd crtc_index plane_res)[video_plane_idx.toNat]?
  else
    first_of_type dev fd crtc_index plane_res
      (if video_plane_idx = DRM_OPTS_PRIMARY_PLANE then DRM_PLANE_TYPE_PRIMARY
        else DRM_PLANE_TYPE_OVERLAY)

/-! ## Basic facts about the property store -/

theorem strcasecmp_eq_zero_iff (a b : List Char) :
    strcasecmp a b = 0 ↔ a.map Char.toLower = b.map Char.toLower := by
  induction a generalizing b with
  | nil => cases b <;> simp [strcasecmp]
  | cons x xs ih =>
    cases b with
    | nil => simp [strcasecmp]
    | cons y ys =>
      simp only [strcasecmp, List.map_cons, List.cons.injEq]
      by_cases h : x.toLower = y.toLower
      · simp [h, ih]
      · simp only [h, if_false, false_and, iff_false]
        split <;> decide

theorem drm_object_create_ok {dev : drm_device} {fd : Int} {id type : Nat} {o : drm_object}
    (h : drm_object_create dev fd id type = .ok (some o)) :
    ∃ props, dev.drmModeObjectGetProperties id type = some props ∧
      o = { fd := fd, id := id, type := type, props := some props,
            props_info := some (props.slots.map fun s => dev.drmModeGetProperty s.1) } := by
  unfold drm_object_create drm_object_create_properties at h
  simp only at h
  cases hp : dev.drmModeObjectGetProperties id type with
  | none =>
    simp [hp, drm_object_free_properties] at h
  | some props =>
    refine ⟨props, rfl, ?_⟩
    simp only [hp] at h
    cases ha : dev.talloc_props_info id with
    | false =>
      simp only [ha] at h
      simp only [drm_object_free_properties, Bool.false_eq_true, if_false] at h
      cases hl : free_properties_loop none props.count_props 0 with
      | error e => simp [hl] at h
      | ok r => simp [hl] at h
    | true =>
      simp [ha] at h
      exact h.symm

theorem drm_object_create_id {dev : drm_device} {fd : Int} {id type : Nat} {o : drm_object}
    (h : drm_object_create dev fd id type = .ok (some o)) : o.id = id := by
  obtain ⟨props, _, rfl⟩ := drm_object_create_ok h
  rfl

/-! ## Lookup by name -/

theorem get_property_loop_step (props : drmModeObjectProperties)
    (info : List (Option drmModePropertyRes)) (name : String) (value : Nat) (n i : Nat)
    (p : drmModePropertyRes) (h : info[i]? = some (some p)) :
    get_property_loop props (some info) name value (n + 1) i =
      if strcasecmp name.data p.name.data = 0 then
        match props.slots[i]? with
        | none => .error .out_of_bounds
        | some s => .ok (0, s.2)
      else get_property_loop props (some info) name value n (i + 1) := by
  simp only [get_property_loop, h]

theorem set_property_loop_step (request : drmModeAtomicReq) (object : drm_object)
    (info : List (Option drmModePropertyRes)) (name : String) (value : Nat) (n i : Nat)
    (p : drmModePropertyRes) (h : info[i]? = some (some p)) :
    set_property_loop request object (some info) name value (n + 1) i =
      if strcasecmp name.data p.name.data = 0 then
        .ok (drmModeAtomicAddProperty request object.id p.prop_id value)
      else set_property_loop request object (some info) name value n (i + 1) := by
  simp only [set_property_loop, h]

theorem getElem?_map_some_of_lt (info : List drmModePropertyRes) (i : Nat)
    (hi : i < info.length) : (info.map some)[i]? = some (some info[i]) := by
  simp [List.getElem?_eq_getElem hi]

theorem getElem?_lt_length (info : List drmModePropertyRes) (k : Nat) (p : drmModePropertyRes)
    (hk : info[k]? = some p) : k < info.length := by
  by_contra hc
  rw [List.getElem?_eq_none (by omega)] at hk
  cases hk

theorem get_property_loop_none (props : drmModeObjectProperties) (info : List drmModePropertyRes)
    (name : String) (value : Nat) (n i : Nat) (hn : i + n = info.length)
    (hno : ∀ j p, i ≤ j → info[j]? = some p → ¬ eq_ignore_case name p.name) :
    get_property_loop props (some (info.map some)) name value n i = .ok (-EINVAL, value) := by
  induction n generalizing i with
  | zero => rfl
  | succ n ih =>
    have hi : i < info.length := by omega
    have hne : ¬ strcasecmp name.data info[i].name.data = 0 := by
      rw [strcasecmp_eq_zero_iff]
      exact hno i _ (le_refl i) (List.getElem?_eq_getElem hi)
    rw [get_property_loop_step _ _ _ _ _ _ _ (getElem?_map_some_of_lt info i hi), if_neg hne]
    exact ih (i + 1) (by omega) (fun j p hj => hno j p (by omega))

theorem get_property_loop_found (props : drmModeObjectProperties)
    (info : List drmModePropertyRes) (name : String) (value : Nat) (k : Nat)
    (p : drmModePropertyRes) (s : Nat × Nat) (hk : info[k]? = some p)
    (hs : props.slots[k]? = some s) (hm : eq_ignore_case name p.name) (n i : Nat)
    (hn : i + n = info.length) (hik : i ≤ k)
    (hno : ∀ j q, i ≤ j → j < k → info[j]? = some q → ¬ eq_ignore_case name q.name) :
    get_property_loop props (some (info.map some)) name value n i = .ok (0, s.2) := by
  have hklt := getElem?_lt_length info k p hk
  induction n generalizing i with
  | zero => omega
  | succ n ih =>
    have hi : i < info.length := by omega
    rw [get_property_loop_step _ _ _ _ _ _ _ (getElem?_map_some_of_lt info i hi)]
    by_cases hik2 : i = k
    · subst hik2
      have hp : info[i] = p := by
        rw [List.getElem?_eq_getElem hi] at hk
        exact Option.some.inj hk
      have he : strcasecmp name.data info[i].name.data = 0 := by
        rw [strcasecmp_eq_zero_iff, hp]
        exact hm
      rw [if_pos he, hs]
    · have hne : ¬ strcasecmp name.data info[i].name.data = 0 := by
        rw [strcasecmp_eq_zero_iff]
        exact hno i _ (le_refl i) (by omega) (List.getElem?_eq_getElem hi)
      rw [if_neg hne]
      exact ih (i + 1) (by omega) (by omega) (fun j q hj hjk => hno j q (by omega) hjk)

theorem set_property_loop_none (request : drmModeAtomicReq) (object : drm_object)
    (info : List drmModePropertyRes) (name : String) (value : Nat) (n i : Nat)
    (hn : i + n = info.length)
    (hno : ∀ j p, i ≤ j → info[j]? = some p → ¬ eq_ignore_case name p.name) :
    set_property_loop request object (some (info.map some)) name value n i =
      .ok (-EINVAL, request) := by
  induction n generalizing i with
  | zero => rfl
  | succ n ih =>
    have hi : i < info.length := by omega
    have hne : ¬ strcasecmp name.data info[i].name.data = 0 := by
      rw [strcasecmp_eq_zero_iff]
      exact hno i _ (le_refl i) (List.getElem?_eq_getElem hi)
    rw [set_property_loop_step _ _ _ _ _ _ _ _ (getElem?_map_some_of_lt info i hi), if_neg hne]
    exact ih (i + 1) (by omega) (fun j p hj => hno j p (by omega))

theorem set_property_loop_found (request : drmModeAtomicReq) (object : drm_object)
    (info : List drmModePropertyRes) (name : String) (value : Nat) (k : Nat)
    (p : drmModePropertyRes) (hk : info[k]? = some p)
    (hm : eq_ignore_case name p.name) (n i : Nat)
    (hn : i + n = info.length) (hik : i ≤ k)
    (hno : ∀ j q, i ≤ j → j < k → info[j]? = some q → ¬ eq_ignore_case name q.name) :
    set_property_loop request object (some (info.map some)) name value n i =
      .ok (drmModeAtomicAddProperty request object.id p.prop_id value) := by
  have hklt := getElem?_lt_length info k p hk
  induction n generalizing i with
  | zero => omega
  | succ n ih =>
    have hi : i < info.length := by omega
    rw [set_property_loop_step _ _ _ _ _ _ _ _ (getElem?_map_some_of_lt info i hi)]
    by_cases hik2 : i = k
    · subst hik2
      have hp : info[i] = p := by
        rw [List.getElem?_eq_getElem hi] at hk
        exact Option.some.inj hk
      have he : strcasecmp name.data info[i].name.data = 0 := by
        rw [strcasecmp_eq_zero_iff, hp]
        exact hm
      rw [if_pos he, hp]
    · have hne : ¬ strcasecmp name.data info[i].name.data = 0 := by
        rw [strcasecmp_eq_zero_iff]
        exact hno i _ (le_refl i) (by omega) (List.getElem?_eq_getElem hi)
      rw [if_neg hne]
      exact ih (i + 1) (by omega) (by omega) (fun j q hj hjk => hno j q (by omega) hjk)

/-- The first slot whose name matches, when some slot matches. -/
theorem exists_first_match (info : List drmModePropertyRes) (name : String)
    (h : ∃ p ∈ info, eq_ignore_case name p.name) :
    ∃ (k : Nat) (p : drmModePropertyRes), info[k]? = some p ∧ eq_ignore_case name p.name ∧
      ∀ (j : Nat) (q : drmModePropertyRes), j < k → info[j]? = some q →
        ¬ eq_ignore_case name q.name := by
  classical
  have hex : ∃ k : Nat, ∃ p : drmModePropertyRes,
      info[k]? = some p ∧ eq_ignore_case name p.name := by
    obtain ⟨p, hp, hm⟩ := h
    obtain ⟨k, hk, hkp⟩ := List.getElem_of_mem hp
    exact ⟨k, p, by rw [List.getElem?_eq_getElem hk, hkp], hm⟩
  refine ⟨Nat.find hex, ?_⟩
  obtain ⟨p, hp, hm⟩ := Nat.find_spec hex
  refine ⟨p, hp, hm, ?_⟩
  intro j q hj hq hmq
  exact Nat.find_min hex hj ⟨q, hq, hmq⟩

/-! ## Claims about the property store -/

/-- C8: on a loaded table with all slots present, `drm_object_get_property`
returns 0 together with the cached value of the lowest-index slot whose name
equals `name` ignoring ASCII case; it returns `-EINVAL` (leaving `*value`
untouched) when no slot matches; and its return code is `-EINVAL` exactly when
no slot matches. -/
theorem drm_object_get_property_first_match (object : drm_object)
    (props : drmModeObjectProperties) (info : List drmModePropertyRes) (name : String)
    (value : Nat) (hprops : object.props = some props)
    (hinfo : object.props_info = some (info.map some))
    (hlen : info.length = props.count_props) :
    ((∃ p ∈ info, eq_ignore_case name p.name) →
      ∃ (k : Nat) (p : drmModePropertyRes) (s : Nat × Nat),
        info[k]? = some p ∧ props.slots[k]? = some s ∧ eq_ignore_case name p.name ∧
        (∀ (j : Nat) (q : drmModePropertyRes), j < k → info[j]? = some q →
          ¬ eq_ignore_case name q.name) ∧
        drm_object_get_property object name value = .ok (0, s.2)) ∧
    ((∀ p ∈ info, ¬ eq_ignore_case name p.name) →
      drm_object_get_property object name value = .ok (-EINVAL, value)) ∧
    (∃ (ret : Int) (v : Nat), drm_object_get_property object name value = .ok (ret, v) ∧
      (ret = -EINVAL ↔ ∀ p ∈ info, ¬ eq_ignore_case name p.name)) := by
  have hfound : (∃ p ∈ info, eq_ignore_case name p.name) →
      ∃ (k : Nat) (p : drmModePropertyRes) (s : Nat × Nat),
        info[k]? = some p ∧ props.slots[k]? = some s ∧ eq_ignore_case name p.name ∧
        (∀ (j : Nat) (q : drmModePropertyRes), j < k → info[j]? = some q →
          ¬ eq_ignore_case name q.name) ∧
        drm_object_get_property object name value = .ok (0, s.2) := by
    intro h
    obtain ⟨k, p, hk, hm, hmin⟩ := exists_first_match info name h
    have hklt := getElem?_lt_length info k p hk
    have hks : k < props.slots.length := by
      unfold drmModeObjectProperties.count_props at hlen
      omega
    refine ⟨k, p, props.slots[k], hk, List.getElem?_eq_getElem hks, hm, hmin, ?_⟩
    unfold drm_object_get_property
    rw [hprops, hinfo]
    exact get_property_loop_found props info name value k p _ hk
      (List.getElem?_eq_getElem hks) hm _ 0 (by simp [hlen]) (Nat.zero_le k)
      (fun j q _ hjk => hmin j q hjk)
  have hnone : (∀ p ∈ info, ¬ eq_ignore_case name p.name) →
      drm_object_get_property object name value = .ok (-EINVAL, value) := by
    intro h
    unfold drm_object_get_property
    rw [hprops, hinfo]
    exact get_property_loop_none props info name value _ 0 (by simp [hlen])
      (fun j p _ hj => h p (List.getElem?_mem hj))
  refine ⟨hfound, hnone, ?_⟩
  by_cases h : ∃ p ∈ info, eq_ignore_case name p.name
  · obtain ⟨k, p, s, _, _, _, _, hres⟩ := hfound h
    refine ⟨0, s.2, hres, ?_⟩
    constructor
    · intro h0
      exact absurd h0 (by decide)
    · intro hall
      obtain ⟨q, hq, hmq⟩ := h
      exact absurd hmq (hall q hq)
  · have hall : ∀ p ∈ info, ¬ eq_ignore_case name p.name := fun p hp hm => h ⟨p, hp, hm⟩
    exact ⟨-EINVAL, value, hnone hall, fun _ => hall, fun _ => rfl⟩

/-- Witness for C8: on `sample_object` the name "Type" matches slots 1 and 2
and the lookup returns the value of slot 1. -/
theorem drm_object_get_property_first_match_witness :
    ∃ (k : Nat) (p : drmModePropertyRes) (s : Nat × Nat),
      [({ prop_id := 1, name := "FB_ID" } : drmModePropertyRes),
        { prop_id := 2, name := "type" }, { prop_id := 3, name := "TYPE" }][k]? = some p ∧
      ({ slots := [(1, 10), (2, 20), (3, 30)] } : drmModeObjectProperties).slots[k]? = some s ∧
      eq_ignore_case "Type" p.name ∧
      (∀ (j : Nat) (q : drmModePropertyRes), j < k →
        [({ prop_id := 1, name := "FB_ID" } : drmModePropertyRes),
          { prop_id := 2, name := "type" }, { prop_id := 3, name := "TYPE" }][j]? = some q →
        ¬ eq_ignore_case "Type" q.name) ∧
      drm_object_get_property sample_object "Type" 0 = .ok (0, s.2) :=
  (drm_object_get_property_first_match sample_object { slots := [(1, 10), (2, 20), (3, 30)] }
    [{ prop_id := 1, name := "FB_ID" }, { prop_id := 2, name := "type" },
      { prop_id := 3, name := "TYPE" }] "Type" 0 rfl rfl rfl).1
    ⟨{ prop_id := 2, name := "type" }, by simp, by decide⟩

/-- On a loaded table with all slots present, `drm_object_set_property` appends
exactly one item (the object's id, the property id of the lowest-index slot
whose name matches ignoring case, the value) to the request and returns the new
cursor; when no slot matches it returns `-EINVAL` with the request unchanged.
The object is an input only: the call cannot alter its cached values. -/
theorem drm_object_set_property_stages_first_match (request : drmModeAtomicReq)
    (object : drm_object) (props : drmModeObjectProperties) (info : List drmModePropertyRes)
    (name : String) (value : Nat) (hprops : object.props = some props)
    (hinfo : object.props_info = some (info.map some))
    (hlen : info.length = props.count_props) :
    ((∃ p ∈ info, eq_ignore_case name p.name) →
      ∃ (k : Nat) (p : drmModePropertyRes),
        info[k]? = some p ∧ eq_ignore_case name p.name ∧
        (∀ (j : Nat) (q : drmModePropertyRes), j < k → info[j]? = some q →
          ¬ eq_ignore_case name q.name) ∧
        drm_object_set_property request object name value =
          .ok (Int.ofNat (request.length + 1),
            request ++ [{ object_id := object.id, property_id := p.prop_id, value := value }])) ∧
    ((∀ p ∈ info, ¬ eq_ignore_case name p.name) →
      drm_object_set_property request object name value = .ok (-EINVAL, request)) := by
  constructor
  · intro h
    obtain ⟨k, p, hk, hm, hmin⟩ := exists_first_match info name h
    refine ⟨k, p, hk, hm, hmin, ?_⟩
    unfold drm_object_set_property
    rw [hprops, hinfo]
    exact set_property_loop_found request object info name value k p hk hm _ 0
      (by simp [hlen]) (Nat.zero_le k) (fun j q _ hjk => hmin j q hjk)
  · intro h
    unfold drm_object_set_property
    rw [hprops, hinfo]
    exact set_property_loop_none request object info name value _ 0 (by simp [hlen])
      (fun j p _ hj => h p (List.getElem?_mem hj))

/-- C9: evaluation at a loaded table with an absent slot.  Loading plane 40 of
`absent_slot_device` succeeds and records slot 0 as absent; staging "FB_ID",
which is the name of slot 1, then reads the name of the NULL descriptor in
slot 0 instead of staging the item for slot 1. -/
theorem drm_object_set_property_absent_slot_faults :
    drm_object_create absent_slot_device 3 40 DRM_MODE_OBJECT_PLANE =
      .ok (some absent_slot_object) ∧
    drm_object_set_property [] absent_slot_object "FB_ID" 9 = .error .null_deref := by
  constructor <;> rfl

/-- C10, as stated, fails: on an object whose `props` is NULL the lookup of
"TYPE" does not return `-EINVAL`. -/
theorem drm_object_get_property_unloaded_counterexample :
    ¬ ∃ v, drm_object_get_property unloaded_object "TYPE" 0 = .ok (-EINVAL, v) := by
  rintro ⟨v, h⟩
  cases h

/-- C10, amended: when the property table of an object fails to load,
`drm_object_create_properties` returns -1 and leaves `props` NULL,
`drm_object_create` returns NULL, and the plane loop of
`drm_atomic_create_context` jumps to `fail` for such a plane without looking up
"TYPE"; `drm_object_get_property` itself has no guard, and on an object whose
`props` is NULL it dereferences NULL. -/
theorem drm_object_get_property_unloaded (dev : drm_device) (fd : Int) (id type : Nat)
    (object : drm_object) (name : String) (value : Nat)
    (hload : dev.drmModeObjectGetProperties id type = none) (hobj : object.props = none) :
    drm_object_create_properties dev
        { fd := fd, id := id, type := type, props := none, props_info := none } =
      .ok (-1, { fd := fd, id := id, type := type, props := none, props_info := none }) ∧
    drm_object_create dev fd id type = .ok none ∧
    (type = DRM_MODE_OBJECT_PLANE →
      ∀ (crtc_index osd_plane_idx video_plane_idx : Int) (s : scan_state) (j : Nat)
        (possible_crtcs : Nat),
        dev.drmModeGetPlane j = some { plane_id := id, possible_crtcs := possible_crtcs } →
        crtc_bit_test possible_crtcs crtc_index = .ok true →
        scan_plane dev fd crtc_index osd_plane_idx video_plane_idx s j = .ok none) ∧
    drm_object_get_property object name value = .error .null_deref := by
  have hcp : drm_object_create_properties dev
        { fd := fd, id := id, type := type, props := none, props_info := none } =
      .ok (-1, { fd := fd, id := id, type := type, props := none, props_info := none }) := by
    simp [drm_object_create_properties, hload, drm_object_free_properties]
  have hc : drm_object_create dev fd id type = .ok none := by
    simp [drm_object_create, hcp]
  refine ⟨hcp, hc, ?_, ?_⟩
  · intro ht crtc_index osd_plane_idx video_plane_idx s j possible_crtcs hj hbit
    subst ht
    simp [scan_plane, hj, hbit, hc]
  · simp [drm_object_get_property, hobj]

/-- Witness for the amended C10 on `no_properties_device`. -/
theorem drm_object_get_property_unloaded_witness :
    drm_object_create no_properties_device 3 31 DRM_MODE_OBJECT_PLANE = .ok none ∧
    drm_object_get_property unloaded_object "TYPE" 0 = .error .null_deref :=
  have h := drm_object_get_property_unloaded no_properties_device 3 31 DRM_MODE_OBJECT_PLANE
    unloaded_object "TYPE" 0 rfl rfl
  ⟨h.2.1, h.2.2.2⟩

/-! ## The plane loop -/

theorem and_one_shiftLeft_ne_zero (m n : Nat) : (m &&& (1 <<< n) != 0) = m.testBit n := by
  rw [Nat.one_shiftLeft]
  cases h : m.testBit n
  · have h0 : m &&& 2 ^ n = 0 := by
      apply Nat.eq_of_testBit_eq
      intro i
      by_cases hi : n = i
      · subst hi
        simp [h]
      · simp [Nat.testBit_two_pow, hi]
    simp [h0]
  · have h1 : (m &&& 2 ^ n).testBit n = true := by
      simp [h, Nat.testBit_two_pow_self]
    have hne : m &&& 2 ^ n ≠ 0 := by
      intro h0
      rw [h0] at h1
      simp at h1
    simp [hne]

theorem crtc_bit_test_ok {pc : Nat} {crtc_index : Int} {b : Bool}
    (h : crtc_bit_test pc crtc_index = .ok b) (id : Nat) :
    has_crtc_bit crtc_index { plane_id := id, possible_crtcs := pc } = b ∧
      0 ≤ crtc_index ∧ crtc_index < 32 := by
  unfold crtc_bit_test at h
  split at h
  · cases h
  · rename_i hr
    have hb : (pc &&& (1 <<< crtc_index.toNat) != 0) = b := by
      injection h
    have h0 : 0 ≤ crtc_index := by omega
    refine ⟨?_, h0, by omega⟩
    rw [← hb, and_one_shiftLeft_ne_zero]
    simp [has_crtc_bit, h0]

theorem crtc_bit_test_of_range (pc : Nat) (crtc_index : Int) (h0 : 0 ≤ crtc_index)
    (h32 : crtc_index < 32) (id : Nat) :
    crtc_bit_test pc crtc_index =
      .ok (has_crtc_bit crtc_index { plane_id := id, possible_crtcs := pc }) := by
  unfold crtc_bit_test
  rw [if_neg (by omega)]
  rw [and_one_shiftLeft_ne_zero]
  simp [has_crtc_bit, h0]

theorem get_property_loop_ret (props : drmModeObjectProperties)
    (info : Option (List (Option drmModePropertyRes))) (name : String) (value : Nat)
    (n i : Nat) (ret : Int) (v : Nat)
    (h : get_property_loop props info name value n i = .ok (ret, v)) :
    ret = 0 ∨ ret = -EINVAL := by
  induction n generalizing i with
  | zero =>
    simp only [get_property_loop] at h
    injection h with h
    injection h with h1 h2
    exact Or.inr h1.symm
  | succ n ih =>
    unfold get_property_loop at h
    split at h
    · cases h
    · split at h
      · cases h
      · cases h
      · split at h
        · split at h
          · cases h
          · injection h with h
            injection h with h1 h2
            exact Or.inl h1.symm
        · exact ih _ h

theorem drm_object_get_property_ret {object : drm_object} {name : String} {value : Nat}
    {ret : Int} {v : Nat} (h : drm_object_get_property object name value = .ok (ret, v)) :
    ret = 0 ∨ ret = -EINVAL := by
  unfold drm_object_get_property at h
  split at h
  · cases h
  · exact get_property_loop_ret _ _ _ _ _ _ _ _ h

/-- One round of the plane loop is the state-independent probe followed by the
claim step. -/
theorem scan_plane_eq_probe (dev : drm_device) (fd : Int) (crtc_index : Int)
    (osd_plane_idx video_plane_idx : Int) (s : scan_state) (j : Nat) :
    scan_plane dev fd crtc_index osd_plane_idx video_plane_idx s j =
      match probe_plane dev fd crtc_index j with
      | .error e => .error e
      | .ok none => .ok none
      | .ok (some none) => .ok (some s)
      | .ok (some (some c)) => .ok (some (claim_plane osd_plane_idx video_plane_idx s c)) := by
  unfold scan_plane probe_plane
  cases hg : dev.drmModeGetPlane j with
  | none => rfl
  | some drmplane =>
    simp only
    cases hb : crtc_bit_test drmplane.possible_crtcs crtc_index with
    | error e => rfl
    | ok b =>
      cases b with
      | false => rfl
      | true =>
        simp only
        cases hc : drm_object_create dev fd drmplane.plane_id DRM_MODE_OBJECT_PLANE with
        | error e => rfl
        | ok po =>
          cases po with
          | none => rfl
          | some plane =>
            simp only
            have hid : plane.id = drmplane.plane_id := drm_object_create_id hc
            cases ht : drm_object_get_property plane "TYPE" 0 with
            | error e => rfl
            | ok rv =>
              obtain ⟨ret, value⟩ := rv
              simp only
              by_cases hr : ret = -EINVAL
              · simp [hr]
              · simp only [hr, if_false]
                by_cases hv : value = DRM_PLANE_TYPE_CURSOR
                · simp [hv]
                · simp only [ne_eq, hv, not_false_eq_true, if_true, claim_plane, hid]
                  split
                  · rfl
                  · split <;> rfl

/-- What a probe that yields a non-cursor plane establishes. -/
theorem probe_plane_some {dev : drm_device} {fd : Int} {crtc_index : Int} {j : Nat}
    {c : drm_object × Nat} (h : probe_plane dev fd crtc_index j = .ok (some (some c))) :
    ∃ p, dev.drmModeGetPlane j = some p ∧ has_crtc_bit crtc_index p = true ∧
      c.1.id = p.plane_id ∧
      drm_object_create dev fd p.plane_id DRM_MODE_OBJECT_PLANE = .ok (some c.1) ∧
      drm_object_get_property c.1 "TYPE" 0 = .ok (0, c.2) ∧
      plane_TYPE dev fd p.plane_id = some c.2 ∧ c.2 ≠ DRM_PLANE_TYPE_CURSOR := by
  unfold probe_plane at h
  cases hg : dev.drmModeGetPlane j with
  | none => simp [hg] at h
  | some drmplane =>
    simp only [hg] at h
    cases hb : crtc_bit_test drmplane.possible_crtcs crtc_index with
    | error e => simp [hb] at h
    | ok b =>
      cases b with
      | false => simp [hb] at h
      | true =>
        simp only [hb] at h
        cases hc : drm_object_create dev fd drmplane.plane_id DRM_MODE_OBJECT_PLANE with
        | error e => simp [hc] at h
        | ok po =>
          cases po with
          | none => simp [hc] at h
          | some plane =>
            simp only [hc] at h
            cases ht : drm_object_get_property plane "TYPE" 0 with
            | error e => simp [ht] at h
            | ok rv =>
              obtain ⟨ret, value⟩ := rv
              simp only [ht] at h
              by_cases hr : ret = -EINVAL
              · simp [hr] at h
              · simp only [hr, if_false] at h
                by_cases hv : value = DRM_PLANE_TYPE_CURSOR
                · simp [hv] at h
                · simp only [ne_eq, hv, not_false_eq_true, if_true] at h
                  have hc2 : c = (plane, value) := by
                    injection h with h
                    injection h with h
                    injection h with h
                    exact h.symm
                  subst hc2
                  have hret : ret = 0 := by
                    rcases drm_object_get_property_ret ht with h0 | h0
                    · exact h0
                    · exact absurd h0 hr
                  subst hret
                  refine ⟨drmplane, rfl, ?_, drm_object_create_id hc, hc, ht, ?_, hv⟩
                  · exact (crtc_bit_test_ok hb drmplane.plane_id).1
                  · simp [plane_TYPE, hc, ht]

/-- What a probe that passes a plane over establishes. -/
theorem probe_plane_skip {dev : drm_device} {fd : Int} {crtc_index : Int} {j : Nat}
    (h : probe_plane dev fd crtc_index j = .ok (some none)) :
    ∃ p, dev.drmModeGetPlane j = some p ∧
      (has_crtc_bit crtc_index p = false ∨
        plane_TYPE dev fd p.plane_id = some DRM_PLANE_TYPE_CURSOR) := by
  unfold probe_plane at h
  cases hg : dev.drmModeGetPlane j with
  | none => simp [hg] at h
  | some drmplane =>
    simp only [hg] at h
    refine ⟨drmplane, rfl, ?_⟩
    cases hb : crtc_bit_test drmplane.possible_crtcs crtc_index with
    | error e => simp [hb] at h
    | ok b =>
      cases b with
      | false => exact Or.inl (crtc_bit_test_ok hb drmplane.plane_id).1
      | true =>
        simp only [hb] at h
        cases hc : drm_object_create dev fd drmplane.plane_id DRM_MODE_OBJECT_PLANE with
        | error e => simp [hc] at h
        | ok po =>
          cases po with
          | none => simp [hc] at h
          | some plane =>
            simp only [hc] at h
            cases ht : drm_object_get_property plane "TYPE" 0 with
            | error e => simp [ht] at h
            | ok rv =>
              obtain ⟨ret, value⟩ := rv
              simp only [ht] at h
              by_cases hr : ret = -EINVAL
              · simp [hr] at h
              · simp only [hr, if_false] at h
                by_cases hv : value = DRM_PLANE_TYPE_CURSOR
                · have hret : ret = 0 := by
                    rcases drm_object_get_property_ret ht with h0 | h0
                    · exact h0
                    · exact absurd h0 hr
                  subst hret
                  subst hv
                  right
                  simp [plane_TYPE, hc, ht]
                · simp [hv] at h

/-- A plane loop that runs to its end met exactly the planes of `probe_planes`
and folded the claim step over them. -/
theorem scan_planes_ok {dev : drm_device} {fd : Int} {crtc_index : Int}
    {osd_plane_idx video_plane_idx : Int} (plane_res : List Nat) (s s1 : scan_state)
    (h : scan_planes dev fd crtc_index osd_plane_idx video_plane_idx plane_res s =
      .ok (some s1)) :
    ∃ cs, probe_planes dev fd crtc_index plane_res = some cs ∧
      s1 = cs.foldl (claim_plane osd_plane_idx video_plane_idx) s := by
  induction plane_res generalizing s with
  | nil =>
    simp only [scan_planes] at h
    injection h with h
    injection h with h
    exact ⟨[], rfl, h.symm⟩
  | cons j rest ih =>
    simp only [scan_planes, scan_plane_eq_probe] at h
    cases hp : probe_plane dev fd crtc_index j with
    | error e => simp [hp] at h
    | ok r =>
      cases r with
      | none => simp [hp] at h
      | some oc =>
        cases oc with
        | none =>
          simp only [hp] at h
          obtain ⟨cs, hcs, hs1⟩ := ih s h
          exact ⟨cs, by simp [probe_planes, hp, hcs], hs1⟩
        | some c =>
          simp only [hp] at h
          obtain ⟨cs, hcs, hs1⟩ := ih _ h
          exact ⟨c :: cs, by simp [probe_planes, hp, hcs], by simp [hs1]⟩

theorem eligible_planes_cons {dev : drm_device} {crtc_index : Int} {j : Nat} {p : drmModePlane}
    (rest : List Nat) (hg : dev.drmModeGetPlane j = some p) :
    eligible_planes dev crtc_index (j :: rest) =
      if has_crtc_bit crtc_index p = true then p :: eligible_planes dev crtc_index rest
      else eligible_planes dev crtc_index rest := by
  simp only [eligible_planes, scanned_planes, List.filterMap_cons, hg, List.filter_cons]

theorem scanned_planes_cons {dev : drm_device} {j : Nat} {p : drmModePlane}
    (rest : List Nat) (hg : dev.drmModeGetPlane j = some p) :
    scanned_planes dev (j :: rest) = p :: scanned_planes dev rest := by
  simp only [scanned_planes, List.filterMap_cons, hg]

theorem eligible_planes_sublist (dev : drm_device) (crtc_index : Int) (plane_res : List Nat) :
    ∀ p ∈ eligible_planes dev crtc_index plane_res,
      p ∈ scanned_planes dev plane_res ∧ has_crtc_bit crtc_index p = true := by
  intro p hp
  simpa [eligible_planes, List.mem_filter] using hp

/-- The ids of the planes met by a completed plane loop are, in order, the ids
of the eligible non-cursor planes. -/
theorem probe_planes_ids {dev : drm_device} {fd : Int} {crtc_index : Int}
    (plane_res : List Nat) (cs : List (drm_object × Nat))
    (h : probe_planes dev fd crtc_index plane_res = some cs) :
    cs.map (fun c => c.1.id) =
      (layer_planes dev fd crtc_index plane_res).map (fun p => p.plane_id) := by
  induction plane_res generalizing cs with
  | nil =>
    simp only [probe_planes] at h
    injection h with h
    subst h
    rfl
  | cons j rest ih =>
    unfold probe_planes at h
    cases hp : probe_plane dev fd crtc_index j with
    | error e => simp [hp] at h
    | ok r =>
      cases r with
      | none => simp [hp] at h
      | some oc =>
        cases oc with
        | none =>
          simp only [hp] at h
          obtain ⟨p, hg, hskip⟩ := probe_plane_skip hp
          have hl : layer_planes dev fd crtc_index (j :: rest) =
              layer_planes dev fd crtc_index rest := by
            unfold layer_planes
            rw [eligible_planes_cons rest hg]
            rcases hskip with hb | ht
            · simp [hb]
            · by_cases hb : has_crtc_bit crtc_index p = true
              · simp [hb, List.filter_cons, ht]
              · simp [hb]
          rw [hl]
          exact ih cs h
        | some c =>
          simp only [hp] at h
          obtain ⟨p, hg, hb, hid, _, _, ht, hv⟩ := probe_plane_some hp
          cases hr : probe_planes dev fd crtc_index rest with
          | none => simp [hr] at h
          | some cs1 =>
            simp only [hr, Option.map_some] at h
            injection h with h
            subst h
            have hl : layer_planes dev fd crtc_index (j :: rest) =
                p :: layer_planes dev fd crtc_index rest := by
              unfold layer_planes
              rw [eligible_planes_cons rest hg]
              simp [hb, List.filter_cons, ht, hv]
            rw [hl]
            simp only [List.map_cons, hid, ih cs1 hr]

/-- Every plane met by a completed plane loop is an eligible plane whose object
loads, whose TYPE lookup succeeds and whose TYPE is not cursor. -/
theorem probe_planes_mem {dev : drm_device} {fd : Int} {crtc_index : Int}
    (plane_res : List Nat) (cs : List (drm_object × Nat))
    (h : probe_planes dev fd crtc_index plane_res = some cs) :
    ∀ c ∈ cs, ∃ p ∈ eligible_planes dev crtc_index plane_res, c.1.id = p.plane_id ∧
      drm_object_create dev fd c.1.id DRM_MODE_OBJECT_PLANE = .ok (some c.1) ∧
      drm_object_get_property c.1 "TYPE" 0 = .ok (0, c.2) ∧
      c.2 ≠ DRM_PLANE_TYPE_CURSOR := by
  induction plane_res generalizing cs with
  | nil =>
    simp only [probe_planes] at h
    injection h with h
    subst h
    intro c hc
    cases hc
  | cons j rest ih =>
    unfold probe_planes at h
    cases hp : probe_plane dev fd crtc_index j with
    | error e => simp [hp] at h
    | ok r =>
      cases r with
      | none => simp [hp] at h
      | some oc =>
        cases oc with
        | none =>
          simp only [hp] at h
          obtain ⟨p, hg, _⟩ := probe_plane_skip hp
          intro c hc
          obtain ⟨q, hq, hrest⟩ := ih cs h c hc
          refine ⟨q, ?_, hrest⟩
          rw [eligible_planes_cons rest hg]
          split
          · exact List.mem_cons_of_mem _ hq
          · exact hq
        | some c0 =>
          simp only [hp] at h
          obtain ⟨p, hg, hb, hid, hcr, hty, _, hv⟩ := probe_plane_some hp
          cases hr : probe_planes dev fd crtc_index rest with
          | none => simp [hr] at h
          | some cs1 =>
            simp only [hr, Option.map_some] at h
            injection h with h
            subst h
            intro c hc
            rw [eligible_planes_cons rest hg, if_pos hb]
            rcases List.mem_cons.mp hc with hc0 | hc1
            · subst hc0
              exact ⟨p, List.mem_cons_self _ _, hid, by rw [hid]; exact hcr, hty, hv⟩
            · obtain ⟨q, hq, hrest⟩ := ih cs1 hr c hc1
              exact ⟨q, List.mem_cons_of_mem _ hq, hrest⟩

/-- The first eligible plane of a non-cursor type is the first plane of that
type met by a completed plane loop. -/
theorem probe_planes_first {dev : drm_device} {fd : Int} {crtc_index : Int}
    (plane_res : List Nat) (cs : List (drm_object × Nat)) (type : Nat)
    (htype : type ≠ DRM_PLANE_TYPE_CURSOR)
    (h : probe_planes dev fd crtc_index plane_res = some cs) :
    (first_of_type dev fd crtc_index plane_res type).map (fun p => p.plane_id) =
      (cs.find? (fun c => c.2 == type)).map (fun c => c.1.id) := by
  induction plane_res generalizing cs with
  | nil =>
    simp only [probe_planes] at h
    injection h with h
    subst h
    rfl
  | cons j rest ih =>
    unfold probe_planes at h
    cases hp : probe_plane dev fd crtc_index j with
    | error e => simp [hp] at h
    | ok r =>
      cases r with
      | none => simp [hp] at h
      | some oc =>
        cases oc with
        | none =>
          simp only [hp] at h
          obtain ⟨p, hg, hskip⟩ := probe_plane_skip hp
          have hl : first_of_type dev fd crtc_index (j :: rest) type =
              first_of_type dev fd crtc_index rest type := by
            unfold first_of_type
            rw [eligible_planes_cons rest hg]
            rcases hskip with hb | ht
            · simp [hb]
            · by_cases hb : has_crtc_bit crtc_index p = true
              · have hne : ¬ DRM_PLANE_TYPE_CURSOR = type := fun e => htype e.symm
                simp [hb, List.find?_cons, ht, hne]
              · simp [hb]
          rw [hl]
          exact ih cs h
        | some c =>
          simp only [hp] at h
          obtain ⟨p, hg, hb, hid, _, _, ht, hv⟩ := probe_plane_some hp
          cases hr : probe_planes dev fd crtc_index rest with
          | none => simp [hr] at h
          | some cs1 =>
            simp only [hr, Option.map_some] at h
            injection h with h
            subst h
            unfold first_of_type
            rw [eligible_planes_cons rest hg, if_pos hb]
            by_cases hct : c.2 = type
            · simp [List.find?_cons, ht, hct, hid]
            · have hih := ih cs1 hr
              unfold first_of_type at hih
              simp [List.find?_cons, ht, hct, hih]

/-! ## The claim step folded over the planes met -/

theorem claim_plane_layercount (osd_plane_idx video_plane_idx : Int) (s : scan_state)
    (c : drm_object × Nat) :
    (claim_plane osd_plane_idx video_plane_idx s c).layercount = s.layercount + 1 := by
  unfold claim_plane
  simp only
  split
  · rfl
  · split <;> rfl

theorem claim_plane_osd_plane (osd_plane_idx video_plane_idx : Int) (s : scan_state)
    (c : drm_object × Nat) :
    (claim_plane osd_plane_idx video_plane_idx s c).osd_plane =
      if s.layercount + 1 = osd_plane_idx then some c.1 else s.osd_plane := by
  unfold claim_plane
  simp only
  split
  · rfl
  · split <;> rfl

theorem claim_plane_video_plane (osd_plane_idx video_plane_idx : Int) (s : scan_state)
    (c : drm_object × Nat) :
    (claim_plane osd_plane_idx video_plane_idx s c).video_plane =
      if s.layercount + 1 = osd_plane_idx then s.video_plane
      else if s.layercount + 1 = video_plane_idx then some c.1 else s.video_plane := by
  unfold claim_plane
  simp only
  split
  · rfl
  · split <;> rfl

theorem claim_plane_primary_id (osd_plane_idx video_plane_idx : Int) (s : scan_state)
    (c : drm_object × Nat) :
    (claim_plane osd_plane_idx video_plane_idx s c).primary_id =
      if s.primary_id = 0 ∧ c.2 = DRM_PLANE_TYPE_PRIMARY then c.1.id else s.primary_id := by
  unfold claim_plane
  simp only
  split
  · rfl
  · split <;> rfl

theorem claim_plane_overlay_id (osd_plane_idx video_plane_idx : Int) (s : scan_state)
    (c : drm_object × Nat) :
    (claim_plane osd_plane_idx video_plane_idx s c).overlay_id =
      if s.overlay_id = 0 ∧ c.2 = DRM_PLANE_TYPE_OVERLAY then c.1.id else s.overlay_id := by
  unfold claim_plane
  simp only
  split
  · rfl
  · split <;> rfl

/-- The layer counter advances by one for each plane met. -/
theorem fold_layercount (osd_plane_idx video_plane_idx : Int) (cs : List (drm_object × Nat))
    (s : scan_state) :
    (cs.foldl (claim_plane osd_plane_idx video_plane_idx) s).layercount =
      s.layercount + cs.length := by
  induction cs generalizing s with
  | nil => simp
  | cons c cs ih =>
    simp only [List.foldl_cons, ih, claim_plane_layercount, List.length_cons]
    push_cast
    ring

theorem fold_osd_unchanged (osd_plane_idx video_plane_idx : Int) (cs : List (drm_object × Nat))
    (s : scan_state) (h : osd_plane_idx ≤ s.layercount) :
    (cs.foldl (claim_plane osd_plane_idx video_plane_idx) s).osd_plane = s.osd_plane := by
  induction cs generalizing s with
  | nil => rfl
  | cons c cs ih =>
    simp only [List.foldl_cons]
    rw [ih _ (by rw [claim_plane_layercount]; omega), claim_plane_osd_plane,
      if_neg (by omega)]

theorem fold_osd_at (osd_plane_idx video_plane_idx : Int) (cs : List (drm_object × Nat))
    (s : scan_state) (k : Nat) (h : osd_plane_idx = s.layercount + 1 + k) :
    (cs.foldl (claim_plane osd_plane_idx video_plane_idx) s).osd_plane =
      match cs[k]? with
      | some c => some c.1
      | none => s.osd_plane := by
  induction cs generalizing s k with
  | nil => rfl
  | cons c cs ih =>
    simp only [List.foldl_cons]
    cases k with
    | zero =>
      rw [fold_osd_unchanged _ _ _ _ (by rw [claim_plane_layercount]; omega),
        claim_plane_osd_plane, if_pos (by omega)]
      simp
    | succ k =>
      rw [ih _ k (by rw [claim_plane_layercount]; omega), claim_plane_osd_plane,
        if_neg (by omega)]
      simp

theorem fold_video_unchanged (osd_plane_idx video_plane_idx : Int)
    (cs : List (drm_object × Nat)) (s : scan_state)
    (h : video_plane_idx ≤ s.layercount ∨ video_plane_idx = osd_plane_idx) :
    (cs.foldl (claim_plane osd_plane_idx video_plane_idx) s).video_plane = s.video_plane := by
  induction cs generalizing s with
  | nil => rfl
  | cons c cs ih =>
    simp only [List.foldl_cons]
    rw [ih _ (by rw [claim_plane_layercount]; omega), claim_plane_video_plane]
    split
    · rfl
    · rw [if_neg (by omega)]

theorem fold_video_at (osd_plane_idx video_plane_idx : Int) (cs : List (drm_object × Nat))
    (s : scan_state) (k : Nat) (h : video_plane_idx = s.layercount + 1 + k)
    (hne : video_plane_idx ≠ osd_plane_idx) :
    (cs.foldl (claim_plane osd_plane_idx video_plane_idx) s).video_plane =
      match cs[k]? with
      | some c => some c.1
      | none => s.video_plane := by
  induction cs generalizing s k with
  | nil => rfl
  | cons c cs ih =>
    simp only [List.foldl_cons]
    cases k with
    | zero =>
      rw [fold_video_unchanged _ _ _ _ (by rw [claim_plane_layercount]; omega),
        claim_plane_video_plane, if_neg (by omega), if_pos (by omega)]
      simp
    | succ k =>
      rw [ih _ k (by rw [claim_plane_layercount]; omega), claim_plane_video_plane]
      have h1 : ¬ s.layercount + 1 = video_plane_idx := by omega
      simp [h1]

theorem fold_primary_keep (osd_plane_idx video_plane_idx : Int) (cs : List (drm_object × Nat))
    (s : scan_state) (h : s.primary_id ≠ 0) :
    (cs.foldl (claim_plane osd_plane_idx video_plane_idx) s).primary_id = s.primary_id := by
  induction cs generalizing s with
  | nil => rfl
  | cons c cs ih =>
    simp only [List.foldl_cons]
    have hc : (claim_plane osd_plane_idx video_plane_idx s c).primary_id = s.primary_id := by
      rw [claim_plane_primary_id, if_neg (fun hh => h hh.1)]
    rw [ih _ (by rw [hc]; exact h), hc]

theorem fold_overlay_keep (osd_plane_idx video_plane_idx : Int) (cs : List (drm_object × Nat))
    (s : scan_state) (h : s.overlay_id ≠ 0) :
    (cs.foldl (claim_plane osd_plane_idx video_plane_idx) s).overlay_id = s.overlay_id := by
  induction cs generalizing s with
  | nil => rfl
  | cons c cs ih =>
    simp only [List.foldl_cons]
    have hc : (claim_plane osd_plane_idx video_plane_idx s c).overlay_id = s.overlay_id := by
      rw [claim_plane_overlay_id, if_neg (fun hh => h hh.1)]
    rw [ih _ (by rw [hc]; exact h), hc]

/-- With non-zero plane ids, the remembered primary id is the id of the first
primary-type plane met, or 0. -/
theorem fold_primary_first (osd_plane_idx video_plane_idx : Int) (cs : List (drm_object × Nat))
    (s : scan_state) (h : s.primary_id = 0) (hnz : ∀ c ∈ cs, c.1.id ≠ 0) :
    (cs.foldl (claim_plane osd_plane_idx video_plane_idx) s).primary_id =
      ((cs.find? (fun c => c.2 == DRM_PLANE_TYPE_PRIMARY)).map (fun c => c.1.id)).getD 0 := by
  induction cs generalizing s with
  | nil => simpa using h
  | cons c cs ih =>
    simp only [List.foldl_cons]
    by_cases hc : c.2 = DRM_PLANE_TYPE_PRIMARY
    · have h1 : (claim_plane osd_plane_idx video_plane_idx s c).primary_id = c.1.id := by
        rw [claim_plane_primary_id, if_pos ⟨h, hc⟩]
      have h2 : c.1.id ≠ 0 := hnz c (List.mem_cons_self _ _)
      rw [fold_primary_keep _ _ _ _ (by rw [h1]; exact h2), h1]
      simp [List.find?_cons, hc]
    · have h1 : (claim_plane osd_plane_idx video_plane_idx s c).primary_id = 0 := by
        rw [claim_plane_primary_id, if_neg (fun hh => hc hh.2), h]
      rw [ih _ h1 (fun d hd => hnz d (List.mem_cons_of_mem _ hd))]
      simp [List.find?_cons, hc]

/-- With non-zero plane ids, the remembered overlay id is the id of the first
overlay-type plane met, or 0. -/
theorem fold_overlay_first (osd_plane_idx video_plane_idx : Int) (cs : List (drm_object × Nat))
    (s : scan_state) (h : s.overlay_id = 0) (hnz : ∀ c ∈ cs, c.1.id ≠ 0) :
    (cs.foldl (claim_plane osd_plane_idx video_plane_idx) s).overlay_id =
      ((cs.find? (fun c => c.2 == DRM_PLANE_TYPE_OVERLAY)).map (fun c => c.1.id)).getD 0 := by
  induction cs generalizing s with
  | nil => simpa using h
  | cons c cs ih =>
    simp only [List.foldl_cons]
    by_cases hc : c.2 = DRM_PLANE_TYPE_OVERLAY
    · have h1 : (claim_plane osd_plane_idx video_plane_idx s c).overlay_id = c.1.id := by
        rw [claim_plane_overlay_id, if_pos ⟨h, hc⟩]
      have h2 : c.1.id ≠ 0 := hnz c (List.mem_cons_self _ _)
      rw [fold_overlay_keep _ _ _ _ (by rw [h1]; exact h2), h1]
      simp [List.find?_cons, hc]
    · have h1 : (claim_plane osd_plane_idx video_plane_idx s c).overlay_id = 0 := by
        rw [claim_plane_overlay_id, if_neg (fun hh => hc hh.2), h]
      rw [ih _ h1 (fun d hd => hnz d (List.mem_cons_of_mem _ hd))]
      simp [List.find?_cons, hc]

/-- A remembered primary id other than the initial one belongs to a
primary-type plane met by the loop. -/
theorem fold_primary_mem (osd_plane_idx video_plane_idx : Int) (cs : List (drm_object × Nat))
    (s : scan_state) :
    (cs.foldl (claim_plane osd_plane_idx video_plane_idx) s).primary_id = s.primary_id ∨
      ∃ c ∈ cs, c.2 = DRM_PLANE_TYPE_PRIMARY ∧
        c.1.id = (cs.foldl (claim_plane osd_plane_idx video_plane_idx) s).primary_id := by
  induction cs generalizing s with
  | nil => exact Or.inl rfl
  | cons c cs ih =>
    simp only [List.foldl_cons]
    rcases ih (claim_plane osd_plane_idx video_plane_idx s c) with h | ⟨d, hd, hd2⟩
    · rw [h, claim_plane_primary_id]
      split
      · rename_i hh
        exact Or.inr ⟨c, List.mem_cons_self _ _, hh.2, rfl⟩
      · exact Or.inl rfl
    · exact Or.inr ⟨d, List.mem_cons_of_mem _ hd, hd2⟩

/-- A remembered overlay id other than the initial one belongs to an
overlay-type plane met by the loop. -/
theorem fold_overlay_mem (osd_plane_idx video_plane_idx : Int) (cs : List (drm_object × Nat))
    (s : scan_state) :
    (cs.foldl (claim_plane osd_plane_idx video_plane_idx) s).overlay_id = s.overlay_id ∨
      ∃ c ∈ cs, c.2 = DRM_PLANE_TYPE_OVERLAY ∧
        c.1.id = (cs.foldl (claim_plane osd_plane_idx video_plane_idx) s).overlay_id := by
  induction cs generalizing s with
  | nil => exact Or.inl rfl
  | cons c cs ih =>
    simp only [List.foldl_cons]
    rcases ih (claim_plane osd_plane_idx video_plane_idx s c) with h | ⟨d, hd, hd2⟩
    · rw [h, claim_plane_overlay_id]
      split
      · rename_i hh
        exact Or.inr ⟨c, List.mem_cons_self _ _, hh.2, rfl⟩
      · exact Or.inl rfl
    · exact Or.inr ⟨d, List.mem_cons_of_mem _ hd, hd2⟩

/-! ## Anatomy of a successful discovery -/

/-- What a returned context records about the run that produced it. -/
theorem create_context_ok {dev : drm_device} {fd : Int} {crtc_id connector_id : Nat}
    {osd_plane_idx video_plane_idx : Int} {ctx : drm_atomic_context}
    (h : drm_atomic_create_context dev fd crtc_id connector_id osd_plane_idx video_plane_idx =
      .ok (some ctx)) :
    ∃ res plane_res cs crtc osd_o video_o,
      dev.drmModeGetResources = some res ∧ dev.drmModeGetPlaneResources = some plane_res ∧
      drm_object_create dev fd crtc_id DRM_MODE_OBJECT_CRTC = .ok (some crtc) ∧
      find_connector dev fd connector_id res.connectors = .ok ctx.connector ∧
      probe_planes dev fd (find_crtc_index crtc_id res.crtcs 0) plane_res = some cs ∧
      resolve_osd_plane dev fd osd_plane_idx
        (cs.foldl (claim_plane osd_plane_idx video_plane_idx) scan_state.init) =
          .ok (some (some osd_o)) ∧
      resolve_video_plane dev fd video_plane_idx
        (cs.foldl (claim_plane osd_plane_idx video_plane_idx) scan_state.init) =
          .ok (some (some video_o)) ∧
      ctx.crtc = some crtc ∧ ctx.osd_plane = some osd_o ∧ ctx.video_plane = some video_o := by
  unfold drm_atomic_create_context at h
  cases hres : dev.drmModeGetResources with
  | none => simp [hres] at h
  | some res =>
    cases hpl : dev.drmModeGetPlaneResources with
    | none => simp [hres, hpl] at h
    | some plane_res =>
      simp only [hres, hpl] at h
      cases hcrtc : drm_object_create dev fd crtc_id DRM_MODE_OBJECT_CRTC with
      | error e => simp [hcrtc] at h
      | ok co =>
        cases co with
        | none => simp [hcrtc] at h
        | some crtc =>
          simp only [hcrtc] at h
          cases hconn : find_connector dev fd connector_id res.connectors with
          | error e => simp [hconn] at h
          | ok connector =>
            simp only [hconn] at h
            cases hscan : scan_planes dev fd (find_crtc_index crtc_id res.crtcs 0)
                osd_plane_idx video_plane_idx plane_res scan_state.init with
            | error e => simp [hscan] at h
            | ok so =>
              cases so with
              | none => simp [hscan] at h
              | some s =>
                simp only [hscan] at h
                obtain ⟨cs, hcs, hs⟩ := scan_planes_ok plane_res scan_state.init s hscan
                subst hs
                cases hosd : resolve_osd_plane dev fd osd_plane_idx
                    (cs.foldl (claim_plane osd_plane_idx video_plane_idx) scan_state.init) with
                | error e => simp [hosd] at h
                | ok oo =>
                  cases oo with
                  | none => simp [hosd] at h
                  | some osd_plane =>
                    simp only [hosd] at h
                    cases hvid : resolve_video_plane dev fd video_plane_idx
                        (cs.foldl (claim_plane osd_plane_idx video_plane_idx)
                          scan_state.init) with
                    | error e => simp [hvid] at h
                    | ok vo =>
                      cases vo with
                      | none => simp [hvid] at h
                      | some video_plane =>
                        simp only [hvid] at h
                        cases video_plane with
                        | none => simp at h
                        | some video_o =>
                          cases osd_plane with
                          | none => simp at h
                          | some osd_o =>
                            simp only at h
                            injection h with h
                            injection h with h
                            subst h
                            exact ⟨res, plane_res, cs, crtc, osd_o, video_o, rfl, rfl, rfl, hconn,
                              hcs, hosd, hvid, rfl, rfl, rfl⟩

theorem resolve_osd_plane_ok {dev : drm_device} {fd : Int} {osd_plane_idx : Int}
    {s : scan_state} {o : drm_object}
    (h : resolve_osd_plane dev fd osd_plane_idx s = .ok (some (some o))) :
    s.osd_plane = some o ∨
      (s.osd_plane = none ∧
        (if osd_plane_idx = DRM_OPTS_OVERLAY_PLANE then s.overlay_id else s.primary_id) ≠ 0 ∧
        drm_object_create dev fd
          (if osd_plane_idx = DRM_OPTS_OVERLAY_PLANE then s.overlay_id else s.primary_id)
          DRM_MODE_OBJECT_PLANE = .ok (some o)) := by
  unfold resolve_osd_plane at h
  cases hs : s.osd_plane with
  | some p =>
    simp only [hs] at h
    left
    injection h with h
    injection h with h
  | none =>
    simp only [hs] at h
    right
    by_cases hz : (if osd_plane_idx = DRM_OPTS_OVERLAY_PLANE then s.overlay_id else s.primary_id) = 0
    · simp [hz] at h
    · simp only [ne_eq, hz, not_false_eq_true, if_true] at h
      refine ⟨rfl, hz, ?_⟩
      cases hc : drm_object_create dev fd (if osd_plane_idx = DRM_OPTS_OVERLAY_PLANE then s.overlay_id else s.primary_id) DRM_MODE_OBJECT_PLANE with
      | error e => simp [hc] at h
      | ok p =>
        simp only [hc] at h
        injection h with h
        injection h with h
        rw [h]

theorem resolve_video_plane_ok {dev : drm_device} {fd : Int} {video_plane_idx : Int}
    {s : scan_state} {o : drm_object}
    (h : resolve_video_plane dev fd video_plane_idx s = .ok (some (some o))) :
    s.video_plane = some o ∨
      (s.video_plane = none ∧
        (if video_plane_idx = DRM_OPTS_PRIMARY_PLANE then s.primary_id else s.overlay_id) ≠ 0 ∧
        drm_object_create dev fd
          (if video_plane_idx = DRM_OPTS_PRIMARY_PLANE then s.primary_id else s.overlay_id)
          DRM_MODE_OBJECT_PLANE = .ok (some o)) := by
  unfold resolve_video_plane at h
  cases hs : s.video_plane with
  | some p =>
    simp only [hs] at h
    left
    injection h with h
    injection h with h
  | none =>
    simp only [hs] at h
    right
    by_cases hz : (if video_plane_idx = DRM_OPTS_PRIMARY_PLANE then s.primary_id else s.overlay_id) = 0
    · simp [hz] at h
    · simp only [ne_eq, hz, not_false_eq_true, if_true] at h
      refine ⟨rfl, hz, ?_⟩
      cases hc : drm_object_create dev fd (if video_plane_idx = DRM_OPTS_PRIMARY_PLANE then s.primary_id else s.overlay_id) DRM_MODE_OBJECT_PLANE with
      | error e => simp [hc] at h
      | ok p =>
        simp only [hc] at h
        injection h with h
        injection h with h
        rw [h]

/-- The object chosen for the OSD role is the object of a plane met by the
loop: the one at position `osd_plane_idx`, or else one of the policy's type. -/
theorem osd_selection {dev : drm_device} {fd : Int} {crtc_index : Int}
    {osd_plane_idx video_plane_idx : Int} {plane_res : List Nat}
    {cs : List (drm_object × Nat)} {o : drm_object}
    (hcs : probe_planes dev fd crtc_index plane_res = some cs)
    (h : resolve_osd_plane dev fd osd_plane_idx
      (cs.foldl (claim_plane osd_plane_idx video_plane_idx) scan_state.init) =
        .ok (some (some o))) :
    ∃ c ∈ cs, c.1 = o ∧
      ((∃ k : Nat, osd_plane_idx = k ∧ cs[k]? = some c) ∨
        ((cs.foldl (claim_plane osd_plane_idx video_plane_idx) scan_state.init).osd_plane = none ∧
          c.2 = (if osd_plane_idx = DRM_OPTS_OVERLAY_PLANE then DRM_PLANE_TYPE_OVERLAY
            else DRM_PLANE_TYPE_PRIMARY) ∧
          c.1.id = (if osd_plane_idx = DRM_OPTS_OVERLAY_PLANE then
            (cs.foldl (claim_plane osd_plane_idx video_plane_idx) scan_state.init).overlay_id
            else
            (cs.foldl (claim_plane osd_plane_idx video_plane_idx) scan_state.init).primary_id))) := by
  rcases resolve_osd_plane_ok h with h1 | ⟨h1, hne, hcr⟩
  · by_cases hneg : osd_plane_idx < 0
    · rw [fold_osd_unchanged _ _ _ _ (by simp [scan_state.init]; omega)] at h1
      cases h1
    · have hk : osd_plane_idx = scan_state.init.layercount + 1 + (osd_plane_idx.toNat : Nat) := by
        simp [scan_state.init]
        omega
      rw [fold_osd_at _ _ _ _ _ hk] at h1
      cases hget : cs[osd_plane_idx.toNat]? with
      | none =>
        rw [hget] at h1
        cases h1
      | some c =>
        rw [hget] at h1
        injection h1 with h1
        exact ⟨c, List.getElem?_mem hget, h1, Or.inl ⟨osd_plane_idx.toNat, by omega, hget⟩⟩
  · by_cases hov : osd_plane_idx = DRM_OPTS_OVERLAY_PLANE
    · simp only [hov, if_true] at hne hcr ⊢
      rcases fold_overlay_mem DRM_OPTS_OVERLAY_PLANE video_plane_idx cs scan_state.init with
        h0 | ⟨c, hc, hct, hcid⟩
      · exact absurd h0 hne
      · obtain ⟨_, _, _, hcc, _, _⟩ := probe_planes_mem plane_res cs hcs c hc
        rw [hcid, hcr] at hcc
        injection hcc with hcc
        injection hcc with hcc
        refine ⟨c, hc, hcc.symm, Or.inr ⟨?_, hct, hcid⟩⟩
        rw [← hov]
        exact h1
    · simp only [hov, if_false] at hne hcr ⊢
      rcases fold_primary_mem osd_plane_idx video_plane_idx cs scan_state.init with
        h0 | ⟨c, hc, hct, hcid⟩
      · exact absurd h0 hne
      · obtain ⟨_, _, _, hcc, _, _⟩ := probe_planes_mem plane_res cs hcs c hc
        rw [hcid, hcr] at hcc
        injection hcc with hcc
        injection hcc with hcc
        exact ⟨c, hc, hcc.symm, Or.inr ⟨h1, hct, hcid⟩⟩

/-- The object chosen for the video role is the object of a plane met by the
loop: the one at position `video_plane_idx` when that differs from
`osd_plane_idx`, or else one of the policy's type. -/
theorem video_selection {dev : drm_device} {fd : Int} {crtc_index : Int}
    {osd_plane_idx video_plane_idx : Int} {plane_res : List Nat}
    {cs : List (drm_object × Nat)} {o : drm_object}
    (hcs : probe_planes dev fd crtc_index plane_res = some cs)
    (h : resolve_video_plane dev fd video_plane_idx
      (cs.foldl (claim_plane osd_plane_idx video_plane_idx) scan_state.init) =
        .ok (some (some o))) :
    ∃ c ∈ cs, c.1 = o ∧
      ((∃ k : Nat, video_plane_idx = k ∧ video_plane_idx ≠ osd_plane_idx ∧ cs[k]? = some c) ∨
        ((cs.foldl (claim_plane osd_plane_idx video_plane_idx) scan_state.init).video_plane
            = none ∧
          c.2 = (if video_plane_idx = DRM_OPTS_PRIMARY_PLANE then DRM_PLANE_TYPE_PRIMARY
            else DRM_PLANE_TYPE_OVERLAY) ∧
          c.1.id = (if video_plane_idx = DRM_OPTS_PRIMARY_PLANE then
            (cs.foldl (claim_plane osd_plane_idx video_plane_idx) scan_state.init).primary_id
            else
            (cs.foldl (claim_plane osd_plane_idx video_plane_idx) scan_state.init).overlay_id))) := by
  rcases resolve_video_plane_ok h with h1 | ⟨h1, hne, hcr⟩
  · by_cases hneg : video_plane_idx < 0 ∨ video_plane_idx = osd_plane_idx
    · rw [fold_video_unchanged _ _ _ _ (by simp [scan_state.init]; omega)] at h1
      cases h1
    · have hk : video_plane_idx =
          scan_state.init.layercount + 1 + (video_plane_idx.toNat : Nat) := by
        simp [scan_state.init]
        omega
      rw [fold_video_at _ _ _ _ _ hk (by omega)] at h1
      cases hget : cs[video_plane_idx.toNat]? with
      | none =>
        rw [hget] at h1
        cases h1
      | some c =>
        rw [hget] at h1
        injection h1 with h1
        exact ⟨c, List.getElem?_mem hget, h1,
          Or.inl ⟨video_plane_idx.toNat, by omega, by omega, hget⟩⟩
  · by_cases hpr : video_plane_idx = DRM_OPTS_PRIMARY_PLANE
    · simp only [hpr, if_true] at hne hcr ⊢
      rcases fold_primary_mem osd_plane_idx DRM_OPTS_PRIMARY_PLANE cs scan_state.init with
        h0 | ⟨c, hc, hct, hcid⟩
      · exact absurd h0 hne
      · obtain ⟨_, _, _, hcc, _, _⟩ := probe_planes_mem plane_res cs hcs c hc
        rw [hcid, hcr] at hcc
        injection hcc with hcc
        injection hcc with hcc
        refine ⟨c, hc, hcc.symm, Or.inr ⟨?_, hct, hcid⟩⟩
        rw [← hpr]
        exact h1
    · simp only [hpr, if_false] at hne hcr ⊢
      rcases fold_overlay_mem osd_plane_idx video_plane_idx cs scan_state.init with
        h0 | ⟨c, hc, hct, hcid⟩
      · exact absurd h0 hne
      · obtain ⟨_, _, _, hcc, _, _⟩ := probe_planes_mem plane_res cs hcs c hc
        rw [hcid, hcr] at hcc
        injection hcc with hcc
        injection hcc with hcc
        exact ⟨c, hc, hcc.symm, Or.inr ⟨h1, hct, hcid⟩⟩

theorem probe_planes_length {dev : drm_device} {fd : Int} {crtc_index : Int}
    (plane_res : List Nat) (cs : List (drm_object × Nat))
    (h : probe_planes dev fd crtc_index plane_res = some cs) :
    cs.length = (layer_planes dev fd crtc_index plane_res).length := by
  have := congrArg List.length (probe_planes_ids plane_res cs h)
  simpa using this

theorem probe_planes_getElem? {dev : drm_device} {fd : Int} {crtc_index : Int}
    (plane_res : List Nat) (cs : List (drm_object × Nat))
    (h : probe_planes dev fd crtc_index plane_res = some cs) (k : Nat) :
    cs[k]?.map (fun c => c.1.id) =
      (layer_planes dev fd crtc_index plane_res)[k]?.map (fun p => p.plane_id) := by
  have := congrArg (fun l => l[k]?) (probe_planes_ids plane_res cs h)
  simpa [List.getElem?_map] using this

theorem probe_planes_nonzero {dev : drm_device} {fd : Int} {crtc_index : Int}
    (plane_res : List Nat) (cs : List (drm_object × Nat))
    (h : probe_planes dev fd crtc_index plane_res = some cs)
    (hnz : plane_ids_nonzero dev plane_res) : ∀ c ∈ cs, c.1.id ≠ 0 := by
  intro c hc
  obtain ⟨p, hp, hid, _⟩ := probe_planes_mem plane_res cs h c hc
  rw [hid]
  exact hnz p (eligible_planes_sublist dev crtc_index plane_res p hp).1

/-- No plane is claimed for the OSD role in the loop when the selector is not
the position of a plane met. -/
theorem fold_osd_none (osd_plane_idx video_plane_idx : Int) (cs : List (drm_object × Nat))
    (h : ¬ (0 ≤ osd_plane_idx ∧ osd_plane_idx < (cs.length : Int))) :
    (cs.foldl (claim_plane osd_plane_idx video_plane_idx) scan_state.init).osd_plane = none := by
  by_cases hneg : osd_plane_idx < 0
  · rw [fold_osd_unchanged _ _ _ _ (by simp [scan_state.init]; omega)]
    rfl
  · have hk : osd_plane_idx = scan_state.init.layercount + 1 + (osd_plane_idx.toNat : Nat) := by
      simp [scan_state.init]
      omega
    rw [fold_osd_at _ _ _ _ _ hk, List.getElem?_eq_none (by omega)]
    rfl

/-- No plane is claimed for the video role in the loop when the selector is
not the position of a plane met, or equals the OSD selector. -/
theorem fold_video_none (osd_plane_idx video_plane_idx : Int) (cs : List (drm_object × Nat))
    (h : ¬ (0 ≤ video_plane_idx ∧ video_plane_idx < (cs.length : Int) ∧
      video_plane_idx ≠ osd_plane_idx)) :
    (cs.foldl (claim_plane osd_plane_idx video_plane_idx) scan_state.init).video_plane
      = none := by
  by_cases hneg : video_plane_idx < 0 ∨ video_plane_idx = osd_plane_idx
  · rw [fold_video_unchanged _ _ _ _ (by simp [scan_state.init]; omega)]
    rfl
  · have hk : video_plane_idx =
        scan_state.init.layercount + 1 + (video_plane_idx.toNat : Nat) := by
      simp [scan_state.init]
      omega
    rw [fold_video_at _ _ _ _ _ hk (by omega), List.getElem?_eq_none (by omega)]
    rfl

/-! ## Claims about plane discovery -/

/-- C1: when `osd_plane_idx` is a number `k` below the count of eligible
non-cursor planes, a successful `drm_atomic_create_context` returns as OSD
plane the object whose id is that of the `k`-th (zero-based, scan order)
eligible non-cursor plane, for every video selector. -/
theorem osd_plane_claimed_by_index (dev : drm_device) (fd : Int) (crtc_id connector_id : Nat)
    (k : Nat) (video_plane_idx : Int) (res : drmModeRes) (plane_res : List Nat)
    (ctx : drm_atomic_context)
    (hres : dev.drmModeGetResources = some res)
    (hpl : dev.drmModeGetPlaneResources = some plane_res)
    (hk : k < (layer_planes dev fd (find_crtc_index crtc_id res.crtcs 0) plane_res).length)
    (hok : drm_atomic_create_context dev fd crtc_id connector_id (k : Int) video_plane_idx =
      .ok (some ctx)) :
    ∃ o p, ctx.osd_plane = some o ∧
      (layer_planes dev fd (find_crtc_index crtc_id res.crtcs 0) plane_res)[k]? = some p ∧
      o.id = p.plane_id := by
  obtain ⟨res1, plane_res1, cs, crtc, osd_o, video_o, hres1, hpl1, _, _, hcs, hosd, _, _,
    hco, _⟩ := create_context_ok hok
  rw [hres] at hres1
  rw [hpl] at hpl1
  injection hres1 with hres1
  injection hpl1 with hpl1
  subst hres1
  subst hpl1
  have hlen := probe_planes_length plane_res cs hcs
  have hkcs : k < cs.length := by omega
  have hfold : (cs.foldl (claim_plane (k : Int) video_plane_idx) scan_state.init).osd_plane =
      some cs[k].1 := by
    rw [fold_osd_at _ _ _ _ k (by simp [scan_state.init]), List.getElem?_eq_getElem hkcs]
  have hosd_o : osd_o = cs[k].1 := by
    unfold resolve_osd_plane at hosd
    rw [hfold] at hosd
    injection hosd with hosd
    injection hosd with hosd
    injection hosd with hosd
    exact hosd.symm
  have hget := probe_planes_getElem? plane_res cs hcs k
  rw [List.getElem?_eq_getElem hkcs, List.getElem?_eq_getElem hk] at hget
  have hid : cs[k].1.id =
      ((layer_planes dev fd (find_crtc_index crtc_id res.crtcs 0) plane_res)[k]).plane_id := by
    simpa using hget
  exact ⟨osd_o, _, hco, List.getElem?_eq_getElem hk, by rw [hosd_o]; exact hid⟩

/-- Witness for C1: on the example device with `osd_plane_idx = 1` the OSD
plane is plane 32, the second eligible non-cursor plane. -/
theorem osd_plane_claimed_by_index_witness :
    ∃ o p,
      (the_context (drm_atomic_create_context scenario_device 3 10 20 ((1 : Nat) : Int) (-1))).osd_plane
        = some o ∧
      (layer_planes scenario_device 3 (find_crtc_index 10 scenario_res.crtcs 0)
        scenario_planes)[1]? = some p ∧
      o.id = p.plane_id :=
  osd_plane_claimed_by_index scenario_device 3 10 20 1 (-1) scenario_res scenario_planes
    (the_context (drm_atomic_create_context scenario_device 3 10 20 ((1 : Nat) : Int) (-1)))
    rfl rfl (by decide) rfl

/-- A non-zero remembered id that is the id of the first plane of a type met
by the loop is the id of the first eligible plane of that type. -/
theorem policy_id_first {dev : drm_device} {fd : Int} {crtc_index : Int}
    (plane_res : List Nat) (cs : List (drm_object × Nat)) (type : Nat)
    (htype : type ≠ DRM_PLANE_TYPE_CURSOR)
    (hcs : probe_planes dev fd crtc_index plane_res = some cs) (id : Nat)
    (hid : id = ((cs.find? (fun c => c.2 == type)).map (fun c => c.1.id)).getD 0)
    (hne : id ≠ 0) :
    ∃ p, first_of_type dev fd crtc_index plane_res type = some p ∧ p.plane_id = id := by
  have hfirst := probe_planes_first plane_res cs type htype hcs
  cases hf : cs.find? (fun c => c.2 == type) with
  | none =>
    rw [hf] at hid
    exact absurd hid hne
  | some c =>
    rw [hf] at hid hfirst
    cases hp : first_of_type dev fd crtc_index plane_res type with
    | none =>
      rw [hp] at hfirst
      cases hfirst
    | some p =>
      rw [hp] at hfirst
      refine ⟨p, rfl, ?_⟩
      rw [hid]
      simpa using hfirst

/-- The OSD block after the plane loop, when the loop claimed no plane for
the role. -/
theorem resolve_osd_plane_unclaimed (dev : drm_device) (fd : Int) (osd_plane_idx : Int)
    (s : scan_state) (h : s.osd_plane = none) :
    resolve_osd_plane dev fd osd_plane_idx s =
      if (if osd_plane_idx = DRM_OPTS_OVERLAY_PLANE then s.overlay_id else s.primary_id) ≠ 0
      then
        match drm_object_create dev fd
            (if osd_plane_idx = DRM_OPTS_OVERLAY_PLANE then s.overlay_id else s.primary_id)
            DRM_MODE_OBJECT_PLANE with
        | .error e => .error e
        | .ok p => .ok (some p)
      else .ok none := by
  unfold resolve_osd_plane
  simp only [h]

/-- With non-zero plane ids and no index claim, the id the OSD block resolves
is the id of the first plane of the policy's type met by the loop, or 0. -/
theorem osd_policy_id (osd_plane_idx video_plane_idx : Int) (cs : List (drm_object × Nat))
    (hnz : ∀ c ∈ cs, c.1.id ≠ 0) :
    (if osd_plane_idx = DRM_OPTS_OVERLAY_PLANE then
        (cs.foldl (claim_plane osd_plane_idx video_plane_idx) scan_state.init).overlay_id
      else (cs.foldl (claim_plane osd_plane_idx video_plane_idx) scan_state.init).primary_id) =
      ((cs.find? (fun c => c.2 == (if osd_plane_idx = DRM_OPTS_OVERLAY_PLANE then
        DRM_PLANE_TYPE_OVERLAY else DRM_PLANE_TYPE_PRIMARY))).map (fun c => c.1.id)).getD 0 := by
  by_cases hov : osd_plane_idx = DRM_OPTS_OVERLAY_PLANE
  · rw [if_pos hov, if_pos hov]
    exact fold_overlay_first _ _ cs scan_state.init rfl hnz
  · rw [if_neg hov, if_neg hov]
    exact fold_primary_first _ _ cs scan_state.init rfl hnz

/-- After a completed plane loop without an index claim for the OSD role, the
OSD block yields the object of the first eligible plane of the policy's type
when there is one, and jumps to `fail` when there is none. -/
theorem osd_fallback_resolves {dev : drm_device} {fd : Int} {crtc_index : Int}
    (osd_plane_idx video_plane_idx : Int) (plane_res : List Nat)
    (cs : List (drm_object × Nat))
    (hcs : probe_planes dev fd crtc_index plane_res = some cs)
    (hnz : ∀ c ∈ cs, c.1.id ≠ 0)
    (hidx : ¬ (0 ≤ osd_plane_idx ∧ osd_plane_idx < (cs.length : Int))) :
    (∀ p, first_of_type dev fd crtc_index plane_res
        (if osd_plane_idx = DRM_OPTS_OVERLAY_PLANE then DRM_PLANE_TYPE_OVERLAY
          else DRM_PLANE_TYPE_PRIMARY) = some p →
      ∃ o, resolve_osd_plane dev fd osd_plane_idx
          (cs.foldl (claim_plane osd_plane_idx video_plane_idx) scan_state.init) =
            .ok (some (some o)) ∧ o.id = p.plane_id) ∧
    (first_of_type dev fd crtc_index plane_res
        (if osd_plane_idx = DRM_OPTS_OVERLAY_PLANE then DRM_PLANE_TYPE_OVERLAY
          else DRM_PLANE_TYPE_PRIMARY) = none →
      resolve_osd_plane dev fd osd_plane_idx
        (cs.foldl (claim_plane osd_plane_idx video_plane_idx) scan_state.init) = .ok none) := by
  have htype : (if osd_plane_idx = DRM_OPTS_OVERLAY_PLANE then DRM_PLANE_TYPE_OVERLAY
      else DRM_PLANE_TYPE_PRIMARY) ≠ DRM_PLANE_TYPE_CURSOR := by
    split <;> decide
  have hnone := fold_osd_none osd_plane_idx video_plane_idx cs hidx
  have hid := osd_policy_id osd_plane_idx video_plane_idx cs hnz
  have hfirst := probe_planes_first plane_res cs _ htype hcs
  rw [resolve_osd_plane_unclaimed dev fd osd_plane_idx _ hnone, hid]
  constructor
  · intro p hp
    rw [hp] at hfirst
    cases hf : cs.find? (fun c => c.2 == (if osd_plane_idx = DRM_OPTS_OVERLAY_PLANE then
        DRM_PLANE_TYPE_OVERLAY else DRM_PLANE_TYPE_PRIMARY)) with
    | none =>
      rw [hf] at hfirst
      cases hfirst
    | some c =>
      rw [hf] at hfirst
      have hcmem : c ∈ cs := List.mem_of_find?_eq_some hf
      have hcid : c.1.id = p.plane_id := by
        simpa using hfirst.symm
      obtain ⟨_, _, _, hcc, _, _⟩ := probe_planes_mem plane_res cs hcs c hcmem
      have hgetD : ((some c).map (fun c : drm_object × Nat => c.1.id)).getD 0 = c.1.id := rfl
      rw [hgetD, if_pos (hnz c hcmem), hcc]
      exact ⟨c.1, rfl, hcid⟩
  · intro hp
    rw [hp] at hfirst
    cases hf : cs.find? (fun c => c.2 == (if osd_plane_idx = DRM_OPTS_OVERLAY_PLANE then
        DRM_PLANE_TYPE_OVERLAY else DRM_PLANE_TYPE_PRIMARY)) with
    | none => simp
    | some c =>
      rw [hf] at hfirst
      cases hfirst

/-- The result of `drm_atomic_create_context` when each of its stages yields a
value. -/
theorem create_context_of_stages {dev : drm_device} {fd : Int} {crtc_id connector_id : Nat}
    {osd_plane_idx video_plane_idx : Int} {res : drmModeRes} {plane_res : List Nat}
    {crtc : drm_object} {connector : Option drm_object} {s : scan_state}
    {o v : drm_object}
    (hres : dev.drmModeGetResources = some res)
    (hpl : dev.drmModeGetPlaneResources = some plane_res)
    (hcrtc : drm_object_create dev fd crtc_id DRM_MODE_OBJECT_CRTC = .ok (some crtc))
    (hconn : find_connector dev fd connector_id res.connectors = .ok connector)
    (hscan : scan_planes dev fd (find_crtc_index crtc_id res.crtcs 0) osd_plane_idx
      video_plane_idx plane_res scan_state.init = .ok (some s))
    (hosd : resolve_osd_plane dev fd osd_plane_idx s = .ok (some (some o)))
    (hvid : resolve_video_plane dev fd video_plane_idx s = .ok (some (some v))) :
    drm_atomic_create_context dev fd crtc_id connector_id osd_plane_idx video_plane_idx =
      .ok (some { fd := fd, crtc := some crtc, connector := connector, osd_plane := some o,
                  video_plane := some v, request := none, old := drm_old_state.zero }) := by
  unfold drm_atomic_create_context
  simp only [hres, hpl, hcrtc, hconn, hscan, hosd, hvid]

/-- C2: when `osd_plane_idx` is not the position of an eligible non-cursor
plane (so no plane is claimed for the OSD role by index) and plane ids are
non-zero: a successful `drm_atomic_create_context` returns as OSD plane the
first eligible overlay-type plane if `osd_plane_idx` is
`DRM_OPTS_OVERLAY_PLANE`, and the first eligible primary-type plane for every
other selector value; if no eligible plane has the required type, no context
is returned.  The fallback does resolve: after a completed plane loop the OSD
block yields the object of that first plane when it exists and jumps to `fail`
when it does not, and when the other stages of discovery yield their values
too, a context with that OSD plane is returned. -/
theorem osd_plane_policy_fallback (dev : drm_device) (fd : Int) (crtc_id connector_id : Nat)
    (osd_plane_idx video_plane_idx : Int) (res : drmModeRes) (plane_res : List Nat)
    (hres : dev.drmModeGetResources = some res)
    (hpl : dev.drmModeGetPlaneResources = some plane_res)
    (hnz : plane_ids_nonzero dev plane_res)
    (hidx : ¬ (0 ≤ osd_plane_idx ∧ osd_plane_idx <
      ((layer_planes dev fd (find_crtc_index crtc_id res.crtcs 0) plane_res).length : Int))) :
    (∀ ctx, drm_atomic_create_context dev fd crtc_id connector_id osd_plane_idx
        video_plane_idx = .ok (some ctx) →
      ∃ o p, ctx.osd_plane = some o ∧
        first_of_type dev fd (find_crtc_index crtc_id res.crtcs 0) plane_res
          (if osd_plane_idx = DRM_OPTS_OVERLAY_PLANE then DRM_PLANE_TYPE_OVERLAY
            else DRM_PLANE_TYPE_PRIMARY) = some p ∧
        o.id = p.plane_id) ∧
    (first_of_type dev fd (find_crtc_index crtc_id res.crtcs 0) plane_res
        (if osd_plane_idx = DRM_OPTS_OVERLAY_PLANE then DRM_PLANE_TYPE_OVERLAY
          else DRM_PLANE_TYPE_PRIMARY) = none →
      ∀ ctx, drm_atomic_create_context dev fd crtc_id connector_id osd_plane_idx
        video_plane_idx ≠ .ok (some ctx)) ∧
    (∀ s, scan_planes dev fd (find_crtc_index crtc_id res.crtcs 0) osd_plane_idx
        video_plane_idx plane_res scan_state.init = .ok (some s) →
      (∀ p, first_of_type dev fd (find_crtc_index crtc_id res.crtcs 0) plane_res
          (if osd_plane_idx = DRM_OPTS_OVERLAY_PLANE then DRM_PLANE_TYPE_OVERLAY
            else DRM_PLANE_TYPE_PRIMARY) = some p →
        ∃ o, resolve_osd_plane dev fd osd_plane_idx s = .ok (some (some o)) ∧
          o.id = p.plane_id ∧
          ∀ crtc connector v,
            drm_object_create dev fd crtc_id DRM_MODE_OBJECT_CRTC = .ok (some crtc) →
            find_connector dev fd connector_id res.connectors = .ok connector →
            resolve_video_plane dev fd video_plane_idx s = .ok (some (some v)) →
            drm_atomic_create_context dev fd crtc_id connector_id osd_plane_idx
                video_plane_idx =
              .ok (some { fd := fd, crtc := some crtc, connector := connector,
                          osd_plane := some o, video_plane := some v, request := none,
                          old := drm_old_state.zero })) ∧
      (first_of_type dev fd (find_crtc_index crtc_id res.crtcs 0) plane_res
          (if osd_plane_idx = DRM_OPTS_OVERLAY_PLANE then DRM_PLANE_TYPE_OVERLAY
            else DRM_PLANE_TYPE_PRIMARY) = none →
        resolve_osd_plane dev fd osd_plane_idx s = .ok none)) := by
  have stage : ∀ s, scan_planes dev fd (find_crtc_index crtc_id res.crtcs 0) osd_plane_idx
        video_plane_idx plane_res scan_state.init = .ok (some s) →
      (∀ p, first_of_type dev fd (find_crtc_index crtc_id res.crtcs 0) plane_res
          (if osd_plane_idx = DRM_OPTS_OVERLAY_PLANE then DRM_PLANE_TYPE_OVERLAY
            else DRM_PLANE_TYPE_PRIMARY) = some p →
        ∃ o, resolve_osd_plane dev fd osd_plane_idx s = .ok (some (some o)) ∧
          o.id = p.plane_id) ∧
      (first_of_type dev fd (find_crtc_index crtc_id res.crtcs 0) plane_res
          (if osd_plane_idx = DRM_OPTS_OVERLAY_PLANE then DRM_PLANE_TYPE_OVERLAY
            else DRM_PLANE_TYPE_PRIMARY) = none →
        resolve_osd_plane dev fd osd_plane_idx s = .ok none) := by
    intro s hscan
    obtain ⟨cs, hcs, hs⟩ := scan_planes_ok plane_res scan_state.init s hscan
    have hlen := probe_planes_length plane_res cs hcs
    have hcsnz := probe_planes_nonzero plane_res cs hcs hnz
    rw [hs]
    exact osd_fallback_resolves osd_plane_idx video_plane_idx plane_res cs hcs hcsnz
      (by rw [hlen]; exact hidx)
  have main : ∀ ctx, drm_atomic_create_context dev fd crtc_id connector_id osd_plane_idx
        video_plane_idx = .ok (some ctx) →
      ∃ o p, ctx.osd_plane = some o ∧
        first_of_type dev fd (find_crtc_index crtc_id res.crtcs 0) plane_res
          (if osd_plane_idx = DRM_OPTS_OVERLAY_PLANE then DRM_PLANE_TYPE_OVERLAY
            else DRM_PLANE_TYPE_PRIMARY) = some p ∧
        o.id = p.plane_id := by
    intro ctx hok
    obtain ⟨res1, plane_res1, cs, crtc, osd_o, video_o, hres1, hpl1, _, _, hcs, hosd, _, _,
      hco, _⟩ := create_context_ok hok
    rw [hres] at hres1
    rw [hpl] at hpl1
    injection hres1 with hres1
    injection hpl1 with hpl1
    subst hres1
    subst hpl1
    have hlen := probe_planes_length plane_res cs hcs
    have hcsnz := probe_planes_nonzero plane_res cs hcs hnz
    have hnone := fold_osd_none osd_plane_idx video_plane_idx cs (by rw [hlen]; exact hidx)
    rcases resolve_osd_plane_ok hosd with h1 | ⟨_, hne, hcr⟩
    · rw [hnone] at h1
      cases h1
    · have hoid := drm_object_create_id hcr
      by_cases hov : osd_plane_idx = DRM_OPTS_OVERLAY_PLANE
      · simp only [hov, if_true] at hne hcr hoid ⊢
        obtain ⟨p, hp, hpid⟩ := policy_id_first plane_res cs DRM_PLANE_TYPE_OVERLAY
          (by decide) hcs _
          (fold_overlay_first _ _ cs scan_state.init rfl hcsnz) hne
        exact ⟨osd_o, p, hco, hp, by rw [hoid, hpid]⟩
      · simp only [hov, if_false] at hne hcr hoid ⊢
        obtain ⟨p, hp, hpid⟩ := policy_id_first plane_res cs DRM_PLANE_TYPE_PRIMARY
          (by decide) hcs _
          (fold_primary_first _ _ cs scan_state.init rfl hcsnz) hne
        exact ⟨osd_o, p, hco, hp, by rw [hoid, hpid]⟩
  refine ⟨main, ?_, ?_⟩
  · intro hnonefirst ctx hok
    obtain ⟨o, p, _, hp, _⟩ := main ctx hok
    rw [hnonefirst] at hp
    cases hp
  · intro s hscan
    refine ⟨?_, (stage s hscan).2⟩
    intro p hp
    obtain ⟨o, ho, hoid⟩ := (stage s hscan).1 p hp
    refine ⟨o, ho, hoid, ?_⟩
    intro crtc connector v hcrtc hconn hvid
    exact create_context_of_stages hres hpl hcrtc hconn hscan ho hvid

/-- Witness for C2: on the example device with the overlay policy for the OSD
role and index 0 for the video role, discovery succeeds and the OSD plane is
plane 32, the first eligible overlay-type plane; on the same device without
its overlay plane the policy finds no plane and discovery returns no
context. -/
theorem osd_plane_policy_fallback_witness :
    (∃ o p,
      (the_context (drm_atomic_create_context scenario_device 3 10 20 (-2) 0)).osd_plane
        = some o ∧
      first_of_type scenario_device 3 (find_crtc_index 10 scenario_res.crtcs 0) scenario_planes
        (if (-2 : Int) = DRM_OPTS_OVERLAY_PLANE then DRM_PLANE_TYPE_OVERLAY
          else DRM_PLANE_TYPE_PRIMARY) = some p ∧
      o.id = p.plane_id) ∧
    plane_ids (drm_atomic_create_context scenario_device 3 10 20 (-2) 0) =
      some (some (some 32, some 31)) ∧
    (∃ o, resolve_osd_plane scenario_device 3 (-2)
        (the_state (scan_planes scenario_device 3 (find_crtc_index 10 scenario_res.crtcs 0)
          (-2) 0 scenario_planes scan_state.init)) = .ok (some (some o)) ∧
      o.id = 32) ∧
    drm_atomic_create_context no_overlay_device 3 10 20 (-2) (-1) = .ok none ∧
    ∀ ctx, drm_atomic_create_context no_overlay_device 3 10 20 (-2) (-1) ≠ .ok (some ctx) :=
  ⟨(osd_plane_policy_fallback scenario_device 3 10 20 (-2) 0 scenario_res scenario_planes
      rfl rfl (by unfold plane_ids_nonzero; decide) (by decide)).1
      (the_context (drm_atomic_create_context scenario_device 3 10 20 (-2) 0)) rfl,
    rfl,
    (fun h => ⟨h.choose, h.choose_spec.1, h.choose_spec.2.1⟩)
      (((osd_plane_policy_fallback scenario_device 3 10 20 (-2) 0 scenario_res scenario_planes
        rfl rfl (by unfold plane_ids_nonzero; decide) (by decide)).2.2
        (the_state (scan_planes scenario_device 3 (find_crtc_index 10 scenario_res.crtcs 0)
          (-2) 0 scenario_planes scan_state.init)) (by rfl)).1
        { plane_id := 32, possible_crtcs := 4 } (by decide)),
    rfl,
    (osd_plane_policy_fallback no_overlay_device 3 10 20 (-2) (-1) scenario_res [31, 33]
      rfl rfl (by unfold plane_ids_nonzero; decide) (by decide)).2.1 (by decide)⟩

/-- The two objects of a returned context are objects of planes met by the
loop, with the TYPE values recorded for them. -/
theorem selected_planes {dev : drm_device} {fd : Int} {crtc_id connector_id : Nat}
    {osd_plane_idx video_plane_idx : Int} {ctx : drm_atomic_context}
    (hok : drm_atomic_create_context dev fd crtc_id connector_id osd_plane_idx
      video_plane_idx = .ok (some ctx)) :
    ∃ res plane_res cs co cv,
      dev.drmModeGetResources = some res ∧ dev.drmModeGetPlaneResources = some plane_res ∧
      probe_planes dev fd (find_crtc_index crtc_id res.crtcs 0) plane_res = some cs ∧
      co ∈ cs ∧ cv ∈ cs ∧ ctx.osd_plane = some co.1 ∧ ctx.video_plane = some cv.1 ∧
      (osd_plane_idx < 0 → co.2 = (if osd_plane_idx = DRM_OPTS_OVERLAY_PLANE then
        DRM_PLANE_TYPE_OVERLAY else DRM_PLANE_TYPE_PRIMARY)) ∧
      (video_plane_idx < 0 → cv.2 = (if video_plane_idx = DRM_OPTS_PRIMARY_PLANE then
        DRM_PLANE_TYPE_PRIMARY else DRM_PLANE_TYPE_OVERLAY)) := by
  obtain ⟨res, plane_res, cs, crtc, osd_o, video_o, hres, hpl, _, _, hcs, hosd, hvid, _,
    hco, hcv⟩ := create_context_ok hok
  obtain ⟨co, hcomem, hcoeq, hcocase⟩ := osd_selection hcs hosd
  obtain ⟨cv, hcvmem, hcveq, hcvcase⟩ := video_selection hcs hvid
  refine ⟨res, plane_res, cs, co, cv, hres, hpl, hcs, hcomem, hcvmem, by rw [hcoeq]; exact hco,
    by rw [hcveq]; exact hcv, ?_, ?_⟩
  · intro hneg
    rcases hcocase with ⟨k, hk, _⟩ | ⟨_, ht, _⟩
    · omega
    · exact ht
  · intro hneg
    rcases hcvcase with ⟨k, hk, _⟩ | ⟨_, ht, _⟩
    · omega
    · exact ht

/-- C4, as stated, fails: on the example device with both selectors set to the
primary policy, discovery succeeds with plane 31 in both roles. -/
theorem osd_video_same_plane_counterexample :
    plane_ids (drm_atomic_create_context scenario_device 3 10 20 (-1) (-1)) =
      some (some (some 31, some 31)) := by
  rfl

theorem first_of_type_mem_layer {dev : drm_device} {fd : Int} {crtc_index : Int}
    {plane_res : List Nat} {type : Nat} {p : drmModePlane}
    (htype : type ≠ DRM_PLANE_TYPE_CURSOR)
    (h : first_of_type dev fd crtc_index plane_res type = some p) :
    p ∈ layer_planes dev fd crtc_index plane_res ∧ plane_TYPE dev fd p.plane_id = some type := by
  unfold first_of_type at h
  have hmem := List.mem_of_find?_eq_some h
  have hp := List.find?_some h
  have ht : plane_TYPE dev fd p.plane_id = some type := by simpa using hp
  refine ⟨?_, ht⟩
  unfold layer_planes
  rw [List.mem_filter]
  refine ⟨hmem, ?_⟩
  rw [ht]
  simp only [bne_iff_ne, ne_eq, Option.some.injEq]
  exact htype

/-- The OSD plane of a successful discovery is the plane the selectors
determine for the role. -/
theorem osd_choice_spec {dev : drm_device} {fd : Int} {crtc_index : Int}
    {osd_plane_idx video_plane_idx : Int} {plane_res : List Nat}
    {cs : List (drm_object × Nat)} {o : drm_object}
    (hcs : probe_planes dev fd crtc_index plane_res = some cs)
    (hnz : ∀ c ∈ cs, c.1.id ≠ 0)
    (hosd : resolve_osd_plane dev fd osd_plane_idx
      (cs.foldl (claim_plane osd_plane_idx video_plane_idx) scan_state.init) =
        .ok (some (some o))) :
    ∃ po, osd_choice dev fd crtc_index plane_res osd_plane_idx = some po ∧
      o.id = po.plane_id ∧ po ∈ layer_planes dev fd crtc_index plane_res := by
  have hlen := probe_planes_length plane_res cs hcs
  unfold osd_choice
  by_cases hr : 0 ≤ osd_plane_idx ∧
      osd_plane_idx < ((layer_planes dev fd crtc_index plane_res).length : Int)
  · rw [if_pos hr]
    have hk : osd_plane_idx.toNat < (layer_planes dev fd crtc_index plane_res).length := by
      omega
    have hkcs : osd_plane_idx.toNat < cs.length := by omega
    have hfold : (cs.foldl (claim_plane osd_plane_idx video_plane_idx)
        scan_state.init).osd_plane = some cs[osd_plane_idx.toNat].1 := by
      rw [fold_osd_at _ _ _ _ osd_plane_idx.toNat (by simp [scan_state.init]; omega),
        List.getElem?_eq_getElem hkcs]
    have ho : o = cs[osd_plane_idx.toNat].1 := by
      unfold resolve_osd_plane at hosd
      rw [hfold] at hosd
      injection hosd with hosd
      injection hosd with hosd
      injection hosd with hosd
      exact hosd.symm
    have hget := probe_planes_getElem? plane_res cs hcs osd_plane_idx.toNat
    rw [List.getElem?_eq_getElem hkcs, List.getElem?_eq_getElem hk] at hget
    have hid : cs[osd_plane_idx.toNat].1.id =
        ((layer_planes dev fd crtc_index plane_res)[osd_plane_idx.toNat]).plane_id := by
      simpa using hget
    exact ⟨_, List.getElem?_eq_getElem hk, by rw [ho]; exact hid, List.getElem_mem _⟩
  · rw [if_neg hr]
    have htype : (if osd_plane_idx = DRM_OPTS_OVERLAY_PLANE then DRM_PLANE_TYPE_OVERLAY
        else DRM_PLANE_TYPE_PRIMARY) ≠ DRM_PLANE_TYPE_CURSOR := by
      split <;> decide
    have hres := osd_fallback_resolves osd_plane_idx video_plane_idx plane_res cs hcs hnz
      (by rw [hlen]; exact hr)
    cases hf : first_of_type dev fd crtc_index plane_res
        (if osd_plane_idx = DRM_OPTS_OVERLAY_PLANE then DRM_PLANE_TYPE_OVERLAY
          else DRM_PLANE_TYPE_PRIMARY) with
    | none =>
      rw [hres.2 hf] at hosd
      cases hosd
    | some p =>
      obtain ⟨o1, ho1, hid⟩ := hres.1 p hf
      rw [ho1] at hosd
      injection hosd with hosd
      injection hosd with hosd
      injection hosd with hosd
      subst hosd
      exact ⟨p, rfl, hid, (first_of_type_mem_layer htype hf).1⟩

theorem resolve_video_plane_unclaimed (dev : drm_device) (fd : Int) (video_plane_idx : Int)
    (s : scan_state) (h : s.video_plane = none) :
    resolve_video_plane dev fd video_plane_idx s =
      if (if video_plane_idx = DRM_OPTS_PRIMARY_PLANE then s.primary_id else s.overlay_id) ≠ 0
      then
        match drm_object_create dev fd
            (if video_plane_idx = DRM_OPTS_PRIMARY_PLANE then s.primary_id else s.overlay_id)
            DRM_MODE_OBJECT_PLANE with
        | .error e => .error e
        | .ok p => .ok (some p)
      else .ok none := by
  unfold resolve_video_plane
  simp only [h]

/-- The video plane of a successful discovery is the plane the selectors
determine for the role. -/
theorem video_choice_spec {dev : drm_device} {fd : Int} {crtc_index : Int}
    {osd_plane_idx video_plane_idx : Int} {plane_res : List Nat}
    {cs : List (drm_object × Nat)} {o : drm_object}
    (hcs : probe_planes dev fd crtc_index plane_res = some cs)
    (hnz : ∀ c ∈ cs, c.1.id ≠ 0)
    (hvid : resolve_video_plane dev fd video_plane_idx
      (cs.foldl (claim_plane osd_plane_idx video_plane_idx) scan_state.init) =
        .ok (some (some o))) :
    ∃ pv, video_choice dev fd crtc_index plane_res osd_plane_idx video_plane_idx = some pv ∧
      o.id = pv.plane_id ∧ pv ∈ layer_planes dev fd crtc_index plane_res := by
  have hlen := probe_planes_length plane_res cs hcs
  unfold video_choice
  by_cases hr : 0 ≤ video_plane_idx ∧
      video_plane_idx < ((layer_planes dev fd crtc_index plane_res).length : Int) ∧
      video_plane_idx ≠ osd_plane_idx
  · rw [if_pos hr]
    have hk : video_plane_idx.toNat < (layer_planes dev fd crtc_index plane_res).length := by
      omega
    have hkcs : video_plane_idx.toNat < cs.length := by omega
    have hfold : (cs.foldl (claim_plane osd_plane_idx video_plane_idx)
        scan_state.init).video_plane = some cs[video_plane_idx.toNat].1 := by
      rw [fold_video_at _ _ _ _ video_plane_idx.toNat (by simp [scan_state.init]; omega)
        hr.2.2, List.getElem?_eq_getElem hkcs]
    have ho : o = cs[video_plane_idx.toNat].1 := by
      unfold resolve_video_plane at hvid
      rw [hfold] at hvid
      injection hvid with hvid
      injection hvid with hvid
      injection hvid with hvid
      exact hvid.symm
    have hget := probe_planes_getElem? plane_res cs hcs video_plane_idx.toNat
    rw [List.getElem?_eq_getElem hkcs, List.getElem?_eq_getElem hk] at hget
    have hid : cs[video_plane_idx.toNat].1.id =
        ((layer_planes dev fd crtc_index plane_res)[video_plane_idx.toNat]).plane_id := by
      simpa using hget
    exact ⟨_, List.getElem?_eq_getElem hk, by rw [ho]; exact hid, List.getElem_mem _⟩
  · rw [if_neg hr]
    have hnone := fold_video_none osd_plane_idx video_plane_idx cs (by rw [hlen]; exact hr)
    rcases resolve_video_plane_ok hvid with h1 | ⟨_, hne, hcr⟩
    · rw [hnone] at h1
      cases h1
    · have hoid := drm_object_create_id hcr
      by_cases hpr : video_plane_idx = DRM_OPTS_PRIMARY_PLANE
      · simp only [hpr, if_true] at hne hcr hoid ⊢
        obtain ⟨p, hp, hpid⟩ := policy_id_first plane_res cs DRM_PLANE_TYPE_PRIMARY
          (by decide) hcs _
          (fold_primary_first _ _ cs scan_state.init rfl hnz) hne
        exact ⟨p, hp, by rw [hoid, hpid], (first_of_type_mem_layer (by decide) hp).1⟩
      · simp only [hpr, if_false] at hne hcr hoid ⊢
        obtain ⟨p, hp, hpid⟩ := policy_id_first plane_res cs DRM_PLANE_TYPE_OVERLAY
          (by decide) hcs _
          (fold_overlay_first _ _ cs scan_state.init rfl hnz) hne
        exact ⟨p, hp, by rw [hoid, hpid], (first_of_type_mem_layer (by decide) hp).1⟩

/-- Two different positions of a list without repeated entries hold different
entries. -/
theorem getElem?_ne_of_nodup {l : List Nat} (h : l.Nodup) {a b : Nat} {x y : Nat}
    (hab : a ≠ b) (ha : l[a]? = some x) (hb : l[b]? = some y) : x ≠ y := by
  intro hxy
  subst hxy
  have hbl : b < l.length := by
    by_contra hc
    rw [List.getElem?_eq_none (by omega)] at hb
    cases hb
  have hal : a < l.length := by
    by_contra hc
    rw [List.getElem?_eq_none (by omega)] at ha
    cases ha
  rcases Nat.lt_or_gt_of_ne hab with hlt | hgt
  · exact (List.nodup_iff_getElem?_ne_getElem?.mp h a b hlt hbl) (by rw [ha, hb])
  · exact (List.nodup_iff_getElem?_ne_getElem?.mp h b a hgt hal) (by rw [ha, hb])

theorem osd_index_claim {dev : drm_device} {fd : Int} {crtc_index : Int}
    {osd_plane_idx video_plane_idx : Int} {plane_res : List Nat}
    {cs : List (drm_object × Nat)} {o : drm_object}
    (hcs : probe_planes dev fd crtc_index plane_res = some cs)
    (hosd : resolve_osd_plane dev fd osd_plane_idx
      (cs.foldl (claim_plane osd_plane_idx video_plane_idx) scan_state.init) =
        .ok (some (some o)))
    (h0 : 0 ≤ osd_plane_idx)
    (hlt : osd_plane_idx < ((layer_planes dev fd crtc_index plane_res).length : Int)) :
    ((layer_planes dev fd crtc_index plane_res).map fun p => p.plane_id)[osd_plane_idx.toNat]?
      = some o.id := by
  have hlen := probe_planes_length plane_res cs hcs
  have hkcs : osd_plane_idx.toNat < cs.length := by omega
  have hfold : (cs.foldl (claim_plane osd_plane_idx video_plane_idx)
      scan_state.init).osd_plane = some cs[osd_plane_idx.toNat].1 := by
    rw [fold_osd_at _ _ _ _ osd_plane_idx.toNat (by simp [scan_state.init]; omega),
      List.getElem?_eq_getElem hkcs]
  have ho : o = cs[osd_plane_idx.toNat].1 := by
    unfold resolve_osd_plane at hosd
    rw [hfold] at hosd
    injection hosd with hosd
    injection hosd with hosd
    injection hosd with hosd
    exact hosd.symm
  rw [← probe_planes_ids plane_res cs hcs, List.getElem?_map, List.getElem?_eq_getElem hkcs,
    ho]
  rfl

theorem video_index_claim {dev : drm_device} {fd : Int} {crtc_index : Int}
    {osd_plane_idx video_plane_idx : Int} {plane_res : List Nat}
    {cs : List (drm_object × Nat)} {o : drm_object}
    (hcs : probe_planes dev fd crtc_index plane_res = some cs)
    (hvid : resolve_video_plane dev fd video_plane_idx
      (cs.foldl (claim_plane osd_plane_idx video_plane_idx) scan_state.init) =
        .ok (some (some o)))
    (h0 : 0 ≤ video_plane_idx)
    (hlt : video_plane_idx < ((layer_planes dev fd crtc_index plane_res).length : Int))
    (hne : video_plane_idx ≠ osd_plane_idx) :
    ((layer_planes dev fd crtc_index plane_res).map fun p => p.plane_id)[video_plane_idx.toNat]?
      = some o.id := by
  have hlen := probe_planes_length plane_res cs hcs
  have hkcs : video_plane_idx.toNat < cs.length := by omega
  have hfold : (cs.foldl (claim_plane osd_plane_idx video_plane_idx)
      scan_state.init).video_plane = some cs[video_plane_idx.toNat].1 := by
    rw [fold_video_at _ _ _ _ video_plane_idx.toNat (by simp [scan_state.init]; omega) hne,
      List.getElem?_eq_getElem hkcs]
  have ho : o = cs[video_plane_idx.toNat].1 := by
    unfold resolve_video_plane at hvid
    rw [hfold] at hvid
    injection hvid with hvid
    injection hvid with hvid
    injection hvid with hvid
    exact hvid.symm
  rw [← probe_planes_ids plane_res cs hcs, List.getElem?_map, List.getElem?_eq_getElem hkcs,
    ho]
  rfl


/-- C5: whenever `drm_atomic_create_context` succeeds, for every pair of
selectors, the TYPE property of the returned OSD plane and of the returned
video plane is present and is not the cursor type. -/
theorem osd_video_planes_never_cursor (dev : drm_device) (fd : Int)
    (crtc_id connector_id : Nat) (osd_plane_idx video_plane_idx : Int)
    (ctx : drm_atomic_context)
    (hok : drm_atomic_create_context dev fd crtc_id connector_id osd_plane_idx
      video_plane_idx = .ok (some ctx)) :
    ∃ o v, ctx.osd_plane = some o ∧ ctx.video_plane = some v ∧
      (∃ t, drm_object_get_property o "TYPE" 0 = .ok (0, t) ∧ plane_TYPE dev fd o.id = some t ∧
        t ≠ DRM_PLANE_TYPE_CURSOR) ∧
      (∃ t, drm_object_get_property v "TYPE" 0 = .ok (0, t) ∧ plane_TYPE dev fd v.id = some t ∧
        t ≠ DRM_PLANE_TYPE_CURSOR) := by
  obtain ⟨res, plane_res, cs, co, cv, _, _, hcs, hcomem, hcvmem, hco, hcv, _, _⟩ :=
    selected_planes hok
  obtain ⟨_, _, _, hocr, hoty, hocur⟩ := probe_planes_mem plane_res cs hcs co hcomem
  obtain ⟨_, _, _, hvcr, hvty, hvcur⟩ := probe_planes_mem plane_res cs hcs cv hcvmem
  refine ⟨co.1, cv.1, hco, hcv, ⟨co.2, hoty, ?_, hocur⟩, ⟨cv.2, hvty, ?_, hvcur⟩⟩
  · simp [plane_TYPE, hocr, hoty]
  · simp [plane_TYPE, hvcr, hvty]

/-- Witness for C5 on the example device with index selectors 0 and 1. -/
theorem osd_video_planes_never_cursor_witness :
    ∃ o v,
      (the_context (drm_atomic_create_context scenario_device 3 10 20 0 1)).osd_plane = some o ∧
      (the_context (drm_atomic_create_context scenario_device 3 10 20 0 1)).video_plane
        = some v ∧
      (∃ t, drm_object_get_property o "TYPE" 0 = .ok (0, t) ∧
        plane_TYPE scenario_device 3 o.id = some t ∧ t ≠ DRM_PLANE_TYPE_CURSOR) ∧
      (∃ t, drm_object_get_property v "TYPE" 0 = .ok (0, t) ∧
        plane_TYPE scenario_device 3 v.id = some t ∧ t ≠ DRM_PLANE_TYPE_CURSOR) :=
  osd_video_planes_never_cursor scenario_device 3 10 20 0 1
    (the_context (drm_atomic_create_context scenario_device 3 10 20 0 1)) rfl

/-- When the CRTC id occurs in `res->crtcs`, the first loop of
`drm_atomic_create_context` finds the index of its first occurrence. -/
theorem find_crtc_index_eq (crtc_id : Nat) (crtcs : List Nat) (i : Nat)
    (h : crtc_id ∈ crtcs) :
    find_crtc_index crtc_id crtcs i = ((i + crtcs.indexOf crtc_id : Nat) : Int) := by
  induction crtcs generalizing i with
  | nil => cases h
  | cons c rest ih =>
    unfold find_crtc_index
    by_cases hc : c = crtc_id
    · rw [if_pos hc, List.indexOf_cons_eq _ hc]
      rfl
    · rw [if_neg hc, List.indexOf_cons_ne _ hc]
      have hmem : crtc_id ∈ rest := by
        rcases List.mem_cons.mp h with h1 | h1
        · exact absurd h1.symm hc
        · exact h1
      rw [ih (i + 1) hmem]
      congr 1
      omega

/-- C6: when the CRTC id occurs in the resource CRTC array, the bit tested by
the plane loop is the one at the index of its first occurrence; whenever
`drm_atomic_create_context` succeeds, the OSD plane id and the video plane id
are ids of scanned planes whose possible-CRTCs bitmask has that bit set; and a
round of the plane loop for a plane with that bit unset leaves the layer
counter, the remembered ids and both role slots as they were (or, for an index
of 32 or more, performs the undefined shift). -/
theorem planes_eligible_for_crtc (dev : drm_device) (fd : Int) (crtc_id connector_id : Nat)
    (osd_plane_idx video_plane_idx : Int) (res : drmModeRes) (plane_res : List Nat)
    (hres : dev.drmModeGetResources = some res)
    (hpl : dev.drmModeGetPlaneResources = some plane_res)
    (hcrtc : crtc_id ∈ res.crtcs) :
    find_crtc_index crtc_id res.crtcs 0 = ((res.crtcs.indexOf crtc_id : Nat) : Int) ∧
    (∀ ctx, drm_atomic_create_context dev fd crtc_id connector_id osd_plane_idx
        video_plane_idx = .ok (some ctx) →
      ∃ o v po pv, ctx.osd_plane = some o ∧ ctx.video_plane = some v ∧
        po ∈ scanned_planes dev plane_res ∧ pv ∈ scanned_planes dev plane_res ∧
        po.plane_id = o.id ∧ pv.plane_id = v.id ∧
        po.possible_crtcs.testBit (res.crtcs.indexOf crtc_id) = true ∧
        pv.possible_crtcs.testBit (res.crtcs.indexOf crtc_id) = true) ∧
    (∀ (s : scan_state) (j : Nat) (p : drmModePlane), dev.drmModeGetPlane j = some p →
      p.possible_crtcs.testBit (res.crtcs.indexOf crtc_id) = false →
      scan_plane dev fd (find_crtc_index crtc_id res.crtcs 0) osd_plane_idx video_plane_idx s j
          = .ok (some s) ∨
        (32 ≤ res.crtcs.indexOf crtc_id ∧
          scan_plane dev fd (find_crtc_index crtc_id res.crtcs 0) osd_plane_idx
            video_plane_idx s j = .error .bad_shift)) := by
  have hidx : find_crtc_index crtc_id res.crtcs 0 = ((res.crtcs.indexOf crtc_id : Nat) : Int) := by
    rw [find_crtc_index_eq crtc_id res.crtcs 0 hcrtc, Nat.zero_add]
  refine ⟨hidx, ?_, ?_⟩
  · intro ctx hok
    obtain ⟨res1, plane_res1, cs, co, cv, hres1, hpl1, hcs, hcomem, hcvmem, hco, hcv, _, _⟩ :=
      selected_planes hok
    rw [hres] at hres1
    rw [hpl] at hpl1
    injection hres1 with hres1
    injection hpl1 with hpl1
    subst hres1
    subst hpl1
    obtain ⟨po, hpo, hpoid, _⟩ := probe_planes_mem plane_res cs hcs co hcomem
    obtain ⟨pv, hpv, hpvid, _⟩ := probe_planes_mem plane_res cs hcs cv hcvmem
    obtain ⟨hpos, hpob⟩ := eligible_planes_sublist dev _ plane_res po hpo
    obtain ⟨hpvs, hpvb⟩ := eligible_planes_sublist dev _ plane_res pv hpv
    rw [hidx] at hpob hpvb
    simp only [has_crtc_bit, Int.toNat_ofNat, Bool.and_eq_true, decide_eq_true_eq] at hpob hpvb
    exact ⟨co.1, cv.1, po, pv, hco, hcv, hpos, hpvs, hpoid.symm, hpvid.symm, hpob.2, hpvb.2⟩
  · intro s j p hg hbit
    rw [hidx]
    by_cases h32 : res.crtcs.indexOf crtc_id < 32
    · left
      have hb := crtc_bit_test_of_range p.possible_crtcs ((res.crtcs.indexOf crtc_id : Nat) : Int)
        (by omega) (by omega) p.plane_id
      have hf : has_crtc_bit ((res.crtcs.indexOf crtc_id : Nat) : Int)
          { plane_id := p.plane_id, possible_crtcs := p.possible_crtcs } = false := by
        simp [has_crtc_bit, hbit]
      rw [hf] at hb
      simp only [scan_plane, hg, hb]
    · right
      refine ⟨by omega, ?_⟩
      have hb : crtc_bit_test p.possible_crtcs ((res.crtcs.indexOf crtc_id : Nat) : Int) =
          .error .bad_shift := by
        unfold crtc_bit_test
        rw [if_pos (by omega)]
      simp only [scan_plane, hg, hb]

/-- Witness for C6 on the example device: CRTC 10 is at index 2, and a plane
whose bitmask is `0b0011` is passed over by the loop. -/
theorem planes_eligible_for_crtc_witness :
    find_crtc_index 10 scenario_res.crtcs 0 = ((scenario_res.crtcs.indexOf 10 : Nat) : Int) ∧
    (∀ ctx, drm_atomic_create_context scenario_device 3 10 20 (-2) (-1) = .ok (some ctx) →
      ∃ o v po pv, ctx.osd_plane = some o ∧ ctx.video_plane = some v ∧
        po ∈ scanned_planes scenario_device scenario_planes ∧
        pv ∈ scanned_planes scenario_device scenario_planes ∧
        po.plane_id = o.id ∧ pv.plane_id = v.id ∧
        po.possible_crtcs.testBit (scenario_res.crtcs.indexOf 10) = true ∧
        pv.possible_crtcs.testBit (scenario_res.crtcs.indexOf 10) = true) ∧
    (∀ (s : scan_state) (j : Nat) (p : drmModePlane),
      scenario_device.drmModeGetPlane j = some p →
      p.possible_crtcs.testBit (scenario_res.crtcs.indexOf 10) = false →
      scan_plane scenario_device 3 (find_crtc_index 10 scenario_res.crtcs 0) (-2) (-1) s j
          = .ok (some s) ∨
        (32 ≤ scenario_res.crtcs.indexOf 10 ∧
          scan_plane scenario_device 3 (find_crtc_index 10 scenario_res.crtcs 0) (-2) (-1) s j
            = .error .bad_shift)) :=
  planes_eligible_for_crtc scenario_device 3 10 20 (-2) (-1) scenario_res scenario_planes
    rfl rfl (by decide)

/-- C7: evaluation at a connector id that matches no connector.  The example
device lists only connector 20; asked for connector 99, discovery returns a
context whose connector slot is NULL (the CRTC and both plane slots are
filled). -/
theorem create_context_absent_connector :
    (99 : Nat) ∉ scenario_res.connectors ∧
    (∃ ctx, drm_atomic_create_context scenario_device 3 10 99 (-2) (-1) = .ok (some ctx)) ∧
    (the_context (drm_atomic_create_context scenario_device 3 10 99 (-2) (-1))).connector
      = none ∧
    (the_context (drm_atomic_create_context scenario_device 3 10 99 (-2) (-1))).crtc.isSome
      = true ∧
    plane_ids (drm_atomic_create_context scenario_device 3 10 99 (-2) (-1)) =
      some (some (some 32, some 31)) := by
  refine ⟨by decide, ⟨the_context (drm_atomic_create_context scenario_device 3 10 99 (-2) (-1)),
    ?_⟩, ?_, ?_, ?_⟩ <;> rfl

/-! ## Release of the property table -/

theorem free_properties_loop_total (info : List (Option drmModePropertyRes)) (n i : Nat)
    (h : i + n ≤ info.length) : ∃ r, free_properties_loop (some info) n i = .ok r := by
  induction n generalizing info i with
  | zero => exact ⟨some info, rfl⟩
  | succ n ih =>
    have hi : i < info.length := by omega
    unfold free_properties_loop
    rw [List.getElem?_eq_getElem hi]
    cases info[i] with
    | none => exact ih info (i + 1) (by omega)
    | some p => exact ih (info.set i none) (i + 1) (by rw [List.length_set]; omega)

/-- On an object that was never populated or already released, and on an
object whose `props_info` array has an entry for every property (present or
absent), `drm_object_free_properties` completes, leaves `props` and
`props_info` NULL, and a second call changes nothing. -/
theorem drm_object_free_properties_idempotent (object : drm_object)
    (h : (object.props = none ∧ object.props_info = none) ∨
      ∃ props info, object.props = some props ∧ object.props_info = some info ∧
        info.length = props.count_props) :
    ∃ o, drm_object_free_properties object = .ok o ∧ o.props = none ∧ o.props_info = none ∧
      drm_object_free_properties o = .ok o := by
  rcases h with ⟨hp, hi⟩ | ⟨props, info, hp, hi, hlen⟩
  · refine ⟨object, ?_, hp, hi, ?_⟩ <;> simp [drm_object_free_properties, hp]
  · obtain ⟨r, hr⟩ := free_properties_loop_total info props.count_props 0 (by omega)
    refine ⟨{ object with props_info := none, props := none }, ?_, rfl, rfl, ?_⟩
    · simp [drm_object_free_properties, hp, hi, hr]
    · simp [drm_object_free_properties]

/-- C11: evaluation at the half-built state.  When the allocation of
`props_info` fails, `drm_object_create_properties` jumps to `fail` with `props`
set and `props_info` NULL; `drm_object_free_properties` then reads
`props_info[0]` through the NULL pointer, so neither call completes. -/
theorem drm_object_free_properties_half_built_faults :
    drm_object_free_properties half_built_object = .error .null_deref ∧
    drm_object_create_properties oom_device
        { fd := 3, id := 40, type := DRM_MODE_OBJECT_PLANE, props := none, props_info := none }
      = .error .null_deref := by
  constructor <;> rfl

/-- C13: evaluation at a table with an absent slot.  On `absent_slot_object`
(slot 0 absent, slot 1 named "FB_ID") the first present slot matching "FB_ID"
is slot 1 and no present slot matches "MODE_ID"; `drm_object_get_property` and
`drm_object_set_property` read the name of the NULL descriptor in slot 0 in
both cases instead of skipping it. -/
theorem absent_slot_lookup_faults :
    absent_slot_object.first_match "FB_ID" = some (2, 5) ∧
    absent_slot_object.first_match "MODE_ID" = none ∧
    drm_object_get_property absent_slot_object "FB_ID" 0 = .error .null_deref ∧
    drm_object_get_property absent_slot_object "MODE_ID" 0 = .error .null_deref ∧
    drm_object_set_property [] absent_slot_object "MODE_ID" 9 = .error .null_deref := by
  refine ⟨by decide, by decide, ?_, ?_, ?_⟩ <;> rfl

/-! ## Further claims about plane discovery -/

theorem scan_planes_append (dev : drm_device) (fd : Int) (crtc_index : Int)
    (osd_plane_idx video_plane_idx : Int) (l1 l2 : List Nat) (s : scan_state) :
    scan_planes dev fd crtc_index osd_plane_idx video_plane_idx (l1 ++ l2) s =
      match scan_planes dev fd crtc_index osd_plane_idx video_plane_idx l1 s with
      | .ok (some s1) => scan_planes dev fd crtc_index osd_plane_idx video_plane_idx l2 s1
      | r => r := by
  induction l1 generalizing s with
  | nil => rfl
  | cons j rest ih =>
    simp only [List.cons_append, scan_planes]
    cases hj : scan_plane dev fd crtc_index osd_plane_idx video_plane_idx s j with
    | error e => rfl
    | ok r =>
      cases r with
      | none => rfl
      | some s1 => exact ih s1

/-- A plane claimed for the OSD role in the loop was claimed when the layer
counter reached the selector. -/
theorem fold_osd_some_le (osd_plane_idx video_plane_idx : Int) (cs : List (drm_object × Nat))
    (o : drm_object)
    (h : (cs.foldl (claim_plane osd_plane_idx video_plane_idx) scan_state.init).osd_plane
      = some o) :
    osd_plane_idx ≤
      (cs.foldl (claim_plane osd_plane_idx video_plane_idx) scan_state.init).layercount := by
  by_contra hlt
  rw [fold_layercount] at hlt
  rw [fold_osd_none osd_plane_idx video_plane_idx cs
    (by simp [scan_state.init] at hlt; omega)] at h
  cases h

/-- A plane claimed for the video role in the loop was claimed when the layer
counter reached the selector. -/
theorem fold_video_some_le (osd_plane_idx video_plane_idx : Int)
    (cs : List (drm_object × Nat)) (o : drm_object)
    (h : (cs.foldl (claim_plane osd_plane_idx video_plane_idx) scan_state.init).video_plane
      = some o) :
    video_plane_idx ≤
      (cs.foldl (claim_plane osd_plane_idx video_plane_idx) scan_state.init).layercount := by
  by_contra hlt
  rw [fold_layercount] at hlt
  rw [fold_video_none osd_plane_idx video_plane_idx cs
    (by simp [scan_state.init] at hlt; omega)] at h
  cases h

/-- C14: when `video_plane_idx` is a number `k` below the count of eligible
non-cursor planes, a successful `drm_atomic_create_context` returns as video
plane the `k`-th (zero-based, scan order) eligible non-cursor plane if `k`
differs from `osd_plane_idx`; if `k` equals `osd_plane_idx`, that plane is the
OSD plane and the video plane comes from the policy fallback, which for a
selector other than `DRM_OPTS_PRIMARY_PLANE` is the remembered overlay plane:
an overlay-type plane, the first eligible one when plane ids are non-zero. -/
theorem video_plane_claimed_by_index (dev : drm_device) (fd : Int)
    (crtc_id connector_id : Nat) (osd_plane_idx : Int) (k : Nat) (res : drmModeRes)
    (plane_res : List Nat) (ctx : drm_atomic_context)
    (hres : dev.drmModeGetResources = some res)
    (hpl : dev.drmModeGetPlaneResources = some plane_res)
    (hk : k < (layer_planes dev fd (find_crtc_index crtc_id res.crtcs 0) plane_res).length)
    (hok : drm_atomic_create_context dev fd crtc_id connector_id osd_plane_idx (k : Int) =
      .ok (some ctx)) :
    ((k : Int) ≠ osd_plane_idx →
      ∃ v p, ctx.video_plane = some v ∧
        (layer_planes dev fd (find_crtc_index crtc_id res.crtcs 0) plane_res)[k]? = some p ∧
        v.id = p.plane_id) ∧
    ((k : Int) = osd_plane_idx →
      ∃ o v p, ctx.osd_plane = some o ∧ ctx.video_plane = some v ∧
        (layer_planes dev fd (find_crtc_index crtc_id res.crtcs 0) plane_res)[k]? = some p ∧
        o.id = p.plane_id ∧
        drm_object_get_property v "TYPE" 0 = .ok (0, DRM_PLANE_TYPE_OVERLAY) ∧
        (plane_ids_nonzero dev plane_res →
          ∃ q, first_of_type dev fd (find_crtc_index crtc_id res.crtcs 0) plane_res
              DRM_PLANE_TYPE_OVERLAY = some q ∧ v.id = q.plane_id)) := by
  obtain ⟨res1, plane_res1, cs, crtc, osd_o, video_o, hres1, hpl1, _, _, hcs, hosd, hvid, _,
    hco, hcv⟩ := create_context_ok hok
  rw [hres] at hres1
  rw [hpl] at hpl1
  injection hres1 with hres1
  injection hpl1 with hpl1
  subst hres1
  subst hpl1
  have hlen := probe_planes_length plane_res cs hcs
  have hkcs : k < cs.length := by omega
  have hget := probe_planes_getElem? plane_res cs hcs k
  rw [List.getElem?_eq_getElem hkcs, List.getElem?_eq_getElem hk] at hget
  have hid : cs[k].1.id =
      ((layer_planes dev fd (find_crtc_index crtc_id res.crtcs 0) plane_res)[k]).plane_id := by
    simpa using hget
  constructor
  · intro hne
    have hfold : (cs.foldl (claim_plane osd_plane_idx (k : Int)) scan_state.init).video_plane =
        some cs[k].1 := by
      rw [fold_video_at _ _ _ _ k (by simp [scan_state.init]) hne,
        List.getElem?_eq_getElem hkcs]
    have hv : video_o = cs[k].1 := by
      unfold resolve_video_plane at hvid
      rw [hfold] at hvid
      injection hvid with hvid
      injection hvid with hvid
      injection hvid with hvid
      exact hvid.symm
    exact ⟨video_o, _, hcv, List.getElem?_eq_getElem hk, by rw [hv]; exact hid⟩
  · intro heq
    subst heq
    have hfold : (cs.foldl (claim_plane (k : Int) (k : Int)) scan_state.init).osd_plane =
        some cs[k].1 := by
      rw [fold_osd_at _ _ _ _ k (by simp [scan_state.init]), List.getElem?_eq_getElem hkcs]
    have ho : osd_o = cs[k].1 := by
      unfold resolve_osd_plane at hosd
      rw [hfold] at hosd
      injection hosd with hosd
      injection hosd with hosd
      injection hosd with hosd
      exact hosd.symm
    have hkne : ¬ ((k : Int) = DRM_OPTS_PRIMARY_PLANE) := by
      unfold DRM_OPTS_PRIMARY_PLANE
      omega
    obtain ⟨c, hcmem, hceq, hcase⟩ := video_selection hcs hvid
    rcases hcase with ⟨_, _, hne, _⟩ | ⟨_, hct, hcid⟩
    · exact absurd rfl hne
    · rw [if_neg hkne] at hct hcid
      obtain ⟨_, _, _, _, hty, _⟩ := probe_planes_mem plane_res cs hcs c hcmem
      refine ⟨osd_o, video_o, _, hco, hcv, List.getElem?_eq_getElem hk,
        by rw [ho]; exact hid, ?_, ?_⟩
      · rw [← hceq, ← hct]
        exact hty
      · intro hnz
        have hcsnz := probe_planes_nonzero plane_res cs hcs hnz
        obtain ⟨q, hq, hqid⟩ := policy_id_first plane_res cs DRM_PLANE_TYPE_OVERLAY
          (by decide) hcs _
          (fold_overlay_first (k : Int) (k : Int) cs scan_state.init rfl hcsnz)
          (by rw [← hcid]; exact hcsnz c hcmem)
        exact ⟨q, hq, by rw [← hceq, hcid, hqid]⟩

/-- Witness for C14: on the example device with `osd_plane_idx = 0` and
`video_plane_idx = 1` the video plane is plane 32. -/
theorem video_plane_claimed_by_index_witness :
    ((((1 : Nat) : Int) ≠ 0 →
      ∃ v p,
        (the_context (drm_atomic_create_context scenario_device 3 10 20 0
          ((1 : Nat) : Int))).video_plane = some v ∧
        (layer_planes scenario_device 3 (find_crtc_index 10 scenario_res.crtcs 0)
          scenario_planes)[1]? = some p ∧
        v.id = p.plane_id)) ∧
    plane_ids (drm_atomic_create_context scenario_device 3 10 20 0 1) =
      some (some (some 31, some 32)) ∧
    plane_ids (drm_atomic_create_context scenario_device 3 10 20 1 1) =
      some (some (some 32, some 32)) :=
  ⟨(video_plane_claimed_by_index scenario_device 3 10 20 0 1 scenario_res scenario_planes
    (the_context (drm_atomic_create_context scenario_device 3 10 20 0 ((1 : Nat) : Int)))
    rfl rfl (by decide) rfl).1, rfl, rfl⟩

/-- The effect of one completed round of the plane loop on the loop state. -/
theorem scan_plane_step {dev : drm_device} {fd : Int} {crtc_index : Int}
    {osd_plane_idx video_plane_idx : Int} {s s1 : scan_state} {j : Nat}
    (h : scan_plane dev fd crtc_index osd_plane_idx video_plane_idx s j = .ok (some s1)) :
    ∃ p, dev.drmModeGetPlane j = some p ∧
      ((has_crtc_bit crtc_index p = true ∧
          plane_TYPE dev fd p.plane_id ≠ some DRM_PLANE_TYPE_CURSOR ∧
          s1.layercount = s.layercount + 1 ∧
          (s1.osd_plane ≠ s.osd_plane → s1.layercount = osd_plane_idx) ∧
          (s1.video_plane ≠ s.video_plane → s1.layercount = video_plane_idx)) ∨
        ((has_crtc_bit crtc_index p = false ∨
            plane_TYPE dev fd p.plane_id = some DRM_PLANE_TYPE_CURSOR) ∧ s1 = s)) := by
  rw [scan_plane_eq_probe] at h
  cases hp : probe_plane dev fd crtc_index j with
  | error e => simp [hp] at h
  | ok r =>
    cases r with
    | none => simp [hp] at h
    | some oc =>
      cases oc with
      | none =>
        simp only [hp] at h
        obtain ⟨p, hg, hskip⟩ := probe_plane_skip hp
        injection h with h
        injection h with h
        exact ⟨p, hg, Or.inr ⟨hskip, h.symm⟩⟩
      | some c =>
        simp only [hp] at h
        obtain ⟨p, hg, hb, _, _, _, ht, hv⟩ := probe_plane_some hp
        injection h with h
        injection h with h
        subst h
        refine ⟨p, hg, Or.inl ⟨hb, ?_, claim_plane_layercount _ _ _ _, ?_, ?_⟩⟩
        · rw [ht]
          intro hh
          injection hh with hh
          exact hv hh
        · intro hne
          rw [claim_plane_layercount]
          by_contra hc
          exact hne (by rw [claim_plane_osd_plane, if_neg hc])
        · intro hne
          rw [claim_plane_layercount]
          by_contra hc
          apply hne
          rw [claim_plane_video_plane, if_neg hc]
          split <;> rfl

/-- C15: the layer counter starts at -1; after scanning a first part of the
plane list it equals -1 plus the number of eligible non-cursor planes met, and
each further round adds one for an eligible non-cursor plane and leaves the
whole loop state alone for any other plane; a role slot changes in a round
only when the counter reaches that role's selector, and a slot filled during
the first part of the scan still holds the same object after the rest of the
scan. -/
theorem layer_counter_and_claims (dev : drm_device) (fd : Int) (crtc_index : Int)
    (osd_plane_idx video_plane_idx : Int) (l1 l2 : List Nat) (s1 s2 : scan_state)
    (h1 : scan_planes dev fd crtc_index osd_plane_idx video_plane_idx l1 scan_state.init =
      .ok (some s1))
    (h2 : scan_planes dev fd crtc_index osd_plane_idx video_plane_idx l2 s1 = .ok (some s2)) :
    scan_state.init.layercount = -1 ∧
    scan_planes dev fd crtc_index osd_plane_idx video_plane_idx (l1 ++ l2) scan_state.init =
      .ok (some s2) ∧
    s1.layercount = -1 + ((layer_planes dev fd crtc_index l1).length : Int) ∧
    s2.layercount = s1.layercount + ((layer_planes dev fd crtc_index l2).length : Int) ∧
    (∀ o, s1.osd_plane = some o → s2.osd_plane = some o) ∧
    (∀ o, s1.video_plane = some o → s2.video_plane = some o) ∧
    (∀ (s t : scan_state) (j : Nat),
      scan_plane dev fd crtc_index osd_plane_idx video_plane_idx s j = .ok (some t) →
      ∃ p, dev.drmModeGetPlane j = some p ∧
        ((has_crtc_bit crtc_index p = true ∧
            plane_TYPE dev fd p.plane_id ≠ some DRM_PLANE_TYPE_CURSOR ∧
            t.layercount = s.layercount + 1 ∧
            (t.osd_plane ≠ s.osd_plane → t.layercount = osd_plane_idx) ∧
            (t.video_plane ≠ s.video_plane → t.layercount = video_plane_idx)) ∨
          ((has_crtc_bit crtc_index p = false ∨
              plane_TYPE dev fd p.plane_id = some DRM_PLANE_TYPE_CURSOR) ∧ t = s))) := by
  obtain ⟨cs1, hcs1, hs1⟩ := scan_planes_ok l1 scan_state.init s1 h1
  obtain ⟨cs2, hcs2, hs2⟩ := scan_planes_ok l2 s1 s2 h2
  have hl1 := probe_planes_length l1 cs1 hcs1
  have hl2 := probe_planes_length l2 cs2 hcs2
  have hc1 : s1.layercount = -1 + ((layer_planes dev fd crtc_index l1).length : Int) := by
    rw [hs1, fold_layercount, hl1]
    rfl
  refine ⟨rfl, ?_, hc1, ?_, ?_, ?_, fun s t j h => scan_plane_step h⟩
  · rw [scan_planes_append, h1]
    exact h2
  · rw [hs2, fold_layercount, hl2]
  · intro o ho
    have hle : osd_plane_idx ≤ s1.layercount := by
      rw [hs1] at ho ⊢
      exact fold_osd_some_le _ _ _ o ho
    rw [hs2, fold_osd_unchanged _ _ _ _ hle]
    exact ho
  · intro o ho
    have hle : video_plane_idx ≤ s1.layercount := by
      rw [hs1] at ho ⊢
      exact fold_video_some_le _ _ _ o ho
    rw [hs2, fold_video_unchanged _ _ _ _ (Or.inl hle)]
    exact ho

/-- Witness for C15: on the example device with selectors 0 and 1, scanning
plane 31 and then planes 32 and 33. -/
theorem layer_counter_and_claims_witness :
    (the_state (scan_planes scenario_device 3 2 0 1 [31] scan_state.init)).layercount
        = -1 + ((layer_planes scenario_device 3 2 [31]).length : Int) ∧
    (the_state (scan_planes scenario_device 3 2 0 1 [32, 33]
        (the_state (scan_planes scenario_device 3 2 0 1 [31]
          scan_state.init)))).layercount = 1 ∧
    (∀ o, (the_state (scan_planes scenario_device 3 2 0 1 [31]
          scan_state.init)).osd_plane = some o →
      (the_state (scan_planes scenario_device 3 2 0 1 [32, 33]
        (the_state (scan_planes scenario_device 3 2 0 1 [31]
          scan_state.init)))).osd_plane = some o) :=
  have h := layer_counter_and_claims scenario_device 3 2 0 1 [31] [32, 33]
    (the_state (scan_planes scenario_device 3 2 0 1 [31] scan_state.init))
    (the_state (scan_planes scenario_device 3 2 0 1 [32, 33]
      (the_state (scan_planes scenario_device 3 2 0 1 [31] scan_state.init)))) rfl rfl
  ⟨h.2.2.1, rfl, h.2.2.2.2.1⟩

/-! ## Dependence of discovery on the eligible planes only -/

theorem probe_plane_eq_fetched (dev : drm_device) (fd : Int) (crtc_index : Int) (j : Nat) :
    probe_plane dev fd crtc_index j =
      match dev.drmModeGetPlane j with
      | none => .error .null_deref
      | some p => probe_fetched_plane dev fd crtc_index p := by
  unfold probe_plane probe_fetched_plane
  cases dev.drmModeGetPlane j <;> rfl

/-- When every plane of the list can be fetched, the plane loop is the loop
over the fetched records. -/
theorem scan_planes_eq_fetched (dev : drm_device) (fd : Int) (crtc_index : Int)
    (osd_plane_idx video_plane_idx : Int) (l : List Nat) (s : scan_state)
    (hf : ∀ j ∈ l, dev.drmModeGetPlane j ≠ none) :
    scan_planes dev fd crtc_index osd_plane_idx video_plane_idx l s =
      scan_fetched_planes dev fd crtc_index osd_plane_idx video_plane_idx
        (scanned_planes dev l) s := by
  induction l generalizing s with
  | nil => rfl
  | cons j rest ih =>
    have hrest : ∀ i ∈ rest, dev.drmModeGetPlane i ≠ none :=
      fun i hi => hf i (List.mem_cons_of_mem _ hi)
    cases hg : dev.drmModeGetPlane j with
    | none => exact absurd hg (hf j (List.mem_cons_self _ _))
    | some p =>
      rw [scanned_planes_cons rest hg]
      simp only [scan_planes, scan_fetched_planes, scan_plane_eq_probe,
        probe_plane_eq_fetched, hg]
      cases probe_fetched_plane dev fd crtc_index p with
      | error e => rfl
      | ok r =>
        cases r with
        | none => rfl
        | some oc =>
          cases oc with
          | none => exact ih s hrest
          | some c => exact ih _ hrest

/-- For a CRTC index in range, the loop over fetched records ignores the
records whose bitmask lacks the CRTC's bit. -/
theorem scan_fetched_planes_filter (dev : drm_device) (fd : Int) (crtc_index : Int)
    (osd_plane_idx video_plane_idx : Int) (h0 : 0 ≤ crtc_index) (h32 : crtc_index < 32)
    (ps : List drmModePlane) (s : scan_state) :
    scan_fetched_planes dev fd crtc_index osd_plane_idx video_plane_idx ps s =
      scan_fetched_planes dev fd crtc_index osd_plane_idx video_plane_idx
        (ps.filter (has_crtc_bit crtc_index)) s := by
  induction ps generalizing s with
  | nil => rfl
  | cons p rest ih =>
    cases hb : has_crtc_bit crtc_index p with
    | false =>
      have hprobe : probe_fetched_plane dev fd crtc_index p = .ok (some none) := by
        unfold probe_fetched_plane
        rw [crtc_bit_test_of_range p.possible_crtcs crtc_index h0 h32 p.plane_id, hb]
      rw [List.filter_cons_of_neg (by simp [hb])]
      simp only [scan_fetched_planes, hprobe]
      exact ih s
    | true =>
      rw [List.filter_cons_of_pos hb]
      simp only [scan_fetched_planes]
      cases probe_fetched_plane dev fd crtc_index p with
      | error e => rfl
      | ok r =>
        cases r with
        | none => rfl
        | some oc =>
          cases oc with
          | none => exact ih s
          | some c => exact ih _

theorem find_connector_with_plane_res (dev : drm_device) (plane_res : List Nat) (fd : Int)
    (connector_id : Nat) (l : List Nat) :
    find_connector (with_plane_res dev plane_res) fd connector_id l =
      find_connector dev fd connector_id l := by
  induction l with
  | nil => rfl
  | cons c rest ih =>
    unfold find_connector
    rw [ih]
    rfl

theorem scan_planes_with_plane_res (dev : drm_device) (plane_res : List Nat) (fd : Int)
    (crtc_index osd_plane_idx video_plane_idx : Int) (l : List Nat) (s : scan_state) :
    scan_planes (with_plane_res dev plane_res) fd crtc_index osd_plane_idx video_plane_idx l s =
      scan_planes dev fd crtc_index osd_plane_idx video_plane_idx l s := by
  induction l generalizing s with
  | nil => rfl
  | cons j rest ih =>
    unfold scan_planes
    have hstep : scan_plane (with_plane_res dev plane_res) fd crtc_index osd_plane_idx
        video_plane_idx s j =
        scan_plane dev fd crtc_index osd_plane_idx video_plane_idx s j := rfl
    rw [hstep]
    cases scan_plane dev fd crtc_index osd_plane_idx video_plane_idx s j with
    | error e => rfl
    | ok r =>
      cases r with
      | none => rfl
      | some s1 => exact ih s1

/-- Discovery on a device with plane list `plane_res`, in terms of the plane
loop on that list. -/
theorem create_context_with_plane_res (dev : drm_device) (fd : Int)
    (crtc_id connector_id : Nat) (osd_plane_idx video_plane_idx : Int) (res : drmModeRes)
    (plane_res : List Nat) (hres : dev.drmModeGetResources = some res) :
    drm_atomic_create_context (with_plane_res dev plane_res) fd crtc_id connector_id
        osd_plane_idx video_plane_idx =
      match drm_object_create dev fd crtc_id DRM_MODE_OBJECT_CRTC with
      | .error e => .error e
      | .ok none => .ok none
      | .ok (some crtc) =>
        match find_connector dev fd connector_id res.connectors with
        | .error e => .error e
        | .ok connector =>
          match scan_planes dev fd (find_crtc_index crtc_id res.crtcs 0) osd_plane_idx
              video_plane_idx plane_res scan_state.init with
          | .error e => .error e
          | .ok none => .ok none
          | .ok (some s) =>
            match resolve_osd_plane dev fd osd_plane_idx s with
            | .error e => .error e
            | .ok none => .ok none
            | .ok (some osd_plane) =>
              match resolve_video_plane dev fd video_plane_idx s with
              | .error e => .error e
              | .ok none => .ok none
              | .ok (some video_plane) =>
                match video_plane, osd_plane with
                | some _, some _ =>
                  .ok (some { fd := fd, crtc := some crtc, connector := connector,
                              osd_plane := osd_plane, video_plane := video_plane,
                              request := none, old := drm_old_state.zero })
                | _, _ => .error .null_deref := by
  have h1 : (with_plane_res dev plane_res).drmModeGetResources = some res := hres
  have h2 : (with_plane_res dev plane_res).drmModeGetPlaneResources = some plane_res := rfl
  have h3 : ∀ id type, drm_object_create (with_plane_res dev plane_res) fd id type =
      drm_object_create dev fd id type := fun _ _ => rfl
  have h4 : ∀ idx s, resolve_osd_plane (with_plane_res dev plane_res) fd idx s =
      resolve_osd_plane dev fd idx s := fun _ _ => rfl
  have h5 : ∀ idx s, resolve_video_plane (with_plane_res dev plane_res) fd idx s =
      resolve_video_plane dev fd idx s := fun _ _ => rfl
  unfold drm_atomic_create_context
  simp only [h1, h2, h3, h4, h5, find_connector_with_plane_res, scan_planes_with_plane_res]

/-- C16: for a target CRTC that occurs in the resource CRTC array at an index
below 32, two plane lists whose planes can all be fetched and whose eligible
planes (those with the CRTC's bit set) are the same list give the same result
of `drm_atomic_create_context` for the same selectors: both calls fail, or
both return a context with the same OSD plane id and the same video plane
id. -/
theorem discovery_depends_on_eligible_planes (dev : drm_device) (fd : Int)
    (crtc_id connector_id : Nat) (osd_plane_idx video_plane_idx : Int) (res : drmModeRes)
    (l1 l2 : List Nat) (hres : dev.drmModeGetResources = some res)
    (hcrtc : crtc_id ∈ res.crtcs) (h32 : res.crtcs.indexOf crtc_id < 32)
    (hf1 : ∀ j ∈ l1, dev.drmModeGetPlane j ≠ none)
    (hf2 : ∀ j ∈ l2, dev.drmModeGetPlane j ≠ none)
    (heq : eligible_planes dev ((res.crtcs.indexOf crtc_id : Nat) : Int) l1 =
      eligible_planes dev ((res.crtcs.indexOf crtc_id : Nat) : Int) l2) :
    drm_atomic_create_context (with_plane_res dev l1) fd crtc_id connector_id osd_plane_idx
        video_plane_idx =
      drm_atomic_create_context (with_plane_res dev l2) fd crtc_id connector_id osd_plane_idx
        video_plane_idx ∧
    plane_ids (drm_atomic_create_context (with_plane_res dev l1) fd crtc_id connector_id
        osd_plane_idx video_plane_idx) =
      plane_ids (drm_atomic_create_context (with_plane_res dev l2) fd crtc_id connector_id
        osd_plane_idx video_plane_idx) := by
  have hidx : find_crtc_index crtc_id res.crtcs 0 = ((res.crtcs.indexOf crtc_id : Nat) : Int) := by
    rw [find_crtc_index_eq crtc_id res.crtcs 0 hcrtc, Nat.zero_add]
  have hscan : scan_planes dev fd (find_crtc_index crtc_id res.crtcs 0) osd_plane_idx
      video_plane_idx l1 scan_state.init =
      scan_planes dev fd (find_crtc_index crtc_id res.crtcs 0) osd_plane_idx
        video_plane_idx l2 scan_state.init := by
    rw [hidx, scan_planes_eq_fetched _ _ _ _ _ l1 _ hf1,
      scan_planes_eq_fetched _ _ _ _ _ l2 _ hf2,
      scan_fetched_planes_filter _ _ _ _ _ (by omega) (by omega) (scanned_planes dev l1),
      scan_fetched_planes_filter _ _ _ _ _ (by omega) (by omega) (scanned_planes dev l2)]
    unfold eligible_planes at heq
    rw [heq]
  have hmain : drm_atomic_create_context (with_plane_res dev l1) fd crtc_id connector_id
      osd_plane_idx video_plane_idx =
      drm_atomic_create_context (with_plane_res dev l2) fd crtc_id connector_id osd_plane_idx
        video_plane_idx := by
    rw [create_context_with_plane_res _ _ _ _ _ _ res l1 hres,
      create_context_with_plane_res _ _ _ _ _ _ res l2 hres, hscan]
  exact ⟨hmain, by rw [hmain]⟩

/-- Witness for C16: on `mixed_device` the lists `[31, 32]` and
`[50, 31, 50, 32, 50]` differ only by the ineligible plane 50, and discovery
gives OSD plane 32 and video plane 31 on both. -/
theorem discovery_depends_on_eligible_planes_witness :
    plane_ids (drm_atomic_create_context (with_plane_res mixed_device [31, 32]) 3 10 20
        (-2) (-1)) =
      plane_ids (drm_atomic_create_context (with_plane_res mixed_device [50, 31, 50, 32, 50])
        3 10 20 (-2) (-1)) ∧
    plane_ids (drm_atomic_create_context (with_plane_res mixed_device [50, 31, 50, 32, 50])
        3 10 20 (-2) (-1)) = some (some (some 32, some 31)) :=
  ⟨(discovery_depends_on_eligible_planes mixed_device 3 10 20 (-2) (-1) scenario_res
      [31, 32] [50, 31, 50, 32, 50] rfl (by decide) (by decide) (by decide) (by decide)
      (by decide)).2, rfl⟩

/-! ## Snapshot and restore of the old state -/

theorem slot_matches_present (name : String) (p : drmModePropertyRes) (sl : Nat × Nat) :
    slot_matches name (some p, sl) = decide (strcasecmp name.data p.name.data = 0) := by
  simp only [slot_matches, eq_ignore_case, strcasecmp_eq_zero_iff]

theorem zip_drop_cons (info : List drmModePropertyRes) (slots : List (Nat × Nat)) (i : Nat)
    (hi : i < info.length) (hlen : info.length = slots.length) :
    ((info.map some).zip slots).drop i =
      (some info[i], slots[i]) :: ((info.map some).zip slots).drop (i + 1) := by
  have hz : i < ((info.map some).zip slots).length := by
    simp [List.length_zip]
    omega
  rw [List.drop_eq_getElem_cons hz]
  congr 1
  simp [List.getElem_zip]

theorem get_property_loop_eq (slots : List (Nat × Nat)) (info : List drmModePropertyRes)
    (name : String) (value : Nat) (hlen : info.length = slots.length) (n i : Nat)
    (hn : i + n = info.length) :
    get_property_loop { slots := slots } (some (info.map some)) name value n i =
      match (((info.map some).zip slots).drop i).find? (slot_matches name) with
      | some (some _, sl) => .ok (0, sl.2)
      | _ => .ok (-EINVAL, value) := by
  induction n generalizing i with
  | zero =>
    have hd : ((info.map some).zip slots).drop i = [] := by
      apply List.drop_eq_nil_of_le
      simp [List.length_zip]
      omega
    rw [hd]
    rfl
  | succ n ih =>
    have hi : i < info.length := by omega
    have his : i < slots.length := by omega
    rw [get_property_loop_step _ _ _ _ _ _ _ (getElem?_map_some_of_lt info i hi),
      zip_drop_cons info slots i hi hlen, List.find?_cons, slot_matches_present]
    by_cases hm : strcasecmp name.data info[i].name.data = 0
    · simp only [hm, if_true, decide_True]
      rw [List.getElem?_eq_getElem his]
    · simp only [hm, if_false, decide_False]
      exact ih (i + 1) (by omega)

theorem set_property_loop_eq (request : drmModeAtomicReq) (object : drm_object)
    (slots : List (Nat × Nat)) (info : List drmModePropertyRes)
    (name : String) (value : Nat) (hlen : info.length = slots.length) (n i : Nat)
    (hn : i + n = info.length) :
    set_property_loop request object (some (info.map some)) name value n i =
      match (((info.map some).zip slots).drop i).find? (slot_matches name) with
      | some (some p, _) => .ok (drmModeAtomicAddProperty request object.id p.prop_id value)
      | _ => .ok (-EINVAL, request) := by
  induction n generalizing i with
  | zero =>
    have hd : ((info.map some).zip slots).drop i = [] := by
      apply List.drop_eq_nil_of_le
      simp [List.length_zip]
      omega
    rw [hd]
    rfl
  | succ n ih =>
    have hi : i < info.length := by omega
    rw [set_property_loop_step _ _ _ _ _ _ _ _ (getElem?_map_some_of_lt info i hi),
      zip_drop_cons info slots i hi hlen, List.find?_cons, slot_matches_present]
    by_cases hm : strcasecmp name.data info[i].name.data = 0
    · simp only [hm, if_true, decide_True]
    · simp only [hm, if_false, decide_False]
      exact ih (i + 1) (by omega)

/-- On a table with every slot present, `drm_object_get_property` returns the
cached value of the first matching slot, or `-EINVAL` with `*value` untouched. -/
theorem drm_object_get_property_eq (object : drm_object) (h : object.all_slots_present)
    (name : String) (value : Nat) :
    drm_object_get_property object name value =
      match object.first_match name with
      | some (_, v) => .ok (0, v)
      | none => .ok (-EINVAL, value) := by
  obtain ⟨props, info, hp, hi, hlen⟩ := h
  obtain ⟨slots⟩ := props
  unfold drm_object_get_property drm_object.first_match
  simp only [hp, hi]
  have hl := get_property_loop_eq slots info name value hlen slots.length 0
    (by simp [drmModeObjectProperties.count_props] at hlen; omega)
  simp only [List.drop_zero] at hl
  simp only [drmModeObjectProperties.count_props]
  rw [hl]
  cases hf : ((info.map some).zip slots).find? (slot_matches name) with
  | none => rfl
  | some e =>
    obtain ⟨op, sl⟩ := e
    cases op <;> rfl

/-- On a table with every slot present, `drm_object_set_property` stages the
item of the first matching slot, or returns `-EINVAL` with the request
untouched. -/
theorem drm_object_set_property_eq (request : drmModeAtomicReq) (object : drm_object)
    (h : object.all_slots_present) (name : String) (value : Nat) :
    drm_object_set_property request object name value =
      match object.first_match name with
      | some (prop_id, _) => .ok (drmModeAtomicAddProperty request object.id prop_id value)
      | none => .ok (-EINVAL, request) := by
  obtain ⟨props, info, hp, hi, hlen⟩ := h
  obtain ⟨slots⟩ := props
  unfold drm_object_set_property drm_object.first_match
  simp only [hp, hi]
  have hl := set_property_loop_eq request object slots info name value hlen slots.length 0
    (by simp [drmModeObjectProperties.count_props] at hlen; omega)
  simp only [List.drop_zero] at hl
  simp only [drmModeObjectProperties.count_props]
  rw [hl]
  cases hf : ((info.map some).zip slots).find? (slot_matches name) with
  | none => rfl
  | some e =>
    obtain ⟨op, sl⟩ := e
    cases op <;> rfl

/-- One read of the snapshot on a table with every slot present: the value
kept is the cached value of the property, or the previous content when the
object has no such property. -/
theorem save_old_property_eq (object : drm_object) (h : object.all_slots_present)
    (name : String) (value : Nat) (ret : Int) :
    save_old_property (some object) name value ret =
      .ok (if (object.first_match name).isSome then ret else -1,
        ((object.first_match name).map fun e => e.2).getD value) := by
  unfold save_old_property
  simp only [drm_object_get_property_eq object h]
  cases object.first_match name with
  | none => rfl
  | some e => rfl

/-- One step of the restore that follows a read of the same property: the item
staged carries the value the object caches for the property. -/
theorem restore_old_property_eq (request : drmModeAtomicReq) (object : drm_object)
    (h : object.all_slots_present) (name : String) (value : Nat) (ret : Int) :
    restore_old_property request (some object) name
        (((object.first_match name).map fun e => e.2).getD value) ret =
      .ok (if (object.first_match name).isSome then ret else -1,
        request ++ snapshot_item (object, name)) := by
  unfold restore_old_property snapshot_item
  simp only [drm_object_set_property_eq request object h]
  cases object.first_match name with
  | none => simp [EINVAL]
  | some e =>
    obtain ⟨pid, v⟩ := e
    simp only [drmModeAtomicAddProperty, Option.map_some, Option.getD_some, Option.isSome_some,
      if_true]
    have hpos : ¬ (Int.ofNat (request.length + 1) < 0) := by
      simp only [Int.ofNat_eq_coe]
      omega
    rw [if_neg hpos]
    rfl

theorem tracked_properties_objects (connector crtc osd_plane : drm_object) :
    ∀ e ∈ tracked_properties connector crtc osd_plane,
      e.1 = connector ∨ e.1 = crtc ∨ e.1 = osd_plane := by
  intro e he
  simp only [tracked_properties, List.mem_cons, List.mem_singleton, List.not_mem_nil,
    or_false] at he
  rcases he with h | h | h | h | h | h | h | h | h | h | h | h | h <;> simp [h]

/-- C12: for a context whose connector, CRTC and OSD plane objects are present
with fully loaded property tables, `drm_atomic_save_old_state` completes and
leaves the three objects as they were, and `drm_atomic_restore_old_state`
called right after it appends to the request, in the fixed property order
(connector CRTC_ID; CRTC MODE_ID, ACTIVE; OSD plane FB_ID, CRTC_ID, SRC_X,
SRC_Y, SRC_W, SRC_H, CRTC_X, CRTC_Y, CRTC_W, CRTC_H), one item per tracked
property the object has, carrying exactly the value that
`drm_object_get_property` reads for that property at snapshot time. -/
theorem save_then_restore_stages_snapshot (ctx : drm_atomic_context)
    (request : drmModeAtomicReq) (connector crtc osd_plane : drm_object)
    (hconn : ctx.connector = some connector) (hcrtc : ctx.crtc = some crtc)
    (hosd : ctx.osd_plane = some osd_plane)
    (h1 : connector.all_slots_present) (h2 : crtc.all_slots_present)
    (h3 : osd_plane.all_slots_present) :
    ∃ ret ctx1, drm_atomic_save_old_state ctx = .ok (ret, ctx1) ∧
      ctx1.connector = ctx.connector ∧ ctx1.crtc = ctx.crtc ∧
      ctx1.osd_plane = ctx.osd_plane ∧
      (∃ ret1, drm_atomic_restore_old_state request ctx1 =
        .ok (ret1, request ++ snapshot_items (tracked_properties connector crtc osd_plane))) ∧
      (∀ e ∈ tracked_properties connector crtc osd_plane, ∀ (prop_id value w : Nat),
        e.1.first_match e.2 = some (prop_id, value) →
        drm_object_get_property e.1 e.2 w = .ok (0, value) ∧
        ({ object_id := e.1.id, property_id := prop_id, value := value } :
          drmModeAtomicReqItem) ∈
          snapshot_items (tracked_properties connector crtc osd_plane)) := by
  unfold drm_atomic_save_old_state
  simp only [hconn, hcrtc, hosd, save_old_property_eq _ h1, save_old_property_eq _ h2,
    save_old_property_eq _ h3, Except.bind]
  refine ⟨_, _, rfl, rfl, rfl, rfl, ?_, ?_⟩
  · unfold drm_atomic_restore_old_state
    simp only [hconn, hcrtc, hosd, restore_old_property_eq _ _ h1,
      restore_old_property_eq _ _ h2, restore_old_property_eq _ _ h3, Except.bind]
    simp only [snapshot_items, tracked_properties, List.append_assoc, List.append_nil]
    exact ⟨_, rfl⟩
  · intro e he prop_id value w hfm
    have hall : e.1.all_slots_present := by
      rcases tracked_properties_objects connector crtc osd_plane e he with h | h | h <;>
        rw [h] <;> assumption
    constructor
    · rw [drm_object_get_property_eq e.1 hall, hfm]
    · have hitem : ({ object_id := e.1.id, property_id := prop_id, value := value } :
          drmModeAtomicReqItem) ∈ snapshot_item e := by
        simp [snapshot_item, hfm]
      have hsub : ∀ (l : List (drm_object × String)), e ∈ l →
          ∀ x ∈ snapshot_item e, x ∈ snapshot_items l := by
        intro l
        induction l with
        | nil => intro hm; cases hm
        | cons a rest ih =>
          intro hm x hx
          simp only [snapshot_items, List.mem_append]
          rcases List.mem_cons.mp hm with h | h
          · left
            rw [← h]
            exact hx
          · right
            exact ih h x hx
      exact hsub _ he _ hitem

/-- Witness for C12 on `sample_context`: the plane has no SRC_H property, so
twelve items are staged. -/
theorem save_then_restore_stages_snapshot_witness :
    ∃ ret ctx1, drm_atomic_save_old_state sample_context = .ok (ret, ctx1) ∧
      ctx1.connector = sample_context.connector ∧ ctx1.crtc = sample_context.crtc ∧
      ctx1.osd_plane = sample_context.osd_plane ∧
      (∃ ret1, drm_atomic_restore_old_state [] ctx1 =
        .ok (ret1, [] ++ snapshot_items
          (tracked_properties sample_connector sample_crtc sample_plane))) ∧
      (∀ e ∈ tracked_properties sample_connector sample_crtc sample_plane,
        ∀ (prop_id value w : Nat),
        e.1.first_match e.2 = some (prop_id, value) →
        drm_object_get_property e.1 e.2 w = .ok (0, value) ∧
        ({ object_id := e.1.id, property_id := prop_id, value := value } :
          drmModeAtomicReqItem) ∈
          snapshot_items (tracked_properties sample_connector sample_crtc sample_plane)) :=
  save_then_restore_stages_snapshot sample_context [] sample_connector sample_crtc
    sample_plane rfl rfl rfl ⟨_, [_], rfl, rfl, rfl⟩ ⟨_, [_, _], rfl, rfl, rfl⟩
    ⟨_, [_, _, _, _, _, _, _, _, _, _], rfl, rfl, rfl⟩

/-- The items staged for `sample_context`, evaluated. -/
theorem sample_context_snapshot_items :
    snapshot_items (tracked_properties sample_connector sample_crtc sample_plane) =
      [{ object_id := 20, property_id := 1, value := 10 },
       { object_id := 10, property_id := 2, value := 77 },
       { object_id := 10, property_id := 3, value := 1 },
       { object_id := 32, property_id := 5, value := 99 },
       { object_id := 32, property_id := 6, value := 10 },
       { object_id := 32, property_id := 7, value := 1 },
       { object_id := 32, property_id := 8, value := 2 },
       { object_id := 32, property_id := 9, value := 640 },
       { object_id := 32, property_id := 10, value := 3 },
       { object_id := 32, property_id := 11, value := 4 },
       { object_id := 32, property_id := 12, value := 800 },
       { object_id := 32, property_id := 13, value := 600 }] := by
  decide

/-! ## Distinctness of the two roles -/

/-- C4, amended: whenever `drm_atomic_create_context` succeeds, the OSD plane
and the video plane both have a TYPE other than cursor.  Their ids are
distinct when the two roles are claimed by two different in-range indices
(the eligible non-cursor planes having pairwise distinct ids) and when both
selectors are policies (negative) that resolve to opposite types; they are
equal when both selectors are policies that resolve to the same type.  In
general, with non-zero and pairwise distinct plane ids, each role is the plane
its selectors determine (`osd_choice`, `video_choice`), and the two ids are
equal exactly when those two planes are the same plane. -/
theorem osd_video_planes_distinct_unless_same_choice (dev : drm_device) (fd : Int)
    (crtc_id connector_id : Nat) (osd_plane_idx video_plane_idx : Int) (res : drmModeRes)
    (plane_res : List Nat) (ctx : drm_atomic_context)
    (hres : dev.drmModeGetResources = some res)
    (hpl : dev.drmModeGetPlaneResources = some plane_res)
    (hok : drm_atomic_create_context dev fd crtc_id connector_id osd_plane_idx
      video_plane_idx = .ok (some ctx)) :
    ∃ o v, ctx.osd_plane = some o ∧ ctx.video_plane = some v ∧
      (∃ t, drm_object_get_property o "TYPE" 0 = .ok (0, t) ∧ t ≠ DRM_PLANE_TYPE_CURSOR) ∧
      (∃ t, drm_object_get_property v "TYPE" 0 = .ok (0, t) ∧ t ≠ DRM_PLANE_TYPE_CURSOR) ∧
      (((layer_planes dev fd (find_crtc_index crtc_id res.crtcs 0) plane_res).map
          fun p => p.plane_id).Nodup →
        0 ≤ osd_plane_idx →
        osd_plane_idx <
          ((layer_planes dev fd (find_crtc_index crtc_id res.crtcs 0) plane_res).length : Int) →
        0 ≤ video_plane_idx →
        video_plane_idx <
          ((layer_planes dev fd (find_crtc_index crtc_id res.crtcs 0) plane_res).length : Int) →
        video_plane_idx ≠ osd_plane_idx → o.id ≠ v.id) ∧
      (osd_plane_idx < 0 → video_plane_idx < 0 →
        (osd_plane_idx = DRM_OPTS_OVERLAY_PLANE ↔ video_plane_idx = DRM_OPTS_PRIMARY_PLANE) →
        o.id ≠ v.id) ∧
      (osd_plane_idx < 0 → video_plane_idx < 0 →
        ¬ (osd_plane_idx = DRM_OPTS_OVERLAY_PLANE ↔
          video_plane_idx = DRM_OPTS_PRIMARY_PLANE) →
        o.id = v.id) ∧
      (plane_ids_nonzero dev plane_res →
        ((layer_planes dev fd (find_crtc_index crtc_id res.crtcs 0) plane_res).map
          fun p => p.plane_id).Nodup →
        ∃ po pv,
          osd_choice dev fd (find_crtc_index crtc_id res.crtcs 0) plane_res osd_plane_idx
            = some po ∧
          video_choice dev fd (find_crtc_index crtc_id res.crtcs 0) plane_res osd_plane_idx
            video_plane_idx = some pv ∧
          o.id = po.plane_id ∧ v.id = pv.plane_id ∧ (o.id = v.id ↔ po = pv)) := by
  obtain ⟨res1, plane_res1, cs, crtc, o, v, hres1, hpl1, _, _, hcs, hosd, hvid, _,
    hco, hcv⟩ := create_context_ok hok
  rw [hres] at hres1
  rw [hpl] at hpl1
  injection hres1 with hres1
  injection hpl1 with hpl1
  subst hres1
  subst hpl1
  have hlen := probe_planes_length plane_res cs hcs
  obtain ⟨co, hcomem, hcoeq, hcocase⟩ := osd_selection hcs hosd
  obtain ⟨cv, hcvmem, hcveq, hcvcase⟩ := video_selection hcs hvid
  obtain ⟨_, _, _, hocr, hoty, hocur⟩ := probe_planes_mem plane_res cs hcs co hcomem
  obtain ⟨_, _, _, hvcr, hvty, hvcur⟩ := probe_planes_mem plane_res cs hcs cv hcvmem
  rw [hcoeq] at hocr hoty
  rw [hcveq] at hvcr hvty
  have hdiff : co.2 ≠ cv.2 → o.id ≠ v.id := by
    intro hne hid
    rw [hid, hvcr] at hocr
    injection hocr with hocr
    injection hocr with hocr
    rw [← hocr, hvty] at hoty
    injection hoty with hoty
    injection hoty with _ hoty
    exact hne hoty.symm
  have hot : osd_plane_idx < 0 → co.2 = (if osd_plane_idx = DRM_OPTS_OVERLAY_PLANE then
      DRM_PLANE_TYPE_OVERLAY else DRM_PLANE_TYPE_PRIMARY) ∧
      o.id = (if osd_plane_idx = DRM_OPTS_OVERLAY_PLANE then
        (cs.foldl (claim_plane osd_plane_idx video_plane_idx) scan_state.init).overlay_id
        else
        (cs.foldl (claim_plane osd_plane_idx video_plane_idx) scan_state.init).primary_id) := by
    intro hneg
    rcases hcocase with ⟨k, hk, _⟩ | ⟨_, ht, hid⟩
    · omega
    · exact ⟨ht, by rw [← hcoeq]; exact hid⟩
  have hvt : video_plane_idx < 0 → cv.2 = (if video_plane_idx = DRM_OPTS_PRIMARY_PLANE then
      DRM_PLANE_TYPE_PRIMARY else DRM_PLANE_TYPE_OVERLAY) ∧
      v.id = (if video_plane_idx = DRM_OPTS_PRIMARY_PLANE then
        (cs.foldl (claim_plane osd_plane_idx video_plane_idx) scan_state.init).primary_id
        else
        (cs.foldl (claim_plane osd_plane_idx video_plane_idx) scan_state.init).overlay_id) := by
    intro hneg
    rcases hcvcase with ⟨k, hk, _⟩ | ⟨_, ht, hid⟩
    · omega
    · exact ⟨ht, by rw [← hcveq]; exact hid⟩
  refine ⟨o, v, hco, hcv, ⟨co.2, hoty, hocur⟩, ⟨cv.2, hvty, hvcur⟩, ?_, ?_, ?_, ?_⟩
  · intro hnodup ho0 holt hv0 hvlt hne
    have h1 := osd_index_claim hcs hosd ho0 holt
    have h2 := video_index_claim hcs hvid hv0 hvlt hne
    exact getElem?_ne_of_nodup hnodup (by omega) h1 h2
  · intro ho hv hiff
    apply hdiff
    rw [(hot ho).1, (hvt hv).1]
    by_cases h : osd_plane_idx = DRM_OPTS_OVERLAY_PLANE
    · rw [if_pos h, if_pos (hiff.mp h)]
      decide
    · rw [if_neg h, if_neg (fun hh => h (hiff.mpr hh))]
      decide
  · intro ho hv hniff
    rw [(hot ho).2, (hvt hv).2]
    by_cases h : osd_plane_idx = DRM_OPTS_OVERLAY_PLANE
    · have h2 : ¬ video_plane_idx = DRM_OPTS_PRIMARY_PLANE := fun hh =>
        hniff ⟨fun _ => hh, fun _ => h⟩
      rw [if_pos h, if_neg h2]
    · have h2 : video_plane_idx = DRM_OPTS_PRIMARY_PLANE := by
        by_contra hh
        exact hniff ⟨fun h1 => absurd h1 h, fun h1 => absurd h1 hh⟩
      rw [if_neg h, if_pos h2]
  · intro hnz hnodup
    have hcsnz := probe_planes_nonzero plane_res cs hcs hnz
    obtain ⟨po, hpo, hpoid, hpomem⟩ := osd_choice_spec hcs hcsnz hosd
    obtain ⟨pv, hpv, hpvid, hpvmem⟩ := video_choice_spec hcs hcsnz hvid
    refine ⟨po, pv, hpo, hpv, hpoid, hpvid, ?_⟩
    constructor
    · intro hid
      apply List.inj_on_of_nodup_map hnodup hpomem hpvmem
      rw [← hpoid, ← hpvid]
      exact hid
    · intro hpp
      rw [hpoid, hpvid, hpp]

/-- Witness for the amended C4: on the example device, index selectors 0 and 1
and policy selectors -2 and -1 both give two different plane ids. -/
theorem osd_video_planes_distinct_unless_same_choice_witness :
    (∃ o v,
      (the_context (drm_atomic_create_context scenario_device 3 10 20 0 1)).osd_plane
        = some o ∧
      (the_context (drm_atomic_create_context scenario_device 3 10 20 0 1)).video_plane
        = some v ∧ o.id ≠ v.id) ∧
    (∃ o v,
      (the_context (drm_atomic_create_context scenario_device 3 10 20 (-2) (-1))).osd_plane
        = some o ∧
      (the_context (drm_atomic_create_context scenario_device 3 10 20 (-2) (-1))).video_plane
        = some v ∧ o.id ≠ v.id) := by
  constructor
  · obtain ⟨o, v, ho, hv, _, _, hidx, _, _, _⟩ :=
      osd_video_planes_distinct_unless_same_choice scenario_device 3 10 20 0 1 scenario_res
        scenario_planes (the_context (drm_atomic_create_context scenario_device 3 10 20 0 1))
        rfl rfl rfl
    exact ⟨o, v, ho, hv, hidx (by decide) (by decide) (by decide) (by decide) (by decide)
      (by decide)⟩
  · obtain ⟨o, v, ho, hv, _, _, _, hopp, _, _⟩ :=
      osd_video_planes_distinct_unless_same_choice scenario_device 3 10 20 (-2) (-1)
        scenario_res scenario_planes
        (the_context (drm_atomic_create_context scenario_device 3 10 20 (-2) (-1)))
        rfl rfl (by rfl)
    exact ⟨o, v, ho, hv, hopp (by decide) (by decide) (by decide)⟩

end DrmAtomic
